import Mathlib

/-!
# Verification of the SFC controller L2 CNP driver

Shallow embedding of `controller/cnpdriver/l2driver/sfcctlr_l2_driver.go`
(the L2 VxLan tunnel CNP wiring engine) and proofs about its behaviour.

Modelling conventions:
* Go `uint32` values are `Nat` reduced mod `2^32` at the operations where
  Go wraps (increments and the `StartingVlanId - 1` seed).
* Go maps are functions `String → Option α`; a Go map read of a missing
  key yields the zero value, modelled by `Option.getD` with a zero record.
* The key-value store and the external-entity driver are opaque sinks:
  every put and every driver call is recorded as an `Event` in program
  order, and store puts never fail in the model (store failures are
  environmental, not behaviour of the engine).
* Functions are explicit state passing: `CnpDriver → CnpDriver × Except String α`;
  Go's early `return err` keeps all mutations made so far, which the
  state threading preserves.
* The datastore ID-binding accessors (`Datastore*IDs*`) and the `ipam`
  package are in repository files that are not available; they are
  modelled from the spec (each such definition is marked).
-/

namespace SfcL2

/-- The uint32 modulus. -/
def U32 : Nat := 4294967296

/-- uint32 increment with wrap-around (Go `x++` on uint32). -/
def inc32 (n : Nat) : Nat := (n + 1) % U32

/-- uint32 decrement with wrap-around (Go `x - 1` on uint32). -/
def dec32 (n : Nat) : Nat := (n + (U32 - 1)) % U32

/-- Functional update of a string-keyed map. -/
def upd {α : Type} (m : String → Option α) (k : String) (v : α) : String → Option α :=
  fun k' => if k' = k then some v else m k'

/-- Functional update of a pair-keyed map. -/
def upd2 {α : Type} (m : String × String → Option α) (k : String × String) (v : α) :
    String × String → Option α :=
  fun k' => if k' = k then some v else m k'

/-- Functional update of a triple-keyed map. -/
def upd3 {α : Type} (m : String × String × String → Option α) (k : String × String × String)
    (v : α) : String × String × String → Option α :=
  fun k' => if k' = k then some v else m k'

/-- The empty string-keyed map. -/
def emptyMap {α : Type} : String → Option α := fun _ => none

/-! ## Declarative input model (controller/model/controller/controller.proto) -/

inductive RxModeType
  | RX_MODE_UNKNOWN
  | RX_MODE_POLLING
  | RX_MODE_INTERRUPT
  deriving DecidableEq, Repr

structure BDParms where
  Flood : Bool
  UnknownUnicastFlood : Bool
  Forward : Bool
  Learn : Bool
  ArpTermination : Bool
  MacAge : Nat
  deriving DecidableEq, Repr

structure SystemParameters where
  Mtu : Nat
  StartingVlanId : Nat
  DefaultStaticRouteWeight : Nat
  DefaultStaticRoutePreference : Nat
  DynamicBridgeParms : BDParms
  StaticBridgeParms : BDParms
  deriving DecidableEq, Repr

structure EEHostInterface where
  IfName : String
  Ipv4Addr : String
  deriving DecidableEq, Repr

structure EEHostVxlan where
  IfName : String
  SourceIpv4 : String
  deriving DecidableEq, Repr

/-- `ExternalEntity` input record; only the fields the wiring engine reads
are carried (management endpoint and credentials are opaque to it).
`HostInterface` and `HostVxlan` are Go pointers, hence `Option`. -/
structure ExternalEntity where
  Name : String
  HostInterface : Option EEHostInterface
  HostVxlan : Option EEHostVxlan
  deriving DecidableEq, Repr

/-- The Go zero value of `ExternalEntity` (a map read of a missing key). -/
def ExternalEntity.zero : ExternalEntity :=
  { Name := "", HostInterface := none, HostVxlan := none }

structure HostEntity where
  Name : String
  EthIfName : String
  EthIpv4 : String
  EthIpv6 : String
  LoopbackMacAddr : String
  LoopbackIpv4 : String
  LoopbackIpv6 : String
  VxlanTunnelIpv4 : String
  CreateVxlanStaticRoute : Bool
  Mtu : Nat
  RxMode : RxModeType
  deriving DecidableEq, Repr

/-- The Go zero value of `HostEntity`. -/
def HostEntity.zero : HostEntity :=
  { Name := "", EthIfName := "", EthIpv4 := "", EthIpv6 := "", LoopbackMacAddr := "",
    LoopbackIpv4 := "", LoopbackIpv6 := "", VxlanTunnelIpv4 := "",
    CreateVxlanStaticRoute := false, Mtu := 0, RxMode := RxModeType.RX_MODE_UNKNOWN }

inductive SfcType
  | SFC_UNKNOWN_TYPE
  | SFC_NS_VXLAN
  | SFC_NS_NIC_BD
  | SFC_NS_NIC_L2XCONN
  | SFC_NS_NIC_VRF
  | SFC_EW_BD
  | SFC_EW_L2XCONN
  | SFC_EW_BD_L2FIB
  | SFC_EW_VRF_FIB
  | SFC_EW_MEMIF
  | SFC_EW_VETH
  deriving DecidableEq, Repr

inductive SfcElementType
  | ELEMENT_UNKNOWN
  | EXTERNAL_ENTITY
  | VPP_CONTAINER_MEMIF
  | NON_VPP_CONTAINER_AFP
  | NON_VPP_CONTAINER_MEMIF
  | HOST_ENTITY
  | VPP_CONTAINER_AFP
  deriving DecidableEq, Repr

structure L3VRFRoute where
  VrfId : Nat
  Description : String
  DstIpAddr : String
  NextHopAddr : String
  OutgoingInterface : String
  Weight : Nat
  Preference : Nat
  deriving DecidableEq, Repr

structure L3ArpEntry where
  IpAddress : String
  PhysAddress : String
  deriving DecidableEq, Repr

/-- `SfcEntity.SfcElement` input record.  Go field `sfc_ipv4_prefix` of the
parent and this record's fields keep their Go names except where noted. -/
structure SfcElement where
  Container : String
  PortLabel : String
  EtcdVppSwitchKey : String
  Ipv4Addr : String
  MacAddr : String
  Type' : SfcElementType
  VlanId : Nat
  Mtu : Nat
  RxMode : RxModeType
  L2FibMacs : List String
  Ipv6Addr : String
  L3VrfRoutes : List L3VRFRoute
  L3ArpEntries : List L3ArpEntry
  deriving DecidableEq, Repr

/-- The Go zero value of `SfcElement`. -/
def SfcElement.zero : SfcElement :=
  { Container := "", PortLabel := "", EtcdVppSwitchKey := "", Ipv4Addr := "", MacAddr := "",
    Type' := SfcElementType.ELEMENT_UNKNOWN, VlanId := 0, Mtu := 0,
    RxMode := RxModeType.RX_MODE_UNKNOWN, L2FibMacs := [], Ipv6Addr := "",
    L3VrfRoutes := [], L3ArpEntries := [] }

/-- `SfcEntity` input record.  `SfcIpv4Subnet` carries the Go field
`sfc_ipv4_prefix` (renamed only in spelling). -/
structure SfcEntity where
  Name : String
  Type' : SfcType
  SfcIpv4Subnet : String
  VnfRepeatCount : Nat
  BdParms : Option BDParms
  Elements : List SfcElement
  deriving DecidableEq, Repr

/-! ## Derived resource records (vpp-agent models) -/

inductive InterfaceType
  | ETHERNET_CSMACD
  | SOFTWARE_LOOPBACK
  | VXLAN_TUNNEL
  | MEMORY_INTERFACE
  | AF_PACKET_INTERFACE
  deriving DecidableEq, Repr

inductive IfRxModeType
  | INTERRUPT
  | POLLING
  deriving DecidableEq, Repr

structure IfaceVxlan where
  SrcAddress : String
  DstAddress : String
  Vni : Nat
  deriving DecidableEq, Repr

structure IfaceMemif where
  Id : Nat
  Master : Bool
  SocketFilename : String
  deriving DecidableEq, Repr

structure IfaceAfpacket where
  HostIfName : String
  deriving DecidableEq, Repr

structure IfaceRxModeSettings where
  RxMode : IfRxModeType
  deriving DecidableEq, Repr

/-- `interfaces.Interfaces_Interface` (vpp interface record). -/
structure Iface where
  Name : String
  Type' : InterfaceType
  Enabled : Bool
  PhysAddress : String
  Mtu : Nat
  IpAddresses : List String
  Vxlan : Option IfaceVxlan
  Memif : Option IfaceMemif
  Afpacket : Option IfaceAfpacket
  RxModeSettings : Option IfaceRxModeSettings
  deriving DecidableEq, Repr

structure BDInterface where
  Name : String
  deriving DecidableEq, Repr

/-- `l2.BridgeDomains_BridgeDomain`. -/
structure BridgeDomain where
  Name : String
  Flood : Bool
  UnknownUnicastFlood : Bool
  Forward : Bool
  Learn : Bool
  ArpTermination : Bool
  MacAge : Nat
  Interfaces : List BDInterface
  deriving DecidableEq, Repr

/-- `l3.StaticRoutes_Route`. -/
structure StaticRoute where
  VrfId : Nat
  Description : String
  DstIpAddr : String
  NextHopAddr : String
  Weight : Nat
  OutgoingInterface : String
  Preference : Nat
  deriving DecidableEq, Repr

/-- `l3.ArpTable_ArpTableEntry`. -/
structure ArpEntry where
  Interface : String
  Static : Bool
  IpAddress : String
  PhysAddress : String
  deriving DecidableEq, Repr

/-- `l2.XConnectPairs_XConnectPair`. -/
structure XConnectPair where
  ReceiveInterface : String
  TransmitInterface : String
  deriving DecidableEq, Repr

inductive L2FibAction
  | FORWARD
  deriving DecidableEq, Repr

/-- `l2.FibTableEntries_FibTableEntry`. -/
structure L2FibEntry where
  BridgeDomain : String
  PhysAddress : String
  Action : L2FibAction
  OutgoingInterface : String
  StaticConfig : Bool
  deriving DecidableEq, Repr

/-- `linuxIntf.LinuxInterfaces_Interface` (veth record); only the fields the
engine populates. -/
structure LinuxIface where
  Name : String
  Enabled : Bool
  PhysAddress : String
  HostIfName : String
  IpAddresses : List String
  Mtu : Nat
  Microservice : String
  PeerIfName : String
  deriving DecidableEq, Repr

/-! ## Events: store writes and external-driver calls, in program order -/

inductive Event
  | putVppInterface (switchKey : String) (iface : Iface)
  | putBD (switchKey : String) (bd : BridgeDomain)
  | putStaticRoute (switchKey : String) (sr : StaticRoute)
  | putXConnect (switchKey : String) (xc : XConnectPair)
  | putBDFIB (switchKey : String) (fib : L2FibEntry)
  | putArpEntry (storeKey : String) (ae : ArpEntry)
  | putLinuxInterface (switchKey : String) (li : LinuxIface)
  | wireEEToHE (eeName : String) (heName : String) (vni : Nat) (sr : StaticRoute)
  | wireEEInternals (eeName : String)
  deriving DecidableEq, Repr

/-- An event is a write to the key-value store (as opposed to a call into
the external-entity driver, which is not a store write). -/
def Event.isStoreWrite : Event → Bool
  | Event.putVppInterface _ _ => true
  | Event.putBD _ _ => true
  | Event.putStaticRoute _ _ => true
  | Event.putXConnect _ _ => true
  | Event.putBDFIB _ _ => true
  | Event.putArpEntry _ _ => true
  | Event.putLinuxInterface _ _ => true
  | Event.wireEEToHE _ _ _ _ => false
  | Event.wireEEInternals _ => false

/-! ## State cache types (the in-memory derived state) -/

structure SfcInterfaceAddressStateType where
  ipAddress : String
  macAddress : String
  deriving DecidableEq, Repr

/-- `heToEEStateType`: lazily materialised per-(host, external-entity) edge. -/
structure HEToEEStateType where
  vlanIf : Option Iface
  bd : Option BridgeDomain
  l3Route : Option StaticRoute
  deriving DecidableEq, Repr

/-- `heToHEStateType`: lazily materialised per-(source-host, dest-host) edge. -/
structure HEToHEStateType where
  vlanIf : Option Iface
  bd : Option BridgeDomain
  l3Route : Option StaticRoute
  deriving DecidableEq, Repr

/-- `heStateType`: the two default east-west bridges of a host. -/
structure HEStateType where
  ewBD : Option BridgeDomain
  ewBDL2Fib : Option BridgeDomain
  deriving DecidableEq, Repr

structure L2CNPStateCacheType where
  HEToEEs : String → Option (String → Option HEToEEStateType)
  HEToHEs : String → Option (String → Option HEToHEStateType)
  SFCToHEs : String → Option (String → Option HEStateType)
  HE : String → Option HEStateType
  SFCIFAddr : String → Option SfcInterfaceAddressStateType

structure L2CNPEntityCacheType where
  EEs : String → Option ExternalEntity
  HEs : String → Option HostEntity
  SFCs : String → Option SfcEntity
  SysParms : SystemParameters

/-- `sequencer`: the grouped monotonic uint32 counters. -/
structure Sequencer where
  VLanID : Nat
  MemIfID : Nat
  MacInstanceID : Nat
  VethID : Nat
  deriving DecidableEq, Repr

/-! ## Persisted ID bindings (datastore)

Modelled from the spec: the datastore accessor file of the l2driver is not
under src/ (only its callers are).  Spec 3 "Persisted ID bindings" gives
four independent tables in a separate store namespace:
`HEIDs[he]`, `HE2EEIDs[he, ee]`, `HE2HEIDs[src-he, dst-he]`,
`SFCIDs[sfc, container, port]`; `Allocate(scope, key)` returns the bound id
if present, else persists a new binding.  Keys are modelled as the tuples
themselves. -/

structure HEIDsRec where
  LoopbackMacAddrId : Nat
  deriving DecidableEq, Repr

structure HE2EEIDsRec where
  VlanId : Nat
  deriving DecidableEq, Repr

structure HE2HEIDsRec where
  VlanId : Nat
  deriving DecidableEq, Repr

structure SFCIDsRec where
  IpId : Nat
  MacAddrId : Nat
  MemifId : Nat
  VethId : Nat
  deriving DecidableEq, Repr

/-- Modelled from the spec: the four persisted ID-binding tables. -/
structure Datastore where
  heIDs : String → Option HEIDsRec
  he2eeIDs : String × String → Option HE2EEIDsRec
  he2heIDs : String × String → Option HE2HEIDsRec
  sfcIDs : String × String × String → Option SFCIDsRec

/-! ## IPAM

Modelled from the spec (4.B): the `ipam` package is not under src/.  Per
subnet a set of used host-ids plus externally claimed addresses; the
deterministic `addr/prefix` text for a host-id is abstracted by
`ipamAddrText` (no claim depends on the dotted-quad arithmetic). -/

structure IpamSubnetState where
  usedIds : List Nat
  claimedAddrs : List String

structure IpamState where
  subnets : String → Option IpamSubnetState

/-- Modelled from the spec: deterministic address text for host-id `id`
inside `subnet`. -/
def ipamAddrText (subnet : String) (id : Nat) : String :=
  subnet ++ "@" ++ toString id

/-- First id at or above `start` not in `used` (fuel-bounded search; the
fuel `used.length + 1` always suffices). -/
def firstFreeFrom (used : List Nat) : Nat → Nat → Nat
  | 0, start => start
  | fuel + 1, start => if used.contains start then firstFreeFrom used fuel (start + 1) else start

/-- Modelled from the spec: `AllocateFromSubnet` returns the next unused
host-id (host-id 0 is reserved) and its address text, marking it used.
The subnet is configured lazily on first use. -/
def ipamAllocateFromSubnet (st : IpamState) (subnet : String) : IpamState × String × Nat :=
  let sub := (st.subnets subnet).getD { usedIds := [], claimedAddrs := [] }
  let id := firstFreeFrom sub.usedIds (sub.usedIds.length + 1) 1
  let sub' := { sub with usedIds := id :: sub.usedIds }
  ({ subnets := upd st.subnets subnet sub' }, ipamAddrText subnet id, id)

/-- Modelled from the spec: `SetIpIDInSubnet` returns the deterministic
address for `id` and marks it used. -/
def ipamSetIpIDInSubnet (st : IpamState) (subnet : String) (id : Nat) : IpamState × String :=
  let sub := (st.subnets subnet).getD { usedIds := [], claimedAddrs := [] }
  let sub' := { sub with usedIds := id :: sub.usedIds }
  ({ subnets := upd st.subnets subnet sub' }, ipamAddrText subnet id)

/-- Modelled from the spec: `SetIpAddrIfInsideSubnet` records an
externally chosen address so its host-id is not re-issued. -/
def ipamSetIpAddrIfInsideSubnet (st : IpamState) (subnet : String) (addr : String) : IpamState :=
  let sub := (st.subnets subnet).getD { usedIds := [], claimedAddrs := [] }
  let sub' := { sub with claimedAddrs := addr :: sub.claimedAddrs }
  { subnets := upd st.subnets subnet sub' }

/-! ## Reconcile buffers

Modelled from the spec (4.F): the reconcile hook implementations are not
under src/.  During reconcile, writes are appended to the in-memory
"after" set keyed by the full store key (modelled as the
(switch, resource-name) pair); `reconcileBridgeDomain` merges member
interfaces across calls. -/

structure ReconcileAfter where
  ifs : String × String → Option Iface
  bds : String × String → Option BridgeDomain
  srs : String × String → Option StaticRoute
  lifs : String × String → Option LinuxIface
  heIDs : String → Option HEIDsRec
  he2eeIDs : String × String → Option HE2EEIDsRec
  he2heIDs : String × String → Option HE2HEIDsRec
  sfcIDs : String × String × String → Option SFCIDsRec

/-! ## The driver state -/

structure CnpDriver where
  l2CNPEntityCache : L2CNPEntityCacheType
  l2CNPStateCache : L2CNPStateCacheType
  reconcileAfter : ReconcileAfter
  reconcileInProgress : Bool
  seq : Sequencer
  datastore : Datastore
  ipamState : IpamState
  events : List Event

/-! ## Utility functions (direct translations) -/

/-- `stripSlashAndSubnetIpv4Address`: if the ip address has a /xx subnet
attached, it is stripped off (Go `strings.Split(s, "/")[0]`). -/
def stripSlashAndSubnetIpv4Address (ipAndSubnetStr : String) : String :=
  (ipAndSubnetStr.splitOn "/").headD ""

/-- `replaceSlashesWithUScores`: Go joins the "/"-split pieces with "_". -/
def replaceSlashesWithUScores (slashesString : String) : String :=
  String.intercalate "_" (slashesString.splitOn "/")

/-- Upper-case hexadecimal digit (for Go `fmt.Sprintf("%02X", _)`). -/
def hexDigit (n : Nat) : Char :=
  "0123456789ABCDEF".toList.getD n '0'

/-- Two-digit upper-case hex of a byte (Go `%02X` on a value below 256). -/
def toHex2 (n : Nat) : String :=
  String.mk [hexDigit (n / 16), hexDigit (n % 16)]

/-- Byte `k` (from the least significant) of `n`: Go `0xFF & (n >> (8*k))`. -/
def byteAt (n k : Nat) : Nat := n / 2 ^ (8 * k) % 256

/-- `formatMacAddress`: `02:` followed by the five big-endian bytes of the
(uint32, widened to uint64) mac instance id, as upper-case hex octets. -/
def formatMacAddress (macInstanceID32 : Nat) : String :=
  let macInstanceID := macInstanceID32 % U32
  toHex2 2 ++ ":" ++ toHex2 (byteAt macInstanceID 4) ++ ":" ++ toHex2 (byteAt macInstanceID 3)
    ++ ":" ++ toHex2 (byteAt macInstanceID 2) ++ ":" ++ toHex2 (byteAt macInstanceID 1)
    ++ ":" ++ toHex2 (byteAt macInstanceID 0)

/-- `stringFirstNLastM`: the whole string when short enough, else the first
`n` and last `m` characters. -/
def stringFirstNLastM (n m : Nat) (str : String) : String :=
  if str.length ≤ n + m then str
  else
    let l := str.toList
    String.mk (l.take n ++ l.drop (l.length - m))

/-- Character budget adjustment of `constructBaseHostName` for the
container budget when the port (or veth-id) string is short. -/
def constructBaseHostName (container : String) (port : String) (v : String) : String :=
  let cb := 2
  let ce := 3
  let pb := 2
  let pe := 3
  let (pb, pe) :=
    if container.length < 5 then
      match container.length with
      | 4 => (pb + 1, pe)
      | 3 => (pb + 1, pe + 1)
      | 2 => (pb + 2, pe + 1)
      | 1 => (pb + 2, pe + 2)
      | _ => (pb, pe)
    else (pb, pe)
  let (cb, ce) :=
    if port.length < 5 then
      match port.length with
      | 4 => (cb + 1, ce)
      | 3 => (cb + 1, ce + 1)
      | 2 => (cb + 2, ce + 1)
      | 1 => (cb + 2, ce + 2)
      | _ => (cb, ce)
    else (cb, ce)
  let (cb, ce) :=
    if v.length < 3 then
      match v.length with
      | 2 => (cb + 1, ce)
      | 1 => (cb + 1, ce + 1)
      | _ => (cb, ce)
    else (cb, ce)
  stringFirstNLastM cb ce container ++ "_" ++ stringFirstNLastM pb pe port

/-- Base-36 digit (Go `strconv.FormatUint(_, 36)` uses lower case). -/
def base36Digit (n : Nat) : Char :=
  "0123456789abcdefghijklmnopqrstuvwxyz".toList.getD n '0'

/-- Fuel-bounded base-36 digits, most significant first. -/
def toBase36Aux : Nat → Nat → List Char
  | 0, _ => []
  | fuel + 1, n =>
    if n < 36 then [base36Digit n]
    else toBase36Aux fuel (n / 36) ++ [base36Digit (n % 36)]

/-- Go `strconv.FormatUint(n, 36)`. -/
def toBase36 (n : Nat) : String := String.mk (toBase36Aux (n + 1) n)

/-- `constructIpv4AndV6AddressArray`: nil when both empty, else the
non-empty addresses, ipv4 first. -/
def constructIpv4AndV6AddressArray (ipv4 : String) (ipv6 : String) : List String :=
  if ipv4 ≠ "" ∨ ipv6 ≠ "" then
    (if ipv4 ≠ "" then [ipv4] else []) ++ (if ipv6 ≠ "" then [ipv6] else [])
  else []

/-- `rxModeControllerToInterface`: translate the controller rx-mode enum to
the dataplane rx-mode enum; nil for unknown. -/
def rxModeControllerToInterface (contrtollerRxMode : RxModeType) : Option IfaceRxModeSettings :=
  match contrtollerRxMode with
  | RxModeType.RX_MODE_INTERRUPT => some { RxMode := IfRxModeType.INTERRUPT }
  | RxModeType.RX_MODE_POLLING => some { RxMode := IfRxModeType.POLLING }
  | RxModeType.RX_MODE_UNKNOWN => none

/-- Modelled from the spec: `utils.ArpEntryKey` is not under src/; spec 6
keys static ARP entries as switch/arp-prefix/outgoing-if/ip. -/
def ArpEntryKey (etcdVppSwitchKey : String) (outGoingIf : String) (ipAddr : String) : String :=
  etcdVppSwitchKey ++ "/arp/" ++ outGoingIf ++ "/" ++ ipAddr

/-- `getMtu`: element MTU, or the system default when 0. -/
def getMtu (cnpd : CnpDriver) (mtu : Nat) : Nat :=
  if mtu = 0 then cnpd.l2CNPEntityCache.SysParms.Mtu else mtu

/-- `ByIfName` sort of bridge-domain member interfaces (defined in the
source; note it is never invoked on the write path). -/
def sortBridgedInterfaces (ifs : List BDInterface) : List BDInterface :=
  ifs.mergeSort (fun a b => a.Name ≤ b.Name)

/-! ## Datastore accessors

Modelled from the spec: retrieval returns the bound record; creation
persists the binding and returns its key and record (persisting never
fails in the model; the store is an opaque sink). -/

/-- Modelled from the spec: look up the `HEIDs[he]` binding. -/
def DatastoreHEIDsRetrieve (cnpd : CnpDriver) (heName : String) : Option HEIDsRec :=
  cnpd.datastore.heIDs heName

/-- Modelled from the spec: persist the `HEIDs[he]` binding. -/
def DatastoreHEIDsCreate (cnpd : CnpDriver) (heName : String) (loopbackMacAddrId : Nat) :
    CnpDriver × String × HEIDsRec :=
  let rec' : HEIDsRec := { LoopbackMacAddrId := loopbackMacAddrId }
  ({ cnpd with datastore.heIDs := upd cnpd.datastore.heIDs heName rec' }, heName, rec')

/-- Modelled from the spec: look up the `HE2EEIDs[he, ee]` binding. -/
def DatastoreHE2EEIDsRetrieve (cnpd : CnpDriver) (heName eeName : String) : Option HE2EEIDsRec :=
  cnpd.datastore.he2eeIDs (heName, eeName)

/-- Modelled from the spec: persist the `HE2EEIDs[he, ee]` binding. -/
def DatastoreHE2EEIDsCreate (cnpd : CnpDriver) (heName eeName : String) (vlanID : Nat) :
    CnpDriver × (String × String) × HE2EEIDsRec :=
  let rec' : HE2EEIDsRec := { VlanId := vlanID }
  ({ cnpd with datastore.he2eeIDs := upd2 cnpd.datastore.he2eeIDs (heName, eeName) rec' },
    (heName, eeName), rec')

/-- Modelled from the spec: look up the `HE2HEIDs[src-he, dst-he]` binding. -/
def DatastoreHE2HEIDsRetrieve (cnpd : CnpDriver) (shName dhName : String) : Option HE2HEIDsRec :=
  cnpd.datastore.he2heIDs (shName, dhName)

/-- Modelled from the spec: persist the `HE2HEIDs[src-he, dst-he]` binding. -/
def DatastoreHE2HEIDsCreate (cnpd : CnpDriver) (shName dhName : String) (vlanID : Nat) :
    CnpDriver × (String × String) × HE2HEIDsRec :=
  let rec' : HE2HEIDsRec := { VlanId := vlanID }
  ({ cnpd with datastore.he2heIDs := upd2 cnpd.datastore.he2heIDs (shName, dhName) rec' },
    (shName, dhName), rec')

/-- Modelled from the spec: look up the `SFCIDs[sfc, container, port]` binding. -/
def DatastoreSFCIDsRetrieve (cnpd : CnpDriver) (sfcName containerName portName : String) :
    Option SFCIDsRec :=
  cnpd.datastore.sfcIDs (sfcName, containerName, portName)

/-- Modelled from the spec: persist the `SFCIDs[sfc, container, port]` binding. -/
def DatastoreSFCIDsCreate (cnpd : CnpDriver) (sfcName containerName portName : String)
    (ipID macAddrID memifID vethID : Nat) :
    CnpDriver × (String × String × String) × SFCIDsRec :=
  let rec' : SFCIDsRec := { IpId := ipID, MacAddrId := macAddrID, MemifId := memifID,
                            VethId := vethID }
  ({ cnpd with
      datastore.sfcIDs := upd3 cnpd.datastore.sfcIDs (sfcName, containerName, portName) rec' },
    (sfcName, containerName, portName), rec')

/-! ## Reconcile hooks (modelled from the spec, 4.F) -/

/-- Modelled from the spec: buffer an interface into the "after" set. -/
def reconcileInterface (ra : ReconcileAfter) (etcdVppSwitchKey : String) (iface : Iface) :
    ReconcileAfter :=
  { ra with ifs := upd2 ra.ifs (etcdVppSwitchKey, iface.Name) iface }

/-- Append, preserving order, the members of `ifs` whose names are not
already members (the merge used by the bridge-domain hooks and by
`bridgedDomainAssociateWithIfs`). -/
def appendMissingIfs (cur : List BDInterface) (ifs : List BDInterface) : List BDInterface :=
  match ifs with
  | [] => cur
  | iface :: rest =>
    if cur.any (fun bi => bi.Name = iface.Name) then appendMissingIfs cur rest
    else appendMissingIfs (cur ++ [iface]) rest

/-- Modelled from the spec: buffer a bridge domain into the "after" set;
bridges accumulate members across calls. -/
def reconcileBridgeDomain (ra : ReconcileAfter) (etcdVppSwitchKey : String) (bd : BridgeDomain) :
    ReconcileAfter :=
  match ra.bds (etcdVppSwitchKey, bd.Name) with
  | none => { ra with bds := upd2 ra.bds (etcdVppSwitchKey, bd.Name) bd }
  | some old =>
    let merged := { bd with Interfaces := appendMissingIfs old.Interfaces bd.Interfaces }
    { ra with bds := upd2 ra.bds (etcdVppSwitchKey, bd.Name) merged }

/-- Modelled from the spec: buffer a static route into the "after" set. -/
def reconcileStaticRoute (ra : ReconcileAfter) (etcdVppSwitchKey : String) (sr : StaticRoute) :
    ReconcileAfter :=
  { ra with srs := upd2 ra.srs (etcdVppSwitchKey, sr.Description) sr }

/-- Modelled from the spec: buffer a linux (veth) interface into the
"after" set. -/
def reconcileLinuxInterface (ra : ReconcileAfter) (etcdVppSwitchKey : String) (ifname : String)
    (linuxif : LinuxIface) : ReconcileAfter :=
  { ra with lifs := upd2 ra.lifs (etcdVppSwitchKey, ifname) linuxif }

/-! ## Resource builders (write through the store gateway or buffer)

In the source each builder returns `(resource, error)` where the only
error path is a failed store put (or buffered write).  The model's store
is an opaque, always-successful sink, so builders return the resource
directly; `Except` appears only where the source can return a
configuration error. -/

/-- `createStaticRoute`. -/
def createStaticRoute (cnpd : CnpDriver) (vrfID : Nat)
    (etcdVppSwitchKey description destIpv4AddrStr netHopIpv4Addr outGoingIf : String)
    (weight pref : Nat) : CnpDriver × StaticRoute :=
  let sr : StaticRoute :=
    { VrfId := vrfID, Description := description, DstIpAddr := destIpv4AddrStr,
      NextHopAddr := stripSlashAndSubnetIpv4Address netHopIpv4Addr, Weight := weight,
      OutgoingInterface := outGoingIf, Preference := pref }
  if cnpd.reconcileInProgress then
    ({ cnpd with reconcileAfter := reconcileStaticRoute cnpd.reconcileAfter etcdVppSwitchKey sr },
      sr)
  else
    ({ cnpd with events := cnpd.events ++ [Event.putStaticRoute etcdVppSwitchKey sr] }, sr)

/-- `createStaticArpEntry`: the reconcile branch is commented out in the
source, so the entry is always put to the store under `ArpEntryKey`. -/
def createStaticArpEntry (cnpd : CnpDriver)
    (etcdVppSwitchKey destIPAddress physAddress outGoingIf : String) :
    CnpDriver × ArpEntry :=
  let ae : ArpEntry :=
    { Interface := outGoingIf, Static := true, IpAddress := destIPAddress,
      PhysAddress := physAddress }
  let key := ArpEntryKey etcdVppSwitchKey outGoingIf destIPAddress
  ({ cnpd with events := cnpd.events ++ [Event.putArpEntry key ae] }, ae)

/-- `createXConnect`: no reconcile branch in the source; always a store put. -/
def createXConnect (cnpd : CnpDriver) (etcdVppSwitchKey rxIf txIf : String) : CnpDriver :=
  let xconn : XConnectPair := { ReceiveInterface := rxIf, TransmitInterface := txIf }
  { cnpd with events := cnpd.events ++ [Event.putXConnect etcdVppSwitchKey xconn] }

/-- `createXConnectPair`: the symmetric pair (if1,if2) then (if2,if1). -/
def createXConnectPair (cnpd : CnpDriver) (etcdVppSwitchKey if1 if2 : String) : CnpDriver :=
  let cnpd := createXConnect cnpd etcdVppSwitchKey if1 if2
  createXConnect cnpd etcdVppSwitchKey if2 if1

/-- `createL2FibEntry`: the reconcile branch is commented out in the
source, so the entry is always put to the store. -/
def createL2FibEntry (cnpd : CnpDriver) (etcdVppSwitchKey bdName destMacAddr outGoingIf : String) :
    CnpDriver × L2FibEntry :=
  let l2fib : L2FibEntry :=
    { BridgeDomain := bdName, PhysAddress := destMacAddr, Action := L2FibAction.FORWARD,
      OutgoingInterface := outGoingIf, StaticConfig := true }
  ({ cnpd with events := cnpd.events ++ [Event.putBDFIB etcdVppSwitchKey l2fib] }, l2fib)

/-- `vxLanCreate`. -/
def vxLanCreate (cnpd : CnpDriver) (etcdVppSwitchKey ifname : String) (vni : Nat)
    (srcStr dstStr : String) : CnpDriver × Iface :=
  let src := stripSlashAndSubnetIpv4Address srcStr
  let dst := stripSlashAndSubnetIpv4Address dstStr
  let iface : Iface :=
    { Name := ifname, Type' := InterfaceType.VXLAN_TUNNEL, Enabled := true, PhysAddress := "",
      Mtu := 0, IpAddresses := [],
      Vxlan := some { SrcAddress := src, DstAddress := dst, Vni := vni },
      Memif := none, Afpacket := none, RxModeSettings := none }
  if cnpd.reconcileInProgress then
    ({ cnpd with reconcileAfter := reconcileInterface cnpd.reconcileAfter etcdVppSwitchKey iface },
      iface)
  else
    ({ cnpd with events := cnpd.events ++ [Event.putVppInterface etcdVppSwitchKey iface] }, iface)

/-- `memIfCreate`. -/
def memIfCreate (cnpd : CnpDriver) (etcdVppSwitchKey memIfName : String) (memifID : Nat)
    (isMaster : Bool) (masterContainer ipv4 macAddress ipv6 : String) (mtu : Nat)
    (rxMode : RxModeType) : CnpDriver × Iface :=
  let memIf : Iface :=
    { Name := memIfName, Type' := InterfaceType.MEMORY_INTERFACE, Enabled := true,
      PhysAddress := macAddress, Mtu := mtu,
      IpAddresses := constructIpv4AndV6AddressArray ipv4 ipv6,
      Vxlan := none,
      Memif := some { Id := memifID, Master := isMaster,
                      SocketFilename := "/tmp/memif_" ++ masterContainer ++ ".sock" },
      Afpacket := none, RxModeSettings := rxModeControllerToInterface rxMode }
  if cnpd.reconcileInProgress then
    ({ cnpd with reconcileAfter := reconcileInterface cnpd.reconcileAfter etcdVppSwitchKey memIf },
      memIf)
  else
    ({ cnpd with events := cnpd.events ++ [Event.putVppInterface etcdVppSwitchKey memIf] }, memIf)

/-- `createEthernet`. -/
def createEthernet (cnpd : CnpDriver) (etcdVppSwitchKey ifname ipv4 macAddr ipv6 : String)
    (mtu : Nat) (rxMode : RxModeType) : CnpDriver :=
  let iface : Iface :=
    { Name := ifname, Type' := InterfaceType.ETHERNET_CSMACD, Enabled := true,
      PhysAddress := macAddr, Mtu := mtu,
      IpAddresses := constructIpv4AndV6AddressArray ipv4 ipv6,
      Vxlan := none, Memif := none, Afpacket := none,
      RxModeSettings := rxModeControllerToInterface rxMode }
  if cnpd.reconcileInProgress then
    { cnpd with reconcileAfter := reconcileInterface cnpd.reconcileAfter etcdVppSwitchKey iface }
  else
    { cnpd with events := cnpd.events ++ [Event.putVppInterface etcdVppSwitchKey iface] }

/-- `afPacketCreate`. -/
def afPacketCreate (cnpd : CnpDriver)
    (etcdVppSwitchKey ifName hostIfName ipv4 macAddress ipv6 : String) (mtu : Nat)
    (rxMode : RxModeType) : CnpDriver × Iface :=
  let afPacketIf : Iface :=
    { Name := ifName, Type' := InterfaceType.AF_PACKET_INTERFACE, Enabled := true,
      PhysAddress := macAddress, Mtu := mtu,
      IpAddresses := constructIpv4AndV6AddressArray ipv4 ipv6,
      Vxlan := none, Memif := none, Afpacket := some { HostIfName := hostIfName },
      RxModeSettings := rxModeControllerToInterface rxMode }
  if cnpd.reconcileInProgress then
    ({ cnpd with
        reconcileAfter := reconcileInterface cnpd.reconcileAfter etcdVppSwitchKey afPacketIf },
      afPacketIf)
  else
    ({ cnpd with events := cnpd.events ++ [Event.putVppInterface etcdVppSwitchKey afPacketIf] },
      afPacketIf)

/-- `createLoopback`. -/
def createLoopback (cnpd : CnpDriver) (etcdVppSwitchKey ifname physAddr ipv4 ipv6 : String)
    (mtu : Nat) (rxMode : RxModeType) : CnpDriver :=
  let iface : Iface :=
    { Name := ifname, Type' := InterfaceType.SOFTWARE_LOOPBACK, Enabled := true,
      PhysAddress := physAddr, Mtu := mtu,
      IpAddresses := constructIpv4AndV6AddressArray ipv4 ipv6,
      Vxlan := none, Memif := none, Afpacket := none,
      RxModeSettings := rxModeControllerToInterface rxMode }
  if cnpd.reconcileInProgress then
    { cnpd with reconcileAfter := reconcileInterface cnpd.reconcileAfter etcdVppSwitchKey iface }
  else
    { cnpd with events := cnpd.events ++ [Event.putVppInterface etcdVppSwitchKey iface] }

/-- `vEthIfCreate`. -/
def vEthIfCreate (cnpd : CnpDriver)
    (etcdVppSwitchKey ifname hostIfName peerIfName container physAddr ipv4 ipv6 : String)
    (mtu : Nat) : CnpDriver :=
  let linuxif : LinuxIface :=
    { Name := ifname, Enabled := true, PhysAddress := physAddr, HostIfName := hostIfName,
      IpAddresses := constructIpv4AndV6AddressArray ipv4 ipv6, Mtu := mtu,
      Microservice := container, PeerIfName := peerIfName }
  if cnpd.reconcileInProgress then
    { cnpd with
        reconcileAfter := reconcileLinuxInterface cnpd.reconcileAfter etcdVppSwitchKey ifname
          linuxif }
  else
    { cnpd with events := cnpd.events ++ [Event.putLinuxInterface etcdVppSwitchKey linuxif] }

/-- `bridgedDomainCreateWithIfs`. -/
def bridgedDomainCreateWithIfs (cnpd : CnpDriver) (etcdVppSwitchKey bdName : String)
    (ifs : List BDInterface) (bdParms : BDParms) : CnpDriver × BridgeDomain :=
  let bd : BridgeDomain :=
    { Name := bdName, Flood := bdParms.Flood, UnknownUnicastFlood := bdParms.UnknownUnicastFlood,
      Forward := bdParms.Forward, Learn := bdParms.Learn,
      ArpTermination := bdParms.ArpTermination, MacAge := bdParms.MacAge, Interfaces := ifs }
  if cnpd.reconcileInProgress then
    ({ cnpd with reconcileAfter := reconcileBridgeDomain cnpd.reconcileAfter etcdVppSwitchKey bd },
      bd)
  else
    ({ cnpd with events := cnpd.events ++ [Event.putBD etcdVppSwitchKey bd] }, bd)

/-- `bridgedDomainAssociateWithIfs`: append the new interfaces that are not
already members, then write the bridge through the gateway.  Go mutates
the shared `*BridgeDomain` in place; the model returns the updated record
and callers write it back to the cache slot it was read from. -/
def bridgedDomainAssociateWithIfs (cnpd : CnpDriver) (etcdVppSwitchKey : String)
    (bd : BridgeDomain) (ifs : List BDInterface) : CnpDriver × BridgeDomain :=
  let bd := { bd with Interfaces := appendMissingIfs bd.Interfaces ifs }
  if cnpd.reconcileInProgress then
    ({ cnpd with reconcileAfter := reconcileBridgeDomain cnpd.reconcileAfter etcdVppSwitchKey bd },
      bd)
  else
    ({ cnpd with events := cnpd.events ++ [Event.putBD etcdVppSwitchKey bd] }, bd)

/-- `setSfcInterfaceIPAndMac`. -/
def setSfcInterfaceIPAndMac (cnpd : CnpDriver) (container port ip mac : String) : CnpDriver :=
  { cnpd with
      l2CNPStateCache.SFCIFAddr :=
        upd cnpd.l2CNPStateCache.SFCIFAddr (container ++ "/" ++ port)
          { ipAddress := ip, macAddress := mac } }

/-! ## Cache-entry helpers

Go mutates entries through pointers held in the nested maps; the model
writes the updated record back into the slot it was read from. -/

/-- Write an updated (he, ee) edge record back into `HEToEEs`. -/
def updHEToEEEntry (cnpd : CnpDriver) (hostName eeName : String) (entry : HEToEEStateType) :
    CnpDriver :=
  match cnpd.l2CNPStateCache.HEToEEs hostName with
  | none => cnpd
  | some m =>
    { cnpd with
        l2CNPStateCache.HEToEEs := upd cnpd.l2CNPStateCache.HEToEEs hostName (upd m eeName entry) }

/-- Write an updated (src-he, dst-he) edge record back into `HEToHEs`. -/
def updHEToHEEntry (cnpd : CnpDriver) (shName dhName : String) (entry : HEToHEStateType) :
    CnpDriver :=
  match cnpd.l2CNPStateCache.HEToHEs shName with
  | none => cnpd
  | some m =>
    { cnpd with
        l2CNPStateCache.HEToHEs := upd cnpd.l2CNPStateCache.HEToHEs shName (upd m dhName entry) }

/-- Write an updated host record back into `HE`. -/
def updHEEntry (cnpd : CnpDriver) (heName : String) (entry : HEStateType) : CnpDriver :=
  { cnpd with l2CNPStateCache.HE := upd cnpd.l2CNPStateCache.HE heName entry }

/-- The (he, ee) edge record, if the edge is recorded. -/
def lookupHEToEE (cnpd : CnpDriver) (hostName eeName : String) : Option HEToEEStateType :=
  match cnpd.l2CNPStateCache.HEToEEs hostName with
  | none => none
  | some m => m eeName

/-- The (src-he, dst-he) edge record, if the edge is recorded. -/
def lookupHEToHE (cnpd : CnpDriver) (shName dhName : String) : Option HEToHEStateType :=
  match cnpd.l2CNPStateCache.HEToHEs shName with
  | none => none
  | some m => m dhName

/-! ## Engine operations -/

/-- `SetSystemParameters`: caches the system parameters and seeds the VLAN
counter to `StartingVlanId - 1` (uint32) when the counter is still 0. -/
def SetSystemParameters (cnpd : CnpDriver) (sp : SystemParameters) :
    CnpDriver × Except String Unit :=
  let cnpd := { cnpd with l2CNPEntityCache.SysParms := sp }
  let cnpd :=
    if cnpd.seq.VLanID = 0 then
      { cnpd with seq.VLanID := dec32 cnpd.l2CNPEntityCache.SysParms.StartingVlanId }
    else cnpd
  (cnpd, Except.ok ())

/-- `WireHostEntityToDestinationHostEntity`: record the (sh, dh) edge with
all sub-resources nil; creation is deferred to the first SFC that needs
the edge. -/
def WireHostEntityToDestinationHostEntity (cnpd : CnpDriver) (sh dh : HostEntity) :
    CnpDriver × Except String Unit :=
  let cnpd :=
    { cnpd with
        l2CNPEntityCache.HEs := upd (upd cnpd.l2CNPEntityCache.HEs sh.Name sh) dh.Name dh }
  let (cnpd, heToHEMap) :=
    match cnpd.l2CNPStateCache.HEToHEs sh.Name with
    | some m => (cnpd, m)
    | none =>
      ({ cnpd with l2CNPStateCache.HEToHEs := upd cnpd.l2CNPStateCache.HEToHEs sh.Name emptyMap },
        emptyMap)
  match heToHEMap dh.Name with
  | some _ => (cnpd, Except.ok ())
  | none =>
    let heToHEState : HEToHEStateType := { vlanIf := none, bd := none, l3Route := none }
    ({ cnpd with
        l2CNPStateCache.HEToHEs :=
          upd cnpd.l2CNPStateCache.HEToHEs sh.Name (upd heToHEMap dh.Name heToHEState) },
      Except.ok ())

/-- `WireHostEntityToExternalEntity`: validate the external entity, then
record the (he, ee) edge with all sub-resources nil.  The he and ee
records are cached before the validation check. -/
def WireHostEntityToExternalEntity (cnpd : CnpDriver) (he : HostEntity) (ee : ExternalEntity) :
    CnpDriver × Except String Unit :=
  let cnpd := { cnpd with l2CNPEntityCache.HEs := upd cnpd.l2CNPEntityCache.HEs he.Name he }
  let cnpd := { cnpd with l2CNPEntityCache.EEs := upd cnpd.l2CNPEntityCache.EEs ee.Name ee }
  if ee.HostInterface = none ∨ ee.HostVxlan = none then
    (cnpd, Except.error "invalid external entity config")
  else
    let (cnpd, heToEEMap) :=
      match cnpd.l2CNPStateCache.HEToEEs he.Name with
      | some m => (cnpd, m)
      | none =>
        ({ cnpd with
            l2CNPStateCache.HEToEEs := upd cnpd.l2CNPStateCache.HEToEEs he.Name emptyMap },
          emptyMap)
    match heToEEMap ee.Name with
    | some _ => (cnpd, Except.ok ())
    | none =>
      let heToEEState : HEToEEStateType := { vlanIf := none, bd := none, l3Route := none }
      ({ cnpd with
          l2CNPStateCache.HEToEEs :=
            upd cnpd.l2CNPStateCache.HEToEEs he.Name (upd heToEEMap ee.Name heToEEState) },
        Except.ok ())

/-- `wireExternalEntityToHostEntity`: configure the reverse direction of an
(he, ee) edge: a static route from the external router to the host and the
call into the external-entity driver, reusing the vni of the forward
vxlan tunnel.  Go dereferences `heToEEState.vlanIf.Vxlan.Vni` directly
(nil would panic); the model substitutes the zero value, and every call
site has the tunnel already created. -/
def wireExternalEntityToHostEntity (cnpd : CnpDriver) (ee : ExternalEntity) (he : HostEntity) :
    CnpDriver :=
  match cnpd.l2CNPStateCache.HEToEEs he.Name with
  | none => cnpd
  | some heToEEMap =>
    match heToEEMap ee.Name with
    | none => cnpd
    | some heToEEState =>
      let tmpVlanid :=
        match heToEEState.vlanIf with
        | some vlanIf => match vlanIf.Vxlan with
          | some v => v.Vni
          | none => 0
        | none => 0
      let description := "IF_STATIC_ROUTE_E2H_" ++ he.Name
      let (cnpd, sr) := createStaticRoute cnpd 0 ee.Name description he.VxlanTunnelIpv4
        he.EthIpv4 ((ee.HostInterface.map EEHostInterface.IfName).getD "")
        cnpd.l2CNPEntityCache.SysParms.DefaultStaticRouteWeight
        cnpd.l2CNPEntityCache.SysParms.DefaultStaticRoutePreference
      { cnpd with events := cnpd.events ++ [Event.wireEEToHE ee.Name he.Name tmpVlanid sr] }

/-- `WireInternalsForExternalEntity`: hand the external entity to the
external-entity driver. -/
def WireInternalsForExternalEntity (cnpd : CnpDriver) (ee : ExternalEntity) :
    CnpDriver × Except String Unit :=
  ({ cnpd with events := cnpd.events ++ [Event.wireEEInternals ee.Name] }, Except.ok ())

/-- `WireInternalsForHostEntity`: create the host NIC (when configured),
its loopback (allocating a MAC-instance id when none supplied and no
persisted binding exists) and the two default east-west bridges, then
persist the `HEIDs` binding. -/
def WireInternalsForHostEntity (cnpd : CnpDriver) (he : HostEntity) :
    CnpDriver × Except String Unit :=
  let cnpd := { cnpd with l2CNPEntityCache.HEs := upd cnpd.l2CNPEntityCache.HEs he.Name he }
  match cnpd.l2CNPStateCache.HE he.Name with
  | some _ => (cnpd, Except.ok ())
  | none =>
    let heState : HEStateType := { ewBD := none, ewBDL2Fib := none }
    let cnpd := updHEEntry cnpd he.Name heState
    let mtu := getMtu cnpd he.Mtu
    let cnpd :=
      if he.EthIfName ≠ "" then
        createEthernet cnpd he.Name he.EthIfName he.EthIpv4 "" he.EthIpv6 mtu he.RxMode
      else cnpd
    let (cnpd, loopbackMacAddrID) :=
      if he.LoopbackIpv4 ≠ "" ∨ he.LoopbackIpv6 ≠ "" then
        let (cnpd, loopbackMacAddress, loopbackMacAddrID) :=
          if he.LoopbackMacAddr = "" then
            match DatastoreHEIDsRetrieve cnpd he.Name with
            | some heID =>
              if heID.LoopbackMacAddrId = 0 then
                let cnpd := { cnpd with seq.MacInstanceID := inc32 cnpd.seq.MacInstanceID }
                (cnpd, formatMacAddress cnpd.seq.MacInstanceID, cnpd.seq.MacInstanceID)
              else (cnpd, formatMacAddress heID.LoopbackMacAddrId, heID.LoopbackMacAddrId)
            | none =>
              let cnpd := { cnpd with seq.MacInstanceID := inc32 cnpd.seq.MacInstanceID }
              (cnpd, formatMacAddress cnpd.seq.MacInstanceID, cnpd.seq.MacInstanceID)
          else (cnpd, he.LoopbackMacAddr, 0)
        let mtu := getMtu cnpd he.Mtu
        let loopIfName := "IF_LOOPBACK_H_" ++ he.Name
        let cnpd := createLoopback cnpd he.Name loopIfName loopbackMacAddress he.LoopbackIpv4
          he.LoopbackIpv6 mtu he.RxMode
        (cnpd, loopbackMacAddrID)
      else (cnpd, 0)
    let bdName := "BD_INTERNAL_EW_" ++ he.Name
    let (cnpd, bd) := bridgedDomainCreateWithIfs cnpd he.Name bdName []
      cnpd.l2CNPEntityCache.SysParms.DynamicBridgeParms
    let heState := { heState with ewBD := some bd }
    let cnpd := updHEEntry cnpd he.Name heState
    let bdName := "BD_INTERNAL_EW_L2FIB_" ++ he.Name
    let (cnpd, bd) := bridgedDomainCreateWithIfs cnpd he.Name bdName []
      cnpd.l2CNPEntityCache.SysParms.StaticBridgeParms
    let heState := { heState with ewBDL2Fib := some bd }
    let cnpd := updHEEntry cnpd he.Name heState
    let (cnpd, key, heID) := DatastoreHEIDsCreate cnpd he.Name loopbackMacAddrID
    let cnpd :=
      if cnpd.reconcileInProgress then
        { cnpd with reconcileAfter.heIDs := upd cnpd.reconcileAfter.heIDs key heID }
      else cnpd
    (cnpd, Except.ok ())

/-- The vni retrieve-or-allocate block shared (verbatim in the source) by
`createVxLANAndBridgeToExtEntity` and `createVxLANAndBridgeToDestHost`:
when the element supplied no vlan id, return the persisted `HE2EEIDs`
binding if non-zero, else increment the VLAN counter.  NOTE: both callers
retrieve from the `HE2EEIDs` table - also the host-to-host caller, which
persists into `HE2HEIDs` (see C1). -/
def resolveVxlanVlanID (cnpd : CnpDriver) (aName bName : String) (vlanID : Nat) :
    CnpDriver × Nat :=
  if vlanID = 0 then
    match DatastoreHE2EEIDsRetrieve cnpd aName bName with
    | some he2eeID =>
      if he2eeID.VlanId = 0 then
        let cnpd := { cnpd with seq.VLanID := inc32 cnpd.seq.VLanID }
        (cnpd, cnpd.seq.VLanID)
      else (cnpd, he2eeID.VlanId)
    | none =>
      let cnpd := { cnpd with seq.VLanID := inc32 cnpd.seq.VLanID }
      (cnpd, cnpd.seq.VLanID)
  else (cnpd, vlanID)

/-- First lazy block of `createVxLANAndBridgeToExtEntity`: create the
vxlan tunnel interface if absent, resolving the vni from the element, the
persisted `HE2EEIDs` binding, or a fresh counter allocation, and persist
the binding. -/
def extPhaseVxlan (cnpd : CnpDriver) (hostName eeName : String) (vlanID : Nat)
    (heToEEState : HEToEEStateType) : CnpDriver × HEToEEStateType :=
  match heToEEState.vlanIf with
  | some _ => (cnpd, heToEEState)
  | none =>
    let he := (cnpd.l2CNPEntityCache.HEs hostName).getD HostEntity.zero
    let ee := (cnpd.l2CNPEntityCache.EEs eeName).getD ExternalEntity.zero
    let ifName := "IF_VXLAN_H2E_" ++ he.Name ++ "_" ++ ee.Name
    let (cnpd, vlanID) := resolveVxlanVlanID cnpd he.Name ee.Name vlanID
    let (cnpd, vlanIf) := vxLanCreate cnpd he.Name ifName vlanID he.VxlanTunnelIpv4
      ((ee.HostVxlan.map EEHostVxlan.SourceIpv4).getD "")
    let heToEEState := { heToEEState with vlanIf := some vlanIf }
    let cnpd := updHEToEEEntry cnpd hostName eeName heToEEState
    let (cnpd, key, he2eeID) := DatastoreHE2EEIDsCreate cnpd he.Name ee.Name vlanID
    let cnpd :=
      if cnpd.reconcileInProgress then
        { cnpd with reconcileAfter.he2eeIDs := upd2 cnpd.reconcileAfter.he2eeIDs key he2eeID }
      else cnpd
    (cnpd, heToEEState)

/-- Second lazy block of `createVxLANAndBridgeToExtEntity`: create the
static route toward the external entity if absent and requested. -/
def extPhaseRoute (cnpd : CnpDriver) (hostName eeName : String)
    (heToEEState : HEToEEStateType) : CnpDriver × HEToEEStateType :=
  match heToEEState.l3Route with
  | some _ => (cnpd, heToEEState)
  | none =>
    let he := (cnpd.l2CNPEntityCache.HEs hostName).getD HostEntity.zero
    let ee := (cnpd.l2CNPEntityCache.EEs eeName).getD ExternalEntity.zero
    if he.CreateVxlanStaticRoute then
      let description := "IF_STATIC_ROUTE_H2E_" ++ ee.Name
      let (cnpd, sr) := createStaticRoute cnpd 0 he.Name description
        ((ee.HostVxlan.map EEHostVxlan.SourceIpv4).getD "")
        ((ee.HostInterface.map EEHostInterface.Ipv4Addr).getD "")
        he.EthIfName
        cnpd.l2CNPEntityCache.SysParms.DefaultStaticRouteWeight
        cnpd.l2CNPEntityCache.SysParms.DefaultStaticRoutePreference
      let heToEEState := { heToEEState with l3Route := some sr }
      (updHEToEEEntry cnpd hostName eeName heToEEState, heToEEState)
    else (cnpd, heToEEState)

/-- Third lazy block of `createVxLANAndBridgeToExtEntity`: create the
bridge whose sole initial member is the vxlan interface if absent, and on
that first creation wire the external entity back to the host. -/
def extPhaseBd (cnpd : CnpDriver) (hostName eeName : String)
    (heToEEState : HEToEEStateType) : CnpDriver × BridgeDomain :=
  match heToEEState.bd with
  | some bd => (cnpd, bd)
  | none =>
    let he := (cnpd.l2CNPEntityCache.HEs hostName).getD HostEntity.zero
    let ee := (cnpd.l2CNPEntityCache.EEs eeName).getD ExternalEntity.zero
    let bdName := "BD_H2E_" ++ he.Name ++ "_" ++ ee.Name
    let ifs : List BDInterface := [{ Name := (heToEEState.vlanIf.map Iface.Name).getD "" }]
    let (cnpd, bd) := bridgedDomainCreateWithIfs cnpd he.Name bdName ifs
      cnpd.l2CNPEntityCache.SysParms.DynamicBridgeParms
    let heToEEState := { heToEEState with bd := some bd }
    let cnpd := updHEToEEEntry cnpd hostName eeName heToEEState
    let cnpd := wireExternalEntityToHostEntity cnpd ee he
    (cnpd, bd)

/-- `createVxLANAndBridgeToExtEntity`: lazily create, in order, the vxlan
tunnel to the external entity (allocating a vni when the element supplied
none and no persisted `HE2EEIDs` binding exists), the optional static
route, and the bridge whose sole initial member is the tunnel; on first
bridge creation, wire the external entity back to the host. -/
def createVxLANAndBridgeToExtEntity (cnpd : CnpDriver) (sfc : SfcEntity)
    (hostName eeName : String) (vlanID : Nat) : CnpDriver × Except String BridgeDomain :=
  match cnpd.l2CNPStateCache.HEToEEs hostName with
  | none => (cnpd, Except.error "createVxLANAndBridgeToExtEntity: host not found for this sfc")
  | some heToEEMap =>
  match heToEEMap eeName with
  | none =>
    (cnpd, Except.error "createVxLANAndBridgeToExtEntity: host not wired to this ee for this sfc")
  | some heToEEState =>
  let (cnpd, heToEEState) := extPhaseVxlan cnpd hostName eeName vlanID heToEEState
  let (cnpd, heToEEState) := extPhaseRoute cnpd hostName eeName heToEEState
  let (cnpd, bd) := extPhaseBd cnpd hostName eeName heToEEState
  (cnpd, Except.ok bd)

/-- `createVxLANAndBridgeToDestHost`: lazily create, in order, the vxlan
tunnel to the destination host, the optional static route, and the bridge
whose sole initial member is the tunnel.  NOTE (faithful to the source):
when no `vlan_id` is supplied the code retrieves the persisted binding
with `DatastoreHE2EEIDsRetrieve(sh, dh)` - the (he, ee) table - while the
new binding is persisted with `DatastoreHE2HEIDsCreate(sh, dh)` - the
(he, he) table (source lines 710 and 726). -/
def createVxLANAndBridgeToDestHost (cnpd : CnpDriver) (sfc : SfcEntity)
    (shName dhName : String) (vlanID : Nat) : CnpDriver × Except String BridgeDomain :=
  match cnpd.l2CNPStateCache.HEToHEs shName with
  | none => (cnpd, Except.error "createVxLANAndBridgeToDestHost: host not found for this sfc")
  | some heToHEMap =>
  match heToHEMap dhName with
  | none =>
    (cnpd, Except.error "createVxLANAndBridgeToDestHost: host not wired to this ee for this sfc")
  | some heToHEState =>
  let (cnpd, heToHEState) :=
    match heToHEState.vlanIf with
    | some _ => (cnpd, heToHEState)
    | none =>
      let sh := (cnpd.l2CNPEntityCache.HEs shName).getD HostEntity.zero
      let dh := (cnpd.l2CNPEntityCache.HEs dhName).getD HostEntity.zero
      let ifName := "IF_VXLAN_H2H_" ++ sh.Name ++ "_" ++ dh.Name
      let (cnpd, vlanID) := resolveVxlanVlanID cnpd sh.Name dh.Name vlanID
      let (cnpd, vlanIf) := vxLanCreate cnpd sh.Name ifName vlanID sh.VxlanTunnelIpv4
        dh.VxlanTunnelIpv4
      let heToHEState := { heToHEState with vlanIf := some vlanIf }
      let cnpd := updHEToHEEntry cnpd shName dhName heToHEState
      let (cnpd, key, sh2dhID) := DatastoreHE2HEIDsCreate cnpd sh.Name dh.Name vlanID
      let cnpd :=
        if cnpd.reconcileInProgress then
          { cnpd with reconcileAfter.he2heIDs := upd2 cnpd.reconcileAfter.he2heIDs key sh2dhID }
        else cnpd
      (cnpd, heToHEState)
  let (cnpd, heToHEState) :=
    match heToHEState.l3Route with
    | some _ => (cnpd, heToHEState)
    | none =>
      let sh := (cnpd.l2CNPEntityCache.HEs shName).getD HostEntity.zero
      let dh := (cnpd.l2CNPEntityCache.HEs dhName).getD HostEntity.zero
      if sh.CreateVxlanStaticRoute then
        let description := "IF_STATIC_ROUTE_H2H_" ++ dh.Name
        let (cnpd, sr) := createStaticRoute cnpd 0 sh.Name description dh.VxlanTunnelIpv4
          dh.EthIpv4 sh.EthIfName
          cnpd.l2CNPEntityCache.SysParms.DefaultStaticRouteWeight
          cnpd.l2CNPEntityCache.SysParms.DefaultStaticRoutePreference
        let heToHEState := { heToHEState with l3Route := some sr }
        (updHEToHEEntry cnpd shName dhName heToHEState, heToHEState)
      else (cnpd, heToHEState)
  match heToHEState.bd with
  | some bd => (cnpd, Except.ok bd)
  | none =>
    let sh := (cnpd.l2CNPEntityCache.HEs shName).getD HostEntity.zero
    let dh := (cnpd.l2CNPEntityCache.HEs dhName).getD HostEntity.zero
    let bdName := "BD_H2H_" ++ sh.Name ++ "_" ++ dh.Name
    let ifs : List BDInterface := [{ Name := (heToHEState.vlanIf.map Iface.Name).getD "" }]
    let (cnpd, bd) := bridgedDomainCreateWithIfs cnpd sh.Name bdName ifs
      cnpd.l2CNPEntityCache.SysParms.DynamicBridgeParms
    let heToHEState := { heToHEState with bd := some bd }
    let cnpd := updHEToHEEntry cnpd shName dhName heToHEState
    (cnpd, Except.ok bd)

/-- The Go zero value (nil pointer target) of `BridgeDomain`; used where Go
would dereference a bridge pointer that its control flow guarantees
non-nil. -/
def BridgeDomain.zero : BridgeDomain :=
  { Name := "", Flood := false, UnknownUnicastFlood := false, Forward := false, Learn := false,
    ArpTermination := false, MacAge := 0, Interfaces := [] }

/-- `createMemIfPair`: create the container-end and vswitch-end memif
interfaces, allocating (or reusing persisted) memif / ip / mac-instance
ids, then persist the `SFCIDs` binding and record the assigned addresses.
Returns the vswitch-end memif interface name. -/
def createMemIfPair (cnpd : CnpDriver) (sfc : SfcEntity) (hostName : String)
    (vnfChainElement : SfcElement) (generateAddresses : Bool) : CnpDriver × String :=
  let sfcID := DatastoreSFCIDsRetrieve cnpd sfc.Name vnfChainElement.Container
    vnfChainElement.PortLabel
  let (cnpd, memifID) :=
    match sfcID with
    | some r =>
      if r.MemifId = 0 then
        let cnpd := { cnpd with seq.MemIfID := inc32 cnpd.seq.MemIfID }
        (cnpd, cnpd.seq.MemIfID)
      else (cnpd, r.MemifId)
    | none =>
      let cnpd := { cnpd with seq.MemIfID := inc32 cnpd.seq.MemIfID }
      (cnpd, cnpd.seq.MemIfID)
  let (cnpd, ipv4Address, ipID) :=
    if vnfChainElement.Ipv4Addr = "" then
      if generateAddresses then
        if sfc.SfcIpv4Subnet ≠ "" then
          match sfcID with
          | some r =>
            if r.IpId = 0 then
              let (ipamState, addr, id) := ipamAllocateFromSubnet cnpd.ipamState
                sfc.SfcIpv4Subnet
              ({ cnpd with ipamState := ipamState }, addr, id)
            else
              let (ipamState, addr) := ipamSetIpIDInSubnet cnpd.ipamState sfc.SfcIpv4Subnet r.IpId
              ({ cnpd with ipamState := ipamState }, addr, r.IpId)
          | none =>
            let (ipamState, addr, id) := ipamAllocateFromSubnet cnpd.ipamState sfc.SfcIpv4Subnet
            ({ cnpd with ipamState := ipamState }, addr, id)
        else (cnpd, "", 0)
      else (cnpd, "", 0)
    else
      let strs := vnfChainElement.Ipv4Addr.splitOn "/"
      let ipv4Address :=
        if strs.length = 2 then vnfChainElement.Ipv4Addr else vnfChainElement.Ipv4Addr ++ "/24"
      let cnpd :=
        if sfc.SfcIpv4Subnet ≠ "" then
          { cnpd with
              ipamState := ipamSetIpAddrIfInsideSubnet cnpd.ipamState sfc.SfcIpv4Subnet
                (strs.headD "") }
        else cnpd
      (cnpd, ipv4Address, 0)
  let (cnpd, macAddress, macAddrID) :=
    if vnfChainElement.MacAddr = "" then
      if generateAddresses then
        match sfcID with
        | some r =>
          if r.MacAddrId = 0 then
            let cnpd := { cnpd with seq.MacInstanceID := inc32 cnpd.seq.MacInstanceID }
            (cnpd, formatMacAddress cnpd.seq.MacInstanceID, cnpd.seq.MacInstanceID)
          else (cnpd, formatMacAddress r.MacAddrId, r.MacAddrId)
        | none =>
          let cnpd := { cnpd with seq.MacInstanceID := inc32 cnpd.seq.MacInstanceID }
          (cnpd, formatMacAddress cnpd.seq.MacInstanceID, cnpd.seq.MacInstanceID)
      else (cnpd, "", 0)
    else (cnpd, vnfChainElement.MacAddr, 0)
  let mtu := getMtu cnpd vnfChainElement.Mtu
  let rxMode := vnfChainElement.RxMode
  let memIfName := vnfChainElement.PortLabel
  let (cnpd, _) := memIfCreate cnpd vnfChainElement.Container memIfName memifID false
    vnfChainElement.EtcdVppSwitchKey ipv4Address macAddress vnfChainElement.Ipv6Addr mtu rxMode
  let memIfName := "IF_MEMIF_VSWITCH_" ++ vnfChainElement.Container ++ "_" ++
    vnfChainElement.PortLabel
  let (cnpd, _) := memIfCreate cnpd vnfChainElement.EtcdVppSwitchKey memIfName memifID true
    vnfChainElement.EtcdVppSwitchKey "" "" "" mtu rxMode
  let (cnpd, key, sfcIDNew) := DatastoreSFCIDsCreate cnpd sfc.Name vnfChainElement.Container
    vnfChainElement.PortLabel ipID macAddrID memifID 0
  let cnpd :=
    if cnpd.reconcileInProgress then
      { cnpd with reconcileAfter.sfcIDs := upd3 cnpd.reconcileAfter.sfcIDs key sfcIDNew }
    else cnpd
  let cnpd := setSfcInterfaceIPAndMac cnpd vnfChainElement.Container vnfChainElement.PortLabel
    ipv4Address macAddress
  (cnpd, memIfName)

/-- `createMemIfPairAndAddToBridge`: the memif pair, then the vswitch-end
interface appended to the bridge.  Returns the interface name and the
updated bridge (mutated in place in Go). -/
def createMemIfPairAndAddToBridge (cnpd : CnpDriver) (sfc : SfcEntity) (hostName : String)
    (bd : BridgeDomain) (vnfChainElement : SfcElement) (generateAddresses : Bool) :
    CnpDriver × String × BridgeDomain :=
  let (cnpd, memIfName) := createMemIfPair cnpd sfc hostName vnfChainElement generateAddresses
  let ifs : List BDInterface := [{ Name := memIfName }]
  let (cnpd, bd) := bridgedDomainAssociateWithIfs cnpd vnfChainElement.EtcdVppSwitchKey bd ifs
  (cnpd, memIfName, bd)

/-- `createAFPacketVEthPair`: create the veth pair (vnf and vswitch end)
and the af-packet interfaces, allocating (or reusing persisted) veth /
ip / mac-instance ids, then persist the `SFCIDs` binding.  Returns the
vswitch-end af-packet interface name. -/
def createAFPacketVEthPair (cnpd : CnpDriver) (sfc : SfcEntity)
    (vnfChainElement : SfcElement) : CnpDriver × String :=
  let ipv6Address := vnfChainElement.Ipv6Addr
  let sfcID := DatastoreSFCIDsRetrieve cnpd sfc.Name vnfChainElement.Container
    vnfChainElement.PortLabel
  let (cnpd, vethID) :=
    match sfcID with
    | some r =>
      if r.VethId = 0 then
        let cnpd := { cnpd with seq.VethID := inc32 cnpd.seq.VethID }
        (cnpd, cnpd.seq.VethID)
      else (cnpd, r.VethId)
    | none =>
      let cnpd := { cnpd with seq.VethID := inc32 cnpd.seq.VethID }
      (cnpd, cnpd.seq.VethID)
  let (cnpd, ipv4Address, ipID) :=
    if vnfChainElement.Ipv4Addr = "" then
      if sfc.SfcIpv4Subnet ≠ "" then
        match sfcID with
        | some r =>
          if r.IpId = 0 then
            let (ipamState, addr, id) := ipamAllocateFromSubnet cnpd.ipamState sfc.SfcIpv4Subnet
            ({ cnpd with ipamState := ipamState }, addr, id)
          else
            let (ipamState, addr) := ipamSetIpIDInSubnet cnpd.ipamState sfc.SfcIpv4Subnet r.IpId
            ({ cnpd with ipamState := ipamState }, addr, r.IpId)
        | none =>
          let (ipamState, addr, id) := ipamAllocateFromSubnet cnpd.ipamState sfc.SfcIpv4Subnet
          ({ cnpd with ipamState := ipamState }, addr, id)
      else (cnpd, "", 0)
    else
      let strs := vnfChainElement.Ipv4Addr.splitOn "/"
      let ipv4Address :=
        if strs.length = 2 then vnfChainElement.Ipv4Addr else vnfChainElement.Ipv4Addr ++ "/24"
      let cnpd :=
        if sfc.SfcIpv4Subnet ≠ "" then
          { cnpd with
              ipamState := ipamSetIpAddrIfInsideSubnet cnpd.ipamState sfc.SfcIpv4Subnet
                (strs.headD "") }
        else cnpd
      (cnpd, ipv4Address, 0)
  let (cnpd, macAddress, macAddrID) :=
    if vnfChainElement.MacAddr = "" then
      match sfcID with
      | some r =>
        if r.MacAddrId = 0 then
          let cnpd := { cnpd with seq.MacInstanceID := inc32 cnpd.seq.MacInstanceID }
          (cnpd, formatMacAddress cnpd.seq.MacInstanceID, cnpd.seq.MacInstanceID)
        else (cnpd, formatMacAddress r.MacAddrId, r.MacAddrId)
      | none =>
        let cnpd := { cnpd with seq.MacInstanceID := inc32 cnpd.seq.MacInstanceID }
        (cnpd, formatMacAddress cnpd.seq.MacInstanceID, cnpd.seq.MacInstanceID)
    else (cnpd, vnfChainElement.MacAddr, 0)
  let mtu := getMtu cnpd vnfChainElement.Mtu
  let rxMode := vnfChainElement.RxMode
  let veth1Name := "IF_VETH_VNF_" ++ vnfChainElement.Container ++ "_" ++ vnfChainElement.PortLabel
  let veth2Name := "IF_VETH_VSWITCH_" ++ vnfChainElement.Container ++ "_" ++
    vnfChainElement.PortLabel
  let host1Name := vnfChainElement.PortLabel
  let vethIDStr := toBase36 vethID
  let baseHostName := constructBaseHostName vnfChainElement.Container vnfChainElement.PortLabel
    vethIDStr
  let host2Name := baseHostName ++ "_" ++ vethIDStr
  let ipv4AddrForVEth :=
    if vnfChainElement.Type' = SfcElementType.VPP_CONTAINER_AFP then "" else ipv4Address
  let ipv4AddrForAFP := ipv4Address
  let ipv6AddrForVEth :=
    if vnfChainElement.Type' = SfcElementType.VPP_CONTAINER_AFP then "" else ipv6Address
  let ipv6AddrForAFP := ipv6Address
  let cnpd := vEthIfCreate cnpd vnfChainElement.EtcdVppSwitchKey veth1Name host1Name veth2Name
    vnfChainElement.Container macAddress ipv4AddrForVEth ipv6AddrForVEth mtu
  let cnpd := vEthIfCreate cnpd vnfChainElement.EtcdVppSwitchKey veth2Name host2Name veth1Name
    vnfChainElement.EtcdVppSwitchKey "" "" "" mtu
  let cnpd :=
    if vnfChainElement.Type' = SfcElementType.VPP_CONTAINER_AFP then
      (afPacketCreate cnpd vnfChainElement.Container vnfChainElement.PortLabel host1Name
        ipv4AddrForAFP macAddress ipv6AddrForAFP mtu rxMode).1
    else cnpd
  let afPktName := "IF_AFPIF_VSWITCH_" ++ vnfChainElement.Container ++ "_" ++
    vnfChainElement.PortLabel
  let (cnpd, afPktIf2) := afPacketCreate cnpd vnfChainElement.EtcdVppSwitchKey afPktName
    host2Name "" "" "" mtu rxMode
  let (cnpd, key, sfcIDNew) := DatastoreSFCIDsCreate cnpd sfc.Name vnfChainElement.Container
    vnfChainElement.PortLabel ipID macAddrID 0 vethID
  let cnpd :=
    if cnpd.reconcileInProgress then
      { cnpd with reconcileAfter.sfcIDs := upd3 cnpd.reconcileAfter.sfcIDs key sfcIDNew }
    else cnpd
  let cnpd := setSfcInterfaceIPAndMac cnpd vnfChainElement.Container vnfChainElement.PortLabel
    ipv4Address macAddress
  (cnpd, afPktIf2.Name)

/-- `createAFPacketVEthPairAndAddToBridge`. -/
def createAFPacketVEthPairAndAddToBridge (cnpd : CnpDriver) (sfc : SfcEntity)
    (bd : BridgeDomain) (vnfChainElement : SfcElement) : CnpDriver × String × BridgeDomain :=
  let (cnpd, afPktIfName) := createAFPacketVEthPair cnpd sfc vnfChainElement
  let ifs : List BDInterface := [{ Name := afPktIfName }]
  let (cnpd, bd) := bridgedDomainAssociateWithIfs cnpd vnfChainElement.EtcdVppSwitchKey bd ifs
  (cnpd, afPktIfName, bd)

/-- `createInterContainerMemIfPair`: a master memif in container 1 and a
slave memif in container 2, sharing the memif id. -/
def createInterContainerMemIfPair (cnpd : CnpDriver) (sfcName : String)
    (vnf1Container vnf1Port vnf2Container vnf2Port : String) (mtu : Nat) (rxMode : RxModeType)
    (memIFID : Nat) : CnpDriver :=
  let (cnpd, _) := memIfCreate cnpd vnf1Container vnf1Port memIFID true vnf1Container
    "" "" "" mtu rxMode
  let (cnpd, _) := memIfCreate cnpd vnf2Container vnf2Port memIFID false vnf1Container
    "" "" "" mtu rxMode
  cnpd

/-- The repeat loop of `createOneOrMoreInterContainerMemIfPairs`:
`remaining` counts the iterations still to run (`vnfRepeatCount + 1`
initially) and `repeatCount` is the current Go loop index. -/
def createOneOrMoreAux (sfcName : String) (vnfElement1 vnfElement2 : SfcElement)
    (vnfRepeatCount mtu : Nat) (rxMode : RxModeType) :
    Nat → Nat → CnpDriver → CnpDriver
  | _, 0, cnpd => cnpd
  | repeatCount, remaining + 1, cnpd =>
    let (container1Name, vnf1Port) :=
      if repeatCount = 0 then (vnfElement1.Container, vnfElement1.PortLabel)
      else ("vnfx-" ++ toString (repeatCount - 1), vnfElement1.PortLabel)
    let (container2Name, vnf2Port) :=
      if repeatCount = vnfRepeatCount then (vnfElement2.Container, vnfElement2.PortLabel)
      else ("vnfx-" ++ toString repeatCount, vnfElement2.PortLabel)
    let sfcID := DatastoreSFCIDsRetrieve cnpd sfcName container1Name vnf1Port
    let (cnpd, memifID) :=
      match sfcID with
      | some r =>
        if r.MemifId = 0 then
          let cnpd := { cnpd with seq.MemIfID := inc32 cnpd.seq.MemIfID }
          (cnpd, cnpd.seq.MemIfID)
        else (cnpd, r.MemifId)
      | none =>
        let cnpd := { cnpd with seq.MemIfID := inc32 cnpd.seq.MemIfID }
        (cnpd, cnpd.seq.MemIfID)
    let cnpd := createInterContainerMemIfPair cnpd sfcName container1Name vnf1Port
      container2Name vnf2Port mtu rxMode memifID
    let (cnpd, key, sfcIDNew) := DatastoreSFCIDsCreate cnpd sfcName container1Name vnf1Port
      0 0 memifID 0
    let cnpd :=
      if cnpd.reconcileInProgress then
        { cnpd with reconcileAfter.sfcIDs := upd3 cnpd.reconcileAfter.sfcIDs key sfcIDNew }
      else cnpd
    createOneOrMoreAux sfcName vnfElement1 vnfElement2 vnfRepeatCount mtu rxMode
      (repeatCount + 1) remaining cnpd

/-- `createOneOrMoreInterContainerMemIfPairs`: the memif pair between the
two elements with `vnfRepeatCount` synthetic `vnfx-N` hops inserted
between them. -/
def createOneOrMoreInterContainerMemIfPairs (cnpd : CnpDriver) (sfcName : String)
    (vnfElement1 vnfElement2 : SfcElement) (vnfRepeatCount : Nat) : CnpDriver :=
  let mtu := getMtu cnpd vnfElement1.Mtu
  let rxMode := vnfElement1.RxMode
  createOneOrMoreAux sfcName vnfElement1 vnfElement2 vnfRepeatCount mtu rxMode 0
    (vnfRepeatCount + 1) cnpd

/-- `createVRFEntries`: install the element's declared static routes
(defaulting weight and preference from the system parameters and the
description from `defaultDescription`) and its static ARP entries, all
pointing at `ifaceName`. -/
def createVRFEntries (cnpd : CnpDriver) (etcdVppSwitchKey : String)
    (sfcEntityElement : SfcElement) (ifaceName : String) (defaultDescription : String) :
    CnpDriver :=
  let cnpd := sfcEntityElement.L3VrfRoutes.foldl
    (fun cnpd l3VRFRoute =>
      let weight :=
        if l3VRFRoute.Weight = 0 then
          cnpd.l2CNPEntityCache.SysParms.DefaultStaticRouteWeight
        else l3VRFRoute.Weight
      let pref :=
        if l3VRFRoute.Preference = 0 then
          cnpd.l2CNPEntityCache.SysParms.DefaultStaticRoutePreference
        else l3VRFRoute.Preference
      let vrfDescription :=
        if l3VRFRoute.Description = "" then defaultDescription else l3VRFRoute.Description
      (createStaticRoute cnpd l3VRFRoute.VrfId etcdVppSwitchKey vrfDescription
        l3VRFRoute.DstIpAddr l3VRFRoute.NextHopAddr ifaceName weight pref).1)
    cnpd
  sfcEntityElement.L3ArpEntries.foldl
    (fun cnpd l3VRFArpEntry =>
      (createStaticArpEntry cnpd etcdVppSwitchKey l3VRFArpEntry.IpAddress
        l3VRFArpEntry.PhysAddress ifaceName).1)
    cnpd

/-! ## SFC wiring: north-south VXLAN -/

/-- Accumulator of the validation scan of `wireSfcNorthSouthVXLANElements`:
counts and the (last seen) external-entity / host-entity elements. -/
structure NsVxlanScan where
  eeCount : Nat
  eeName : String
  eeSfcElement : SfcElement
  dhCount : Nat
  dhName : String
  dhSfcElement : SfcElement
  deriving DecidableEq, Repr

def NsVxlanScan.init : NsVxlanScan :=
  { eeCount := 0, eeName := "", eeSfcElement := SfcElement.zero,
    dhCount := 0, dhName := "", dhSfcElement := SfcElement.zero }

/-- The first loop of `wireSfcNorthSouthVXLANElements`: find the external
entity and the dest host, erroring on a second of either kind or on a
name missing from the entity cache.  Reads only the EE and HE entity
caches, passed as the two maps. -/
def nsVxlanScanLoop (EEs : String → Option ExternalEntity)
    (HEs : String → Option HostEntity) : List SfcElement → NsVxlanScan →
    Except String NsVxlanScan
  | [], acc => Except.ok acc
  | sfcEntityElement :: rest, acc =>
    match sfcEntityElement.Type' with
    | SfcElementType.EXTERNAL_ENTITY =>
      if acc.eeCount + 1 > 1 then
        Except.error "wireSfcNorthSouthVXLANElements: only one ee allowed for n/s sfc"
      else if (EEs sfcEntityElement.Container) = none then
        Except.error "wireSfcNorthSouthVXLANElements: ee not found for n/s sfc"
      else
        nsVxlanScanLoop EEs HEs rest
          { acc with eeCount := acc.eeCount + 1, eeName := sfcEntityElement.Container,
                     eeSfcElement := sfcEntityElement }
    | SfcElementType.HOST_ENTITY =>
      if acc.dhCount + 1 > 1 then
        Except.error "wireSfcNorthSouthVXLANElements: only one dest host allowed for n/s sfc"
      else if (HEs sfcEntityElement.Container) = none then
        Except.error "wireSfcNorthSouthVXLANElements: dest host not found for n/s sfc"
      else
        nsVxlanScanLoop EEs HEs rest
          { acc with dhCount := acc.dhCount + 1, dhName := sfcEntityElement.Container,
                     dhSfcElement := sfcEntityElement }
    | _ => nsVxlanScanLoop EEs HEs rest acc

/-- The validation part of `wireSfcNorthSouthVXLANElements`: the scan plus
the "neither ee nor dh" check, all before any container wiring. -/
def nsVxlanValidate (EEs : String → Option ExternalEntity)
    (HEs : String → Option HostEntity) (sfc : SfcEntity) : Except String NsVxlanScan :=
  match nsVxlanScanLoop EEs HEs sfc.Elements NsVxlanScan.init with
  | Except.error msg => Except.error msg
  | Except.ok scan =>
    if scan.eeCount = 0 ∧ scan.dhCount = 0 then
      Except.error "wireSfcNorthSouthVXLANElements: NO ee or dh specified for n/s sfc"
    else Except.ok scan

/-- Write the bridge mutated during a container attach back to the edge
slot it was read from (Go shares the record through a pointer). -/
def nsVxlanWriteBackBd (cnpd : CnpDriver) (scan : NsVxlanScan) (hostKey : String)
    (bd : BridgeDomain) : CnpDriver :=
  if scan.eeCount ≠ 0 then
    match lookupHEToEE cnpd hostKey scan.eeName with
    | some en => updHEToEEEntry cnpd hostKey scan.eeName { en with bd := some bd }
    | none => cnpd
  else
    match lookupHEToHE cnpd hostKey scan.dhName with
    | some en => updHEToHEEntry cnpd hostKey scan.dhName { en with bd := some bd }
    | none => cnpd

/-- The second loop of `wireSfcNorthSouthVXLANElements`: wire each
container element to the bridge of the edge toward the recorded partner
(external entity when present, else dest host). -/
def nsVxlanWireLoop (sfc : SfcEntity) (scan : NsVxlanScan) :
    List SfcElement → CnpDriver → CnpDriver × Except String Unit
  | [], cnpd => (cnpd, Except.ok ())
  | sfcEntityElement :: rest, cnpd =>
    match sfcEntityElement.Type' with
    | SfcElementType.VPP_CONTAINER_AFP =>
      let (cnpd, r) :=
        if scan.eeCount ≠ 0 then
          createVxLANAndBridgeToExtEntity cnpd sfc sfcEntityElement.EtcdVppSwitchKey scan.eeName
            scan.eeSfcElement.VlanId
        else
          createVxLANAndBridgeToDestHost cnpd sfc sfcEntityElement.EtcdVppSwitchKey scan.dhName
            scan.dhSfcElement.VlanId
      (match r with
      | Except.error msg => (cnpd, Except.error msg)
      | Except.ok bd =>
        let (cnpd, _, bd) := createAFPacketVEthPairAndAddToBridge cnpd sfc bd sfcEntityElement
        let cnpd := nsVxlanWriteBackBd cnpd scan sfcEntityElement.EtcdVppSwitchKey bd
        nsVxlanWireLoop sfc scan rest cnpd)
    | SfcElementType.NON_VPP_CONTAINER_AFP =>
      let (cnpd, r) :=
        if scan.eeCount ≠ 0 then
          createVxLANAndBridgeToExtEntity cnpd sfc sfcEntityElement.EtcdVppSwitchKey scan.eeName
            scan.eeSfcElement.VlanId
        else
          createVxLANAndBridgeToDestHost cnpd sfc sfcEntityElement.EtcdVppSwitchKey scan.dhName
            scan.dhSfcElement.VlanId
      (match r with
      | Except.error msg => (cnpd, Except.error msg)
      | Except.ok bd =>
        let (cnpd, _, bd) := createAFPacketVEthPairAndAddToBridge cnpd sfc bd sfcEntityElement
        let cnpd := nsVxlanWriteBackBd cnpd scan sfcEntityElement.EtcdVppSwitchKey bd
        nsVxlanWireLoop sfc scan rest cnpd)
    | SfcElementType.VPP_CONTAINER_MEMIF =>
      let (cnpd, r) :=
        if scan.eeCount ≠ 0 then
          createVxLANAndBridgeToExtEntity cnpd sfc sfcEntityElement.EtcdVppSwitchKey scan.eeName
            scan.eeSfcElement.VlanId
        else
          createVxLANAndBridgeToDestHost cnpd sfc sfcEntityElement.EtcdVppSwitchKey scan.dhName
            scan.dhSfcElement.VlanId
      (match r with
      | Except.error msg => (cnpd, Except.error msg)
      | Except.ok bd =>
        let (cnpd, _, bd) := createMemIfPairAndAddToBridge cnpd sfc
          sfcEntityElement.EtcdVppSwitchKey bd sfcEntityElement false
        let cnpd := nsVxlanWriteBackBd cnpd scan sfcEntityElement.EtcdVppSwitchKey bd
        nsVxlanWireLoop sfc scan rest cnpd)
    | SfcElementType.NON_VPP_CONTAINER_MEMIF =>
      let (cnpd, r) :=
        if scan.eeCount ≠ 0 then
          createVxLANAndBridgeToExtEntity cnpd sfc sfcEntityElement.EtcdVppSwitchKey scan.eeName
            scan.eeSfcElement.VlanId
        else
          createVxLANAndBridgeToDestHost cnpd sfc sfcEntityElement.EtcdVppSwitchKey scan.dhName
            scan.dhSfcElement.VlanId
      (match r with
      | Except.error msg => (cnpd, Except.error msg)
      | Except.ok bd =>
        let (cnpd, _, bd) := createMemIfPairAndAddToBridge cnpd sfc
          sfcEntityElement.EtcdVppSwitchKey bd sfcEntityElement false
        let cnpd := nsVxlanWriteBackBd cnpd scan sfcEntityElement.EtcdVppSwitchKey bd
        nsVxlanWireLoop sfc scan rest cnpd)
    | _ => nsVxlanWireLoop sfc scan rest cnpd

/-- `wireSfcNorthSouthVXLANElements`: validation scan, the "neither ee nor
dh" check, then the container wiring loop. -/
def wireSfcNorthSouthVXLANElements (cnpd : CnpDriver) (sfc : SfcEntity) :
    CnpDriver × Except String Unit :=
  match nsVxlanValidate cnpd.l2CNPEntityCache.EEs cnpd.l2CNPEntityCache.HEs sfc with
  | Except.error msg => (cnpd, Except.error msg)
  | Except.ok scan => nsVxlanWireLoop sfc scan sfc.Elements cnpd

/-! ## SFC wiring: north-south NIC -/

/-- The scan of `wireSfcNorthSouthNICElements`: exactly one host entity. -/
def nsNicScanLoop : List SfcElement → Nat → Option SfcElement →
    Except String (Nat × Option SfcElement)
  | [], heCount, he => Except.ok (heCount, he)
  | sfcEntityElement :: rest, heCount, he =>
    match sfcEntityElement.Type' with
    | SfcElementType.HOST_ENTITY =>
      if heCount + 1 > 1 then
        Except.error "wireSfcNorthSouthNICElements: only one he allowed for n/s sfc"
      else nsNicScanLoop rest (heCount + 1) (some sfcEntityElement)
    | _ => nsNicScanLoop rest heCount he

/-- The container loop of `wireSfcNorthSouthNICElements`; `bd` threads the
bridge that Go mutates through a shared pointer (nil unless the sfc is of
the NIC_BD sub-type). -/
def nsNicWireLoop (sfc : SfcEntity) (he : SfcElement) :
    List SfcElement → Option BridgeDomain → CnpDriver → CnpDriver × Option BridgeDomain
  | [], bd, cnpd => (cnpd, bd)
  | sfcEntityElement :: rest, bd, cnpd =>
    match sfcEntityElement.Type' with
    | SfcElementType.VPP_CONTAINER_AFP =>
      if sfc.Type' = SfcType.SFC_NS_NIC_BD then
        let (cnpd, ifName, bdNew) := createAFPacketVEthPairAndAddToBridge cnpd sfc
          (bd.getD BridgeDomain.zero) sfcEntityElement
        let cnpd := sfcEntityElement.L2FibMacs.foldl
          (fun cnpd macAddr =>
            (createL2FibEntry cnpd sfcEntityElement.EtcdVppSwitchKey bdNew.Name macAddr
              ifName).1)
          cnpd
        nsNicWireLoop sfc he rest (some bdNew) cnpd
      else if sfc.Type' = SfcType.SFC_NS_NIC_VRF then
        let (cnpd, afIfName) := createAFPacketVEthPair cnpd sfc sfcEntityElement
        let cnpd := createVRFEntries cnpd sfcEntityElement.EtcdVppSwitchKey sfcEntityElement
          afIfName ("VRF_" ++ sfc.Name ++ "_" ++ sfcEntityElement.Container ++ "_" ++
            sfcEntityElement.PortLabel)
        nsNicWireLoop sfc he rest bd cnpd
      else
        let (cnpd, afIfName) := createAFPacketVEthPair cnpd sfc sfcEntityElement
        let cnpd := createXConnectPair cnpd sfcEntityElement.EtcdVppSwitchKey he.PortLabel
          afIfName
        nsNicWireLoop sfc he rest bd cnpd
    | SfcElementType.NON_VPP_CONTAINER_AFP =>
      if sfc.Type' = SfcType.SFC_NS_NIC_BD then
        let (cnpd, ifName, bdNew) := createAFPacketVEthPairAndAddToBridge cnpd sfc
          (bd.getD BridgeDomain.zero) sfcEntityElement
        let cnpd := sfcEntityElement.L2FibMacs.foldl
          (fun cnpd macAddr =>
            (createL2FibEntry cnpd sfcEntityElement.EtcdVppSwitchKey bdNew.Name macAddr
              ifName).1)
          cnpd
        nsNicWireLoop sfc he rest (some bdNew) cnpd
      else if sfc.Type' = SfcType.SFC_NS_NIC_VRF then
        let (cnpd, afIfName) := createAFPacketVEthPair cnpd sfc sfcEntityElement
        let cnpd := createVRFEntries cnpd sfcEntityElement.EtcdVppSwitchKey sfcEntityElement
          afIfName ("VRF_" ++ sfc.Name ++ "_" ++ sfcEntityElement.Container ++ "_" ++
            sfcEntityElement.PortLabel)
        nsNicWireLoop sfc he rest bd cnpd
      else
        let (cnpd, afIfName) := createAFPacketVEthPair cnpd sfc sfcEntityElement
        let cnpd := createXConnectPair cnpd sfcEntityElement.EtcdVppSwitchKey he.PortLabel
          afIfName
        nsNicWireLoop sfc he rest bd cnpd
    | SfcElementType.VPP_CONTAINER_MEMIF =>
      if sfc.Type' = SfcType.SFC_NS_NIC_BD then
        let (cnpd, ifName, bdNew) := createMemIfPairAndAddToBridge cnpd sfc
          sfcEntityElement.EtcdVppSwitchKey (bd.getD BridgeDomain.zero) sfcEntityElement false
        let cnpd := sfcEntityElement.L2FibMacs.foldl
          (fun cnpd macAddr =>
            (createL2FibEntry cnpd sfcEntityElement.EtcdVppSwitchKey bdNew.Name macAddr
              ifName).1)
          cnpd
        nsNicWireLoop sfc he rest (some bdNew) cnpd
      else if sfc.Type' = SfcType.SFC_NS_NIC_VRF then
        let (cnpd, afIfName) := createAFPacketVEthPair cnpd sfc sfcEntityElement
        let cnpd := createVRFEntries cnpd sfcEntityElement.EtcdVppSwitchKey sfcEntityElement
          afIfName ("VRF_" ++ sfc.Name ++ "_" ++ sfcEntityElement.Container ++ "_" ++
            sfcEntityElement.PortLabel)
        nsNicWireLoop sfc he rest bd cnpd
      else
        let (cnpd, memIfName) := createMemIfPair cnpd sfc sfcEntityElement.EtcdVppSwitchKey
          sfcEntityElement false
        let cnpd := createXConnectPair cnpd sfcEntityElement.EtcdVppSwitchKey he.PortLabel
          memIfName
        nsNicWireLoop sfc he rest bd cnpd
    | SfcElementType.NON_VPP_CONTAINER_MEMIF =>
      if sfc.Type' = SfcType.SFC_NS_NIC_BD then
        let (cnpd, ifName, bdNew) := createMemIfPairAndAddToBridge cnpd sfc
          sfcEntityElement.EtcdVppSwitchKey (bd.getD BridgeDomain.zero) sfcEntityElement false
        let cnpd := sfcEntityElement.L2FibMacs.foldl
          (fun cnpd macAddr =>
            (createL2FibEntry cnpd sfcEntityElement.EtcdVppSwitchKey bdNew.Name macAddr
              ifName).1)
          cnpd
        nsNicWireLoop sfc he rest (some bdNew) cnpd
      else if sfc.Type' = SfcType.SFC_NS_NIC_VRF then
        let (cnpd, afIfName) := createAFPacketVEthPair cnpd sfc sfcEntityElement
        let cnpd := createVRFEntries cnpd sfcEntityElement.EtcdVppSwitchKey sfcEntityElement
          afIfName ("VRF_" ++ sfc.Name ++ "_" ++ sfcEntityElement.Container ++ "_" ++
            sfcEntityElement.PortLabel)
        nsNicWireLoop sfc he rest bd cnpd
      else
        let (cnpd, memIfName) := createMemIfPair cnpd sfc sfcEntityElement.EtcdVppSwitchKey
          sfcEntityElement false
        let cnpd := createXConnectPair cnpd sfcEntityElement.EtcdVppSwitchKey he.PortLabel
          memIfName
        nsNicWireLoop sfc he rest bd cnpd
    | _ => nsNicWireLoop sfc he rest bd cnpd

/-- `wireSfcNorthSouthNICElements`: one host entity, its physical NIC, a
bridge (NIC_BD) or VRF entries, then the container loop. -/
def wireSfcNorthSouthNICElements (cnpd : CnpDriver) (sfc : SfcEntity) :
    CnpDriver × Except String Unit :=
  match nsNicScanLoop sfc.Elements 0 none with
  | Except.error msg => (cnpd, Except.error msg)
  | Except.ok (heCount, heOpt) =>
    if heCount = 0 then
      (cnpd, Except.error "wireSfcNorthSouthNICElements: NO he specified for n/s sfc")
    else
      let he := heOpt.getD SfcElement.zero
      let mtu := getMtu cnpd he.Mtu
      let cnpd := createEthernet cnpd he.Container he.PortLabel "" he.MacAddr he.Ipv6Addr mtu
        he.RxMode
      let (cnpd, bd) :=
        if sfc.Type' = SfcType.SFC_NS_NIC_BD then
          let ifEntry : BDInterface := { Name := he.PortLabel }
          let bdParms :=
            match sfc.BdParms with
            | none => cnpd.l2CNPEntityCache.SysParms.StaticBridgeParms
            | some p => p
          let bdName := "BD_INTERNAL_NS_" ++ replaceSlashesWithUScores he.PortLabel
          let (cnpd, bd) := bridgedDomainCreateWithIfs cnpd he.Container bdName [ifEntry] bdParms
          let cnpd := he.L2FibMacs.foldl
            (fun cnpd macAddr =>
              (createL2FibEntry cnpd he.Container bd.Name macAddr he.PortLabel).1)
            cnpd
          (cnpd, some bd)
        else (cnpd, none)
      let cnpd :=
        if sfc.Type' = SfcType.SFC_NS_NIC_VRF then
          createVRFEntries cnpd he.Container he he.PortLabel
            ("VRF_" ++ sfc.Name ++ "_" ++ he.Container ++ "_" ++ he.PortLabel)
        else cnpd
      let (cnpd, _) := nsNicWireLoop sfc he sfc.Elements bd cnpd
      (cnpd, Except.ok ())

/-! ## SFC wiring: east-west -/

/-- The east-west bridge slot an element's container joins: the host's
dynamic bridge, the host's static l2fib bridge, or a per-SFC per-host
bridge from `SFCToHEs`. -/
inductive EwBdSlot
  | heDyn (key : String)
  | heFib (key : String)
  | sfcToHE (sfcName : String) (key : String)
  deriving DecidableEq, Repr

/-- Select (lazily creating when the sfc carries its own bridge parms) the
east-west bridge for an element; mirrors the bd-selection block of
`wireSfcEastWestElements`. -/
def ewSelectBd (cnpd : CnpDriver) (sfc : SfcEntity) (sfcEntityElement : SfcElement)
    (heState : HEStateType) : CnpDriver × BridgeDomain × EwBdSlot :=
  if sfc.Type' = SfcType.SFC_EW_BD then
    (cnpd, heState.ewBD.getD BridgeDomain.zero, EwBdSlot.heDyn sfcEntityElement.EtcdVppSwitchKey)
  else
    match sfc.BdParms with
    | none =>
      (cnpd, heState.ewBDL2Fib.getD BridgeDomain.zero,
        EwBdSlot.heFib sfcEntityElement.EtcdVppSwitchKey)
    | some bdParms =>
      let (cnpd, sfcToHEMap) :=
        match cnpd.l2CNPStateCache.SFCToHEs sfc.Name with
        | some m => (cnpd, m)
        | none =>
          ({ cnpd with
              l2CNPStateCache.SFCToHEs := upd cnpd.l2CNPStateCache.SFCToHEs sfc.Name emptyMap },
            emptyMap)
      match sfcToHEMap sfcEntityElement.EtcdVppSwitchKey with
      | some hs =>
        (cnpd, hs.ewBDL2Fib.getD BridgeDomain.zero,
          EwBdSlot.sfcToHE sfc.Name sfcEntityElement.EtcdVppSwitchKey)
      | none =>
        let bdName := "BD_INTERNAL_EW_" ++ sfc.Name ++ "_" ++ sfcEntityElement.EtcdVppSwitchKey
        let (cnpd, bd) := bridgedDomainCreateWithIfs cnpd sfcEntityElement.EtcdVppSwitchKey
          bdName [] bdParms
        let hs : HEStateType := { ewBD := none, ewBDL2Fib := some bd }
        let cnpd :=
          { cnpd with
              l2CNPStateCache.SFCToHEs := upd cnpd.l2CNPStateCache.SFCToHEs sfc.Name
                (upd sfcToHEMap sfcEntityElement.EtcdVppSwitchKey hs) }
        (cnpd, bd, EwBdSlot.sfcToHE sfc.Name sfcEntityElement.EtcdVppSwitchKey)

/-- Write the bridge mutated during a container attach back to the
east-west slot it was read from. -/
def ewWriteBackBd (cnpd : CnpDriver) (slot : EwBdSlot) (bd : BridgeDomain) : CnpDriver :=
  match slot with
  | EwBdSlot.heDyn key =>
    match cnpd.l2CNPStateCache.HE key with
    | some hs => updHEEntry cnpd key { hs with ewBD := some bd }
    | none => cnpd
  | EwBdSlot.heFib key =>
    match cnpd.l2CNPStateCache.HE key with
    | some hs => updHEEntry cnpd key { hs with ewBDL2Fib := some bd }
    | none => cnpd
  | EwBdSlot.sfcToHE sfcName key =>
    match cnpd.l2CNPStateCache.SFCToHEs sfcName with
    | some m =>
      match m key with
      | some hs =>
        { cnpd with
            l2CNPStateCache.SFCToHEs := upd cnpd.l2CNPStateCache.SFCToHEs sfcName
              (upd m key { hs with ewBDL2Fib := some bd }) }
      | none => cnpd
    | none => cnpd

/-- The element loop of `wireSfcEastWestElements`; `i` is the loop index
(for memif pairing) and `prevMemIfName` the cross-connect carry.
`rest.headD SfcElement.zero` is the source's `sfc.Elements[i+1]` (reached
only at even `i` in an even-length chain, hence in bounds). -/
def ewWireLoop (sfc : SfcEntity) :
    List SfcElement → Nat → String → CnpDriver → CnpDriver × Except String Unit
  | [], _, _, cnpd => (cnpd, Except.ok ())
  | sfcEntityElement :: rest, i, prevMemIfName, cnpd =>
    match sfcEntityElement.Type' with
    | SfcElementType.EXTERNAL_ENTITY =>
      (cnpd, Except.error "wireSfcEastWestElements: external entity not allowed in e-w sfc")
    | SfcElementType.VPP_CONTAINER_AFP =>
      if sfc.Type' = SfcType.SFC_EW_BD ∨ sfc.Type' = SfcType.SFC_EW_BD_L2FIB then
        match cnpd.l2CNPStateCache.HE sfcEntityElement.EtcdVppSwitchKey with
        | none =>
          (cnpd, Except.error "wireSfcEastWestElements: cannot find host/bridge for this sfc")
        | some heState =>
          let (cnpd, bd, slot) := ewSelectBd cnpd sfc sfcEntityElement heState
          let (cnpd, ifName, bd) := createAFPacketVEthPairAndAddToBridge cnpd sfc bd
            sfcEntityElement
          let cnpd := ewWriteBackBd cnpd slot bd
          let cnpd := sfcEntityElement.L2FibMacs.foldl
            (fun cnpd macAddr =>
              (createL2FibEntry cnpd sfcEntityElement.EtcdVppSwitchKey bd.Name macAddr
                ifName).1)
            cnpd
          ewWireLoop sfc rest (i + 1) prevMemIfName cnpd
      else
        let (cnpd, afIfName) := createAFPacketVEthPair cnpd sfc sfcEntityElement
        if prevMemIfName ≠ "" then
          let cnpd := createXConnectPair cnpd sfcEntityElement.EtcdVppSwitchKey afIfName
            prevMemIfName
          ewWireLoop sfc rest (i + 1) "" cnpd
        else
          ewWireLoop sfc rest (i + 1) afIfName cnpd
    | SfcElementType.NON_VPP_CONTAINER_AFP =>
      if sfc.Type' = SfcType.SFC_EW_BD ∨ sfc.Type' = SfcType.SFC_EW_BD_L2FIB then
        match cnpd.l2CNPStateCache.HE sfcEntityElement.EtcdVppSwitchKey with
        | none =>
          (cnpd, Except.error "wireSfcEastWestElements: cannot find host/bridge for this sfc")
        | some heState =>
          let (cnpd, bd, slot) := ewSelectBd cnpd sfc sfcEntityElement heState
          let (cnpd, ifName, bd) := createAFPacketVEthPairAndAddToBridge cnpd sfc bd
            sfcEntityElement
          let cnpd := ewWriteBackBd cnpd slot bd
          let cnpd := sfcEntityElement.L2FibMacs.foldl
            (fun cnpd macAddr =>
              (createL2FibEntry cnpd sfcEntityElement.EtcdVppSwitchKey bd.Name macAddr
                ifName).1)
            cnpd
          ewWireLoop sfc rest (i + 1) prevMemIfName cnpd
      else
        let (cnpd, afIfName) := createAFPacketVEthPair cnpd sfc sfcEntityElement
        if prevMemIfName ≠ "" then
          let cnpd := createXConnectPair cnpd sfcEntityElement.EtcdVppSwitchKey afIfName
            prevMemIfName
          ewWireLoop sfc rest (i + 1) "" cnpd
        else
          ewWireLoop sfc rest (i + 1) afIfName cnpd
    | SfcElementType.VPP_CONTAINER_MEMIF =>
      if sfc.Type' = SfcType.SFC_EW_MEMIF then
        if i % 2 = 0 then
          let cnpd := createOneOrMoreInterContainerMemIfPairs cnpd sfc.Name sfcEntityElement
            (rest.headD SfcElement.zero) sfc.VnfRepeatCount
          ewWireLoop sfc rest (i + 1) prevMemIfName cnpd
        else
          ewWireLoop sfc rest (i + 1) prevMemIfName cnpd
      else if sfc.Type' = SfcType.SFC_EW_BD ∨ sfc.Type' = SfcType.SFC_EW_BD_L2FIB then
        match cnpd.l2CNPStateCache.HE sfcEntityElement.EtcdVppSwitchKey with
        | none =>
          (cnpd, Except.error "wireSfcEastWestElements: cannot find host/bridge for this sfc")
        | some heState =>
          let (cnpd, bd, slot) := ewSelectBd cnpd sfc sfcEntityElement heState
          let (cnpd, ifName, bd) := createMemIfPairAndAddToBridge cnpd sfc
            sfcEntityElement.EtcdVppSwitchKey bd sfcEntityElement true
          let cnpd := ewWriteBackBd cnpd slot bd
          let cnpd := sfcEntityElement.L2FibMacs.foldl
            (fun cnpd macAddr =>
              (createL2FibEntry cnpd sfcEntityElement.EtcdVppSwitchKey bd.Name macAddr
                ifName).1)
            cnpd
          ewWireLoop sfc rest (i + 1) prevMemIfName cnpd
      else
        let (cnpd, memIfName) := createMemIfPair cnpd sfc sfcEntityElement.EtcdVppSwitchKey
          sfcEntityElement false
        if prevMemIfName ≠ "" then
          let cnpd := createXConnectPair cnpd sfcEntityElement.EtcdVppSwitchKey memIfName
            prevMemIfName
          ewWireLoop sfc rest (i + 1) "" cnpd
        else
          ewWireLoop sfc rest (i + 1) memIfName cnpd
    | SfcElementType.NON_VPP_CONTAINER_MEMIF =>
      if sfc.Type' = SfcType.SFC_EW_MEMIF then
        if i % 2 = 0 then
          let cnpd := createOneOrMoreInterContainerMemIfPairs cnpd sfc.Name sfcEntityElement
            (rest.headD SfcElement.zero) sfc.VnfRepeatCount
          ewWireLoop sfc rest (i + 1) prevMemIfName cnpd
        else
          ewWireLoop sfc rest (i + 1) prevMemIfName cnpd
      else if sfc.Type' = SfcType.SFC_EW_BD ∨ sfc.Type' = SfcType.SFC_EW_BD_L2FIB then
        match cnpd.l2CNPStateCache.HE sfcEntityElement.EtcdVppSwitchKey with
        | none =>
          (cnpd, Except.error "wireSfcEastWestElements: cannot find host/bridge for this sfc")
        | some heState =>
          let (cnpd, bd, slot) := ewSelectBd cnpd sfc sfcEntityElement heState
          let (cnpd, ifName, bd) := createMemIfPairAndAddToBridge cnpd sfc
            sfcEntityElement.EtcdVppSwitchKey bd sfcEntityElement true
          let cnpd := ewWriteBackBd cnpd slot bd
          let cnpd := sfcEntityElement.L2FibMacs.foldl
            (fun cnpd macAddr =>
              (createL2FibEntry cnpd sfcEntityElement.EtcdVppSwitchKey bd.Name macAddr
                ifName).1)
            cnpd
          ewWireLoop sfc rest (i + 1) prevMemIfName cnpd
      else
        let (cnpd, memIfName) := createMemIfPair cnpd sfc sfcEntityElement.EtcdVppSwitchKey
          sfcEntityElement false
        if prevMemIfName ≠ "" then
          let cnpd := createXConnectPair cnpd sfcEntityElement.EtcdVppSwitchKey memIfName
            prevMemIfName
          ewWireLoop sfc rest (i + 1) "" cnpd
        else
          ewWireLoop sfc rest (i + 1) memIfName cnpd
    | _ => ewWireLoop sfc rest (i + 1) prevMemIfName cnpd

/-- `wireSfcEastWestElements`: the even-count precondition for memif
chains, then the element loop. -/
def wireSfcEastWestElements (cnpd : CnpDriver) (sfc : SfcEntity) :
    CnpDriver × Except String Unit :=
  if sfc.Type' = SfcType.SFC_EW_MEMIF ∧ sfc.Elements.length % 2 ≠ 0 then
    (cnpd, Except.error "wireSfcEastWestElements: e-w memif sfc should have pairs of entries")
  else
    ewWireLoop sfc sfc.Elements 0 "" cnpd

/-- `WireSfcEntity`: dispatch on the sfc type. -/
def WireSfcEntity (cnpd : CnpDriver) (sfc : SfcEntity) : CnpDriver × Except String Unit :=
  match sfc.Type' with
  | SfcType.SFC_NS_VXLAN =>
    let cnpd := { cnpd with l2CNPEntityCache.SFCs := upd cnpd.l2CNPEntityCache.SFCs sfc.Name sfc }
    wireSfcNorthSouthVXLANElements cnpd sfc
  | SfcType.SFC_NS_NIC_BD =>
    let cnpd := { cnpd with l2CNPEntityCache.SFCs := upd cnpd.l2CNPEntityCache.SFCs sfc.Name sfc }
    wireSfcNorthSouthNICElements cnpd sfc
  | SfcType.SFC_NS_NIC_VRF =>
    let cnpd := { cnpd with l2CNPEntityCache.SFCs := upd cnpd.l2CNPEntityCache.SFCs sfc.Name sfc }
    wireSfcNorthSouthNICElements cnpd sfc
  | SfcType.SFC_NS_NIC_L2XCONN =>
    let cnpd := { cnpd with l2CNPEntityCache.SFCs := upd cnpd.l2CNPEntityCache.SFCs sfc.Name sfc }
    wireSfcNorthSouthNICElements cnpd sfc
  | SfcType.SFC_EW_MEMIF =>
    let cnpd := { cnpd with l2CNPEntityCache.SFCs := upd cnpd.l2CNPEntityCache.SFCs sfc.Name sfc }
    wireSfcEastWestElements cnpd sfc
  | SfcType.SFC_EW_BD =>
    let cnpd := { cnpd with l2CNPEntityCache.SFCs := upd cnpd.l2CNPEntityCache.SFCs sfc.Name sfc }
    wireSfcEastWestElements cnpd sfc
  | SfcType.SFC_EW_BD_L2FIB =>
    let cnpd := { cnpd with l2CNPEntityCache.SFCs := upd cnpd.l2CNPEntityCache.SFCs sfc.Name sfc }
    wireSfcEastWestElements cnpd sfc
  | SfcType.SFC_EW_L2XCONN =>
    let cnpd := { cnpd with l2CNPEntityCache.SFCs := upd cnpd.l2CNPEntityCache.SFCs sfc.Name sfc }
    wireSfcEastWestElements cnpd sfc
  | _ => (cnpd, Except.error "WireSfcEntity: unknown entity type")

/-- `GetSfcInterfaceIPAndMac`. -/
def GetSfcInterfaceIPAndMac (cnpd : CnpDriver) (container port : String) :
    Except String (String × String) :=
  match cnpd.l2CNPStateCache.SFCIFAddr (container ++ "/" ++ port) with
  | some sfcIFAddr =>
    Except.ok (stripSlashAndSubnetIpv4Address sfcIFAddr.ipAddress, sfcIFAddr.macAddress)
  | none =>
    Except.error "GetSfcInterfaceAddresses: container/port addresses not found"

/-! ## Initial state (`NewSfcCtlrL2CNPDriver` / `initL2CNPCache`) -/

def BDParms.zero : BDParms :=
  { Flood := false, UnknownUnicastFlood := false, Forward := false, Learn := false,
    ArpTermination := false, MacAge := 0 }

def SystemParameters.zero : SystemParameters :=
  { Mtu := 0, StartingVlanId := 0, DefaultStaticRouteWeight := 0,
    DefaultStaticRoutePreference := 0, DynamicBridgeParms := BDParms.zero,
    StaticBridgeParms := BDParms.zero }

def ReconcileAfter.empty : ReconcileAfter :=
  { ifs := fun _ => none, bds := fun _ => none, srs := fun _ => none, lifs := fun _ => none,
    heIDs := fun _ => none, he2eeIDs := fun _ => none, he2heIDs := fun _ => none,
    sfcIDs := fun _ => none }

def Datastore.empty : Datastore :=
  { heIDs := fun _ => none, he2eeIDs := fun _ => none, he2heIDs := fun _ => none,
    sfcIDs := fun _ => none }

def IpamState.empty : IpamState := { subnets := fun _ => none }

/-- The freshly constructed driver state. -/
def initCnpDriver : CnpDriver :=
  { l2CNPEntityCache :=
      { EEs := emptyMap, HEs := emptyMap, SFCs := emptyMap, SysParms := SystemParameters.zero },
    l2CNPStateCache :=
      { HEToEEs := emptyMap, HEToHEs := emptyMap, SFCToHEs := emptyMap, HE := emptyMap,
        SFCIFAddr := emptyMap },
    reconcileAfter := ReconcileAfter.empty,
    reconcileInProgress := false,
    seq := { VLanID := 0, MemIfID := 0, MacInstanceID := 0, VethID := 0 },
    datastore := Datastore.empty,
    ipamState := IpamState.empty,
    events := [] }

/-! ## Fixtures and analysis definitions -/

/-- C1 fixture: hosts h1, h2 wired (edge recorded, nothing materialised),
VLAN counter at 5000, and a persisted `HE2HEIDs[h1, h2]` binding with
vni 7000; the `HE2EEIDs` table is empty. -/
def c1State : CnpDriver :=
  { initCnpDriver with
      l2CNPEntityCache.HEs :=
        upd (upd emptyMap "h1" { HostEntity.zero with Name := "h1" }) "h2"
          { HostEntity.zero with Name := "h2" },
      l2CNPStateCache.HEToHEs :=
        upd emptyMap "h1" (upd emptyMap "h2" { vlanIf := none, bd := none, l3Route := none }),
      seq := { VLanID := 5000, MemIfID := 0, MacInstanceID := 0, VethID := 0 },
      datastore.he2heIDs := upd2 (fun _ => none) ("h1", "h2") { VlanId := 7000 } }

/-- C1 fixture: as `c1State` but with the 7000 binding sitting (wrongly)
in the `HE2EEIDs` table under key (h1, h2) and the `HE2HEIDs` table
empty. -/
def c1StateB : CnpDriver :=
  { c1State with
      datastore.he2heIDs := fun _ => none,
      datastore.he2eeIDs := upd2 (fun _ => none) ("h1", "h2") { VlanId := 7000 } }

def c1Sfc : SfcEntity :=
  { Name := "sfc1", Type' := SfcType.SFC_NS_VXLAN, SfcIpv4Subnet := "", VnfRepeatCount := 0,
    BdParms := none, Elements := [] }

/-- The vni of the vxlan tunnel recorded on the (h1, h2) edge after a run,
if any. -/
def c1EdgeVni (cnpd : CnpDriver) : Option Nat :=
  match lookupHEToHE cnpd "h1" "h2" with
  | none => none
  | some en =>
    match en.vlanIf with
    | none => none
    | some vif =>
      match vif.Vxlan with
      | none => none
      | some v => some v.Vni

/-- The hex tail of a MAC string: the five big-endian bytes of the id as
colon-separated upper-case hex octets (the "remaining five octets" of the
claim). -/
def macTailChars (id : Nat) : List Char :=
  [hexDigit (byteAt id 4 / 16), hexDigit (byteAt id 4 % 16), ':',
   hexDigit (byteAt id 3 / 16), hexDigit (byteAt id 3 % 16), ':',
   hexDigit (byteAt id 2 / 16), hexDigit (byteAt id 2 % 16), ':',
   hexDigit (byteAt id 1 / 16), hexDigit (byteAt id 1 % 16), ':',
   hexDigit (byteAt id 0 / 16), hexDigit (byteAt id 0 % 16)]

/-- Consecutive pairs (element[i], element[i+1]) for even i, as the claim
reads them. -/
def pairList : List SfcElement → List (SfcElement × SfcElement)
  | [] => []
  | [_] => []
  | a :: b :: rest => (a, b) :: pairList rest

/-- Folding `createOneOrMoreInterContainerMemIfPairs` over consecutive
pairs: the reference run the memif wiring loop is compared against. -/
def ewMemifPairsRun (sfcName : String) (vnfRepeatCount : Nat) :
    List (SfcElement × SfcElement) → CnpDriver → CnpDriver
  | [], cnpd => cnpd
  | (a, b) :: rest, cnpd =>
    ewMemifPairsRun sfcName vnfRepeatCount rest
      (createOneOrMoreInterContainerMemIfPairs cnpd sfcName a b vnfRepeatCount)

/-- An element is of one of the two memif container kinds. -/
def isMemifElement (e : SfcElement) : Prop :=
  e.Type' = SfcElementType.VPP_CONTAINER_MEMIF ∨
    e.Type' = SfcElementType.NON_VPP_CONTAINER_MEMIF

instance (e : SfcElement) : Decidable (isMemifElement e) := by
  unfold isMemifElement; infer_instance

/-- Number of external-entity elements in an element list. -/
def countEE : List SfcElement → Nat
  | [] => 0
  | e :: rest =>
    (if e.Type' = SfcElementType.EXTERNAL_ENTITY then 1 else 0) + countEE rest

/-- Number of host-entity elements in an element list. -/
def countHE : List SfcElement → Nat
  | [] => 0
  | e :: rest => (if e.Type' = SfcElementType.HOST_ENTITY then 1 else 0) + countHE rest

/-- The error condition of claim C4, stated from the claim's words: more
than one external entity, more than one host entity, neither, or an
external-entity / host-entity element whose name is not in the
corresponding entity cache. -/
def nsVxlanClaimErrCond (cnpd : CnpDriver) (sfc : SfcEntity) : Prop :=
  1 < countEE sfc.Elements ∨ 1 < countHE sfc.Elements ∨
  (countEE sfc.Elements = 0 ∧ countHE sfc.Elements = 0) ∨
  (∃ e ∈ sfc.Elements, e.Type' = SfcElementType.EXTERNAL_ENTITY ∧
    cnpd.l2CNPEntityCache.EEs e.Container = none) ∨
  (∃ e ∈ sfc.Elements, e.Type' = SfcElementType.HOST_ENTITY ∧
    cnpd.l2CNPEntityCache.HEs e.Container = none)

/-- C4 fixture: an entity cache holding the valid external entity e1 and
nothing else. -/
def c4State : CnpDriver :=
  { initCnpDriver with
      l2CNPEntityCache.EEs :=
        upd emptyMap "e1"
          { Name := "e1", HostInterface := some { IfName := "e0", Ipv4Addr := "10.0.0.1" },
            HostVxlan := some { IfName := "vx0", SourceIpv4 := "10.0.0.2" } } }

/-- C4 fixture: an NS-VXLAN chain naming e1 and one memif container whose
switch hX was never wired to e1. -/
def c4Sfc : SfcEntity :=
  { Name := "ns1", Type' := SfcType.SFC_NS_VXLAN, SfcIpv4Subnet := "", VnfRepeatCount := 0,
    BdParms := none,
    Elements :=
      [{ SfcElement.zero with
          Container := "e1", Type' := SfcElementType.EXTERNAL_ENTITY },
        { SfcElement.zero with
            Container := "c1", PortLabel := "p1", EtcdVppSwitchKey := "hX",
            Type' := SfcElementType.VPP_CONTAINER_MEMIF }] }

/-! ## C3: the external-entity driver call -/

/-- The vni arguments of the driver calls `WireExternalToHost(ee, he, ...)`
recorded for a given (ee, he) pair, in order. -/
def eeDriverVnis (eeName heName : String) (evs : List Event) : List Nat :=
  evs.filterMap fun e =>
    match e with
    | Event.wireEEToHE e' h' vni _ => if e' = eeName ∧ h' = heName then some vni else none
    | _ => none

/-- The vni of the vxlan tunnel interface recorded on an edge (0 when
absent, as the Go nil-deref site would read garbage). -/
def vniOfEntry (en : HEToEEStateType) : Nat :=
  match en.vlanIf with
  | some vif =>
    match vif.Vxlan with
    | some v => v.Vni
    | none => 0
  | none => 0

/-- C3 invariant for a fixed (he, ee) edge: the edge entry exists; a
recorded tunnel carries a vxlan payload; a bridge exists only after the
tunnel; and the driver has been called for the edge exactly when the
bridge exists, with the tunnel's vni. -/
def C3Inv (heName eeName : String) (st : CnpDriver) : Prop :=
  ∃ en, lookupHEToEE st heName eeName = some en ∧
    (∀ vif, en.vlanIf = some vif → ∃ p, vif.Vxlan = some p) ∧
    (en.bd.isSome = true → en.vlanIf.isSome = true) ∧
    eeDriverVnis eeName heName st.events =
      (if en.bd.isSome = true then [vniOfEntry en] else [])

/-- Common postcondition of the three lazy phases, relative to a fixed
(he, ee) edge: entity cache untouched, the edge entry after the phase,
other edges untouched, driver-call history untouched. -/
def PhasePost (cnpd st' : CnpDriver) (hostName eeName : String)
    (en' : HEToEEStateType) : Prop :=
  st'.l2CNPEntityCache = cnpd.l2CNPEntityCache ∧
  lookupHEToEE st' hostName eeName = some en' ∧
  (∀ a b, ¬ (a = hostName ∧ b = eeName) → lookupHEToEE st' a b = lookupHEToEE cnpd a b) ∧
  (∀ x y, eeDriverVnis x y st'.events = eeDriverVnis x y cnpd.events)

/-- The entity caches are keyed by entity name (the Go caches are written
at `he.Name` / `ee.Name`). -/
def cacheNamesOk (st : CnpDriver) : Prop :=
  (∀ n he, st.l2CNPEntityCache.HEs n = some he → he.Name = n) ∧
  (∀ n ee, st.l2CNPEntityCache.EEs n = some ee → ee.Name = n)

/-- One invocation of `createVxLANAndBridgeToExtEntity`, as issued by the
north-south vxlan wiring loop. -/
structure C3Call where
  sfc : SfcEntity
  hostName : String
  eeName : String
  vlanID : Nat

/-- Run a sequence of `createVxLANAndBridgeToExtEntity` calls (the only
code path that emits the external-entity driver call). -/
def runExtCalls (cnpd : CnpDriver) : List C3Call → CnpDriver
  | [] => cnpd
  | c :: rest =>
    runExtCalls (createVxLANAndBridgeToExtEntity cnpd c.sfc c.hostName c.eeName c.vlanID).1 rest

def c3He : HostEntity := { HostEntity.zero with Name := "h1" }

def c3Ee : ExternalEntity :=
  { Name := "ee1", HostInterface := some { IfName := "e0", Ipv4Addr := "10.0.0.1/24" },
    HostVxlan := some { IfName := "vx0", SourceIpv4 := "10.0.0.2/24" } }

def c3State : CnpDriver := (WireHostEntityToExternalEntity initCnpDriver c3He c3Ee).1

def c3Sfc : SfcEntity :=
  { Name := "sfc1", Type' := SfcType.SFC_NS_VXLAN, SfcIpv4Subnet := "", VnfRepeatCount := 0,
    BdParms := none, Elements := [] }

def c3Calls : List C3Call :=
  [{ sfc := c3Sfc, hostName := "h1", eeName := "ee1", vlanID := 0 },
   { sfc := c3Sfc, hostName := "h1", eeName := "ee1", vlanID := 0 }]

/-! ## Theorems -/

/-- Later `SetSystemParameters` calls leave a non-zero VLAN counter alone. -/
theorem applySPs_vlan_stable (sps : List SystemParameters) :
    ∀ cnpd : CnpDriver, cnpd.seq.VLanID ≠ 0 →
      (sps.foldl (fun st sp => (SetSystemParameters st sp).1) cnpd).seq.VLanID =
        cnpd.seq.VLanID := by
  induction sps with
  | nil => intro cnpd _; rfl
  | cons sp rest ih =>
    intro cnpd h
    have hstep : (SetSystemParameters cnpd sp).1.seq.VLanID = cnpd.seq.VLanID := by
      simp only [SetSystemParameters]
      simp [h]
    simp only [List.foldl_cons]
    rw [ih _ (by rw [hstep]; exact h), hstep]

/-- C5 (counterexample): seeding with `starting_vlan_id = 1` leaves the
counter 0, so a second `SetSystemParameters` call re-seeds it: after the
first call (StartingVlanId 1) the counter is 0 and after a second call
(StartingVlanId 7) it is 6 - a later call changed the counter. -/
theorem C5_reseed_counterexample :
    ((SetSystemParameters initCnpDriver
        { SystemParameters.zero with StartingVlanId := 1 }).1.seq.VLanID = 0) ∧
    ((SetSystemParameters
        (SetSystemParameters initCnpDriver
          { SystemParameters.zero with StartingVlanId := 1 }).1
        { SystemParameters.zero with StartingVlanId := 7 }).1.seq.VLanID = 6) := by
  constructor
  · rfl
  · rfl

/-- C5 (amended): when the VLAN counter is 0 (freshly constructed driver)
and the first call's `starting_vlan_id` is not 1 (so the uint32 seed
`starting_vlan_id - 1` is non-zero), the first `SetSystemParameters` call
seeds the counter to `(starting_vlan_id - 1) mod 2^32` and no sequence of
later `SetSystemParameters` calls changes it. -/
theorem C5_first_call_seeds_vlan_counter (cnpd : CnpDriver) (sp : SystemParameters)
    (sps : List SystemParameters) (h0 : cnpd.seq.VLanID = 0)
    (h1 : dec32 sp.StartingVlanId ≠ 0) :
    (SetSystemParameters cnpd sp).1.seq.VLanID = dec32 sp.StartingVlanId ∧
    (sps.foldl (fun st sp => (SetSystemParameters st sp).1)
        (SetSystemParameters cnpd sp).1).seq.VLanID = dec32 sp.StartingVlanId := by
  have hfirst : (SetSystemParameters cnpd sp).1.seq.VLanID = dec32 sp.StartingVlanId := by
    simp only [SetSystemParameters]
    simp [h0]
  refine ⟨hfirst, ?_⟩
  rw [applySPs_vlan_stable sps _ (by rw [hfirst]; exact h1), hfirst]

/-- C5 witness: the amended theorem at the default starting vlan id 5000
followed by a second call with 6000. -/
theorem C5_first_call_seeds_vlan_counter_witness :
    (SetSystemParameters initCnpDriver
        { SystemParameters.zero with StartingVlanId := 5000 }).1.seq.VLanID =
      dec32 5000 ∧
    ([{ SystemParameters.zero with StartingVlanId := 6000 }].foldl
        (fun st sp => (SetSystemParameters st sp).1)
        (SetSystemParameters initCnpDriver
          { SystemParameters.zero with StartingVlanId := 5000 }).1).seq.VLanID =
      dec32 5000 :=
  C5_first_call_seeds_vlan_counter initCnpDriver
    { SystemParameters.zero with StartingVlanId := 5000 }
    [{ SystemParameters.zero with StartingVlanId := 6000 }] rfl (by decide)

/-- C6: `WireHostEntityToDestinationHostEntity` and
`WireHostEntityToExternalEntity` (for a valid external entity) succeed,
write nothing to the store, allocate nothing and persist nothing; a fresh
edge is recorded with all three sub-resources nil, and when the edge is
already recorded the edge cache is left entirely unchanged. -/
theorem C6_wire_edges_defer_creation (cnpd : CnpDriver) (sh dh he : HostEntity)
    (ee : ExternalEntity) (hIf : ee.HostInterface ≠ none) (hVx : ee.HostVxlan ≠ none) :
    ((WireHostEntityToDestinationHostEntity cnpd sh dh).2 = Except.ok () ∧
      (WireHostEntityToDestinationHostEntity cnpd sh dh).1.events = cnpd.events ∧
      (WireHostEntityToDestinationHostEntity cnpd sh dh).1.seq = cnpd.seq ∧
      (WireHostEntityToDestinationHostEntity cnpd sh dh).1.datastore = cnpd.datastore ∧
      (lookupHEToHE cnpd sh.Name dh.Name = none →
        lookupHEToHE (WireHostEntityToDestinationHostEntity cnpd sh dh).1 sh.Name dh.Name =
          some { vlanIf := none, bd := none, l3Route := none }) ∧
      (∀ en, lookupHEToHE cnpd sh.Name dh.Name = some en →
        (WireHostEntityToDestinationHostEntity cnpd sh dh).1.l2CNPStateCache.HEToHEs =
          cnpd.l2CNPStateCache.HEToHEs)) ∧
    ((WireHostEntityToExternalEntity cnpd he ee).2 = Except.ok () ∧
      (WireHostEntityToExternalEntity cnpd he ee).1.events = cnpd.events ∧
      (WireHostEntityToExternalEntity cnpd he ee).1.seq = cnpd.seq ∧
      (WireHostEntityToExternalEntity cnpd he ee).1.datastore = cnpd.datastore ∧
      (lookupHEToEE cnpd he.Name ee.Name = none →
        lookupHEToEE (WireHostEntityToExternalEntity cnpd he ee).1 he.Name ee.Name =
          some { vlanIf := none, bd := none, l3Route := none }) ∧
      (∀ en, lookupHEToEE cnpd he.Name ee.Name = some en →
        (WireHostEntityToExternalEntity cnpd he ee).1.l2CNPStateCache.HEToEEs =
          cnpd.l2CNPStateCache.HEToEEs)) := by
  have hcond : ¬ (ee.HostInterface = none ∨ ee.HostVxlan = none) := by
    intro h; cases h with
    | inl h => exact hIf h
    | inr h => exact hVx h
  constructor
  · cases houter : cnpd.l2CNPStateCache.HEToHEs sh.Name with
    | none =>
      refine ⟨?_, ?_, ?_, ?_, ?_, ?_⟩
      · simp [WireHostEntityToDestinationHostEntity, houter, emptyMap]
      · simp [WireHostEntityToDestinationHostEntity, houter, emptyMap]
      · simp [WireHostEntityToDestinationHostEntity, houter, emptyMap]
      · simp [WireHostEntityToDestinationHostEntity, houter, emptyMap]
      · intro _
        simp [WireHostEntityToDestinationHostEntity, lookupHEToHE, houter, emptyMap, upd]
      · intro en hen
        simp [lookupHEToHE, houter] at hen
    | some m =>
      cases hinner : m dh.Name with
      | none =>
        refine ⟨?_, ?_, ?_, ?_, ?_, ?_⟩
        · simp [WireHostEntityToDestinationHostEntity, houter, hinner]
        · simp [WireHostEntityToDestinationHostEntity, houter, hinner]
        · simp [WireHostEntityToDestinationHostEntity, houter, hinner]
        · simp [WireHostEntityToDestinationHostEntity, houter, hinner]
        · intro _
          simp [WireHostEntityToDestinationHostEntity, lookupHEToHE, houter, hinner, upd]
        · intro en hen
          simp [lookupHEToHE, houter, hinner] at hen
      | some en =>
        refine ⟨?_, ?_, ?_, ?_, ?_, ?_⟩
        · simp [WireHostEntityToDestinationHostEntity, houter, hinner]
        · simp [WireHostEntityToDestinationHostEntity, houter, hinner]
        · simp [WireHostEntityToDestinationHostEntity, houter, hinner]
        · simp [WireHostEntityToDestinationHostEntity, houter, hinner]
        · intro h
          simp [lookupHEToHE, houter, hinner] at h
        · intro en' _
          simp [WireHostEntityToDestinationHostEntity, houter, hinner]
  · cases houter : cnpd.l2CNPStateCache.HEToEEs he.Name with
    | none =>
      refine ⟨?_, ?_, ?_, ?_, ?_, ?_⟩
      · simp [WireHostEntityToExternalEntity, hcond, houter, emptyMap]
      · simp [WireHostEntityToExternalEntity, hcond, houter, emptyMap]
      · simp [WireHostEntityToExternalEntity, hcond, houter, emptyMap]
      · simp [WireHostEntityToExternalEntity, hcond, houter, emptyMap]
      · intro _
        simp [WireHostEntityToExternalEntity, hcond, lookupHEToEE, houter, emptyMap, upd]
      · intro en hen
        simp [lookupHEToEE, houter] at hen
    | some m =>
      cases hinner : m ee.Name with
      | none =>
        refine ⟨?_, ?_, ?_, ?_, ?_, ?_⟩
        · simp [WireHostEntityToExternalEntity, hcond, houter, hinner]
        · simp [WireHostEntityToExternalEntity, hcond, houter, hinner]
        · simp [WireHostEntityToExternalEntity, hcond, houter, hinner]
        · simp [WireHostEntityToExternalEntity, hcond, houter, hinner]
        · intro _
          simp [WireHostEntityToExternalEntity, hcond, lookupHEToEE, houter, hinner, upd]
        · intro en hen
          simp [lookupHEToEE, houter, hinner] at hen
      | some en =>
        refine ⟨?_, ?_, ?_, ?_, ?_, ?_⟩
        · simp [WireHostEntityToExternalEntity, hcond, houter, hinner]
        · simp [WireHostEntityToExternalEntity, hcond, houter, hinner]
        · simp [WireHostEntityToExternalEntity, hcond, houter, hinner]
        · simp [WireHostEntityToExternalEntity, hcond, houter, hinner]
        · intro h
          simp [lookupHEToEE, houter, hinner] at h
        · intro en' _
          simp [WireHostEntityToExternalEntity, hcond, houter, hinner]

/-- C6 witness: the theorem at a fresh driver state and concrete entities. -/
theorem C6_wire_edges_defer_creation_witness :
    (WireHostEntityToDestinationHostEntity initCnpDriver { HostEntity.zero with Name := "h1" }
        { HostEntity.zero with Name := "h2" }).2 = Except.ok () ∧
    (WireHostEntityToExternalEntity initCnpDriver { HostEntity.zero with Name := "h3" }
        { Name := "ee1", HostInterface := some { IfName := "e0", Ipv4Addr := "10.0.0.1" },
          HostVxlan := some { IfName := "vx0", SourceIpv4 := "10.0.0.2" } }).2 =
      Except.ok () :=
  ⟨(C6_wire_edges_defer_creation initCnpDriver { HostEntity.zero with Name := "h1" }
      { HostEntity.zero with Name := "h2" } { HostEntity.zero with Name := "h3" }
      { Name := "ee1", HostInterface := some { IfName := "e0", Ipv4Addr := "10.0.0.1" },
        HostVxlan := some { IfName := "vx0", SourceIpv4 := "10.0.0.2" } }
      (by decide) (by decide)).1.1,
    (C6_wire_edges_defer_creation initCnpDriver { HostEntity.zero with Name := "h1" }
      { HostEntity.zero with Name := "h2" } { HostEntity.zero with Name := "h3" }
      { Name := "ee1", HostInterface := some { IfName := "e0", Ipv4Addr := "10.0.0.1" },
        HostVxlan := some { IfName := "vx0", SourceIpv4 := "10.0.0.2" } }
      (by decide) (by decide)).2.1⟩

/-- C10: with a nil `HostInterface` or nil `HostVxlan`,
`WireHostEntityToExternalEntity` returns an error and records no (he, ee)
edge, but the he and ee records have already been inserted into the
entity caches before the check, so the operation is not atomic on this
error. -/
theorem C10_invalid_ee_nonatomic (cnpd : CnpDriver) (he : HostEntity) (ee : ExternalEntity)
    (h : ee.HostInterface = none ∨ ee.HostVxlan = none) :
    (WireHostEntityToExternalEntity cnpd he ee).2 =
      Except.error "invalid external entity config" ∧
    (WireHostEntityToExternalEntity cnpd he ee).1.l2CNPStateCache.HEToEEs =
      cnpd.l2CNPStateCache.HEToEEs ∧
    (WireHostEntityToExternalEntity cnpd he ee).1.events = cnpd.events ∧
    (WireHostEntityToExternalEntity cnpd he ee).1.l2CNPEntityCache.HEs he.Name = some he ∧
    (WireHostEntityToExternalEntity cnpd he ee).1.l2CNPEntityCache.EEs ee.Name = some ee := by
  simp only [WireHostEntityToExternalEntity]
  rw [if_pos h]
  exact ⟨rfl, rfl, rfl, by simp [upd], by simp [upd]⟩

/-- C10 witness: the theorem at a concrete invalid external entity. -/
theorem C10_invalid_ee_nonatomic_witness :
    (WireHostEntityToExternalEntity initCnpDriver { HostEntity.zero with Name := "h1" }
        { Name := "ee1", HostInterface := none,
          HostVxlan := some { IfName := "vx0", SourceIpv4 := "10.0.0.2" } }).2 =
      Except.error "invalid external entity config" ∧
    (WireHostEntityToExternalEntity initCnpDriver { HostEntity.zero with Name := "h1" }
        { Name := "ee1", HostInterface := none,
          HostVxlan := some { IfName := "vx0", SourceIpv4 := "10.0.0.2" } }).1.l2CNPEntityCache.EEs
        "ee1" =
      some { Name := "ee1", HostInterface := none,
             HostVxlan := some { IfName := "vx0", SourceIpv4 := "10.0.0.2" } } :=
  ⟨(C10_invalid_ee_nonatomic initCnpDriver { HostEntity.zero with Name := "h1" }
      { Name := "ee1", HostInterface := none,
        HostVxlan := some { IfName := "vx0", SourceIpv4 := "10.0.0.2" } } (Or.inl rfl)).1,
    (C10_invalid_ee_nonatomic initCnpDriver { HostEntity.zero with Name := "h1" }
      { Name := "ee1", HostInterface := none,
        HostVxlan := some { IfName := "vx0", SourceIpv4 := "10.0.0.2" } }
      (Or.inl rfl)).2.2.2.2⟩

/-- C2 (counterexample): with `reconcileInProgress` set, `createXConnect`
still sends its write straight to the store (the event list of the engine
gains a store-write put) instead of buffering it in the "after" set. -/
theorem C2_xconnect_writes_during_reconcile :
    ({ initCnpDriver with reconcileInProgress := true } : CnpDriver).reconcileInProgress =
      true ∧
    (createXConnect { initCnpDriver with reconcileInProgress := true } "vswitch1" "if1"
        "if2").events =
      [Event.putXConnect "vswitch1" { ReceiveInterface := "if1", TransmitInterface := "if2" }] ∧
    Event.isStoreWrite
        (Event.putXConnect "vswitch1" { ReceiveInterface := "if1", TransmitInterface := "if2" }) =
      true := by
  refine ⟨rfl, rfl, rfl⟩

/-- C2 (amended): during reconcile, interface, bridge-domain, static-route
and linux-interface creation emit no store write and are captured in the
"after" buffer; but cross-connects, L2-FIB entries and static ARP entries
are written straight to the store even while `reconcileInProgress` is
set. -/
theorem C2_reconcile_buffering (cnpd : CnpDriver) (h : cnpd.reconcileInProgress = true)
    (vrfID vni mtu weight pref memifID : Nat) (isMaster : Bool) (rxMode : RxModeType)
    (k ifname bdName descr dst nh outIf src mac ip4 ip6 hostIf peerIf container : String)
    (ifs : List BDInterface) (bd : BridgeDomain) (bdParms : BDParms) :
    ((vxLanCreate cnpd k ifname vni src dst).1.events = cnpd.events ∧
      ((vxLanCreate cnpd k ifname vni src dst).1.reconcileAfter.ifs (k, ifname)).isSome =
        true) ∧
    ((memIfCreate cnpd k ifname memifID isMaster container ip4 mac ip6 mtu rxMode).1.events =
        cnpd.events ∧
      ((memIfCreate cnpd k ifname memifID isMaster container ip4 mac ip6 mtu
            rxMode).1.reconcileAfter.ifs (k, ifname)).isSome = true) ∧
    ((createEthernet cnpd k ifname ip4 mac ip6 mtu rxMode).events = cnpd.events ∧
      ((createEthernet cnpd k ifname ip4 mac ip6 mtu rxMode).reconcileAfter.ifs
          (k, ifname)).isSome = true) ∧
    ((afPacketCreate cnpd k ifname hostIf ip4 mac ip6 mtu rxMode).1.events = cnpd.events ∧
      ((afPacketCreate cnpd k ifname hostIf ip4 mac ip6 mtu rxMode).1.reconcileAfter.ifs
          (k, ifname)).isSome = true) ∧
    ((createLoopback cnpd k ifname mac ip4 ip6 mtu rxMode).events = cnpd.events ∧
      ((createLoopback cnpd k ifname mac ip4 ip6 mtu rxMode).reconcileAfter.ifs
          (k, ifname)).isSome = true) ∧
    ((vEthIfCreate cnpd k ifname hostIf peerIf container mac ip4 ip6 mtu).events =
        cnpd.events ∧
      ((vEthIfCreate cnpd k ifname hostIf peerIf container mac ip4 ip6 mtu).reconcileAfter.lifs
          (k, ifname)).isSome = true) ∧
    ((bridgedDomainCreateWithIfs cnpd k bdName ifs bdParms).1.events = cnpd.events ∧
      ((bridgedDomainCreateWithIfs cnpd k bdName ifs bdParms).1.reconcileAfter.bds
          (k, bdName)).isSome = true) ∧
    ((bridgedDomainAssociateWithIfs cnpd k bd ifs).1.events = cnpd.events) ∧
    ((createStaticRoute cnpd vrfID k descr dst nh outIf weight pref).1.events = cnpd.events ∧
      ((createStaticRoute cnpd vrfID k descr dst nh outIf weight pref).1.reconcileAfter.srs
          (k, descr)).isSome = true) ∧
    (createXConnect cnpd k ifname outIf).events =
      cnpd.events ++
        [Event.putXConnect k { ReceiveInterface := ifname, TransmitInterface := outIf }] ∧
    (createL2FibEntry cnpd k bdName mac outIf).1.events =
      cnpd.events ++
        [Event.putBDFIB k
          { BridgeDomain := bdName, PhysAddress := mac, Action := L2FibAction.FORWARD,
            OutgoingInterface := outIf, StaticConfig := true }] ∧
    (createStaticArpEntry cnpd k ip4 mac outIf).1.events =
      cnpd.events ++
        [Event.putArpEntry (ArpEntryKey k outIf ip4)
          { Interface := outIf, Static := true, IpAddress := ip4, PhysAddress := mac }] := by
  refine ⟨⟨?_, ?_⟩, ⟨?_, ?_⟩, ⟨?_, ?_⟩, ⟨?_, ?_⟩, ⟨?_, ?_⟩, ⟨?_, ?_⟩, ⟨?_, ?_⟩, ?_, ⟨?_, ?_⟩,
    ?_, ?_, ?_⟩ <;>
    simp [vxLanCreate, memIfCreate, createEthernet, afPacketCreate, createLoopback,
      vEthIfCreate, bridgedDomainCreateWithIfs, bridgedDomainAssociateWithIfs,
      createStaticRoute, createXConnect, createL2FibEntry, createStaticArpEntry,
      reconcileInterface, reconcileBridgeDomain, reconcileStaticRoute, reconcileLinuxInterface,
      upd2, h]
  · cases hbd : cnpd.reconcileAfter.bds (k, bdName) <;> simp [hbd, upd2]

/-- C2 witness: the amended theorem at a concrete reconciling state. -/
theorem C2_reconcile_buffering_witness :
    (vxLanCreate { initCnpDriver with reconcileInProgress := true } "sw" "vx1" 7 "10.0.0.1"
        "10.0.0.2").1.events = ({ initCnpDriver with reconcileInProgress := true } :
        CnpDriver).events ∧
    (createXConnect { initCnpDriver with reconcileInProgress := true } "sw" "a" "b").events =
      ({ initCnpDriver with reconcileInProgress := true } : CnpDriver).events ++
        [Event.putXConnect "sw" { ReceiveInterface := "a", TransmitInterface := "b" }] :=
  ⟨(C2_reconcile_buffering { initCnpDriver with reconcileInProgress := true } rfl 0 7 0 0 0 0
      false RxModeType.RX_MODE_UNKNOWN "sw" "vx1" "bd" "d" "10.0.0.3" "10.0.0.1" "b" "10.0.0.1"
      "" "" "" "" "" "" [] BridgeDomain.zero BDParms.zero).1.1,
    (by
      have h := (C2_reconcile_buffering { initCnpDriver with reconcileInProgress := true } rfl
        0 7 0 0 0 0 false RxModeType.RX_MODE_UNKNOWN "sw" "a" "bd" "d" "10.0.0.3" "10.0.0.1"
        "b" "10.0.0.1" "" "" "" "" "" "" [] BridgeDomain.zero BDParms.zero)
      exact h.2.2.2.2.2.2.2.2.2.1)⟩

/-- An interface name is found by the membership probe of
`bridgedDomainAssociateWithIfs` iff it is among the member names. -/
theorem any_name_eq_true_iff (cur : List BDInterface) (n : String) :
    (cur.any fun bi => bi.Name = n) = true ↔ n ∈ cur.map BDInterface.Name := by
  simp [List.any_eq_true, List.mem_map]

/-- `appendMissingIfs` preserves name-uniqueness of the member list. -/
theorem appendMissingIfs_nodup (ifs : List BDInterface) :
    ∀ cur : List BDInterface, (cur.map BDInterface.Name).Nodup →
      ((appendMissingIfs cur ifs).map BDInterface.Name).Nodup := by
  induction ifs with
  | nil => intro cur h; simpa [appendMissingIfs] using h
  | cons i rest ih =>
    intro cur h
    by_cases hmem : (cur.any fun bi => bi.Name = i.Name) = true
    · rw [appendMissingIfs, if_pos hmem]
      exact ih cur h
    · rw [appendMissingIfs, if_neg hmem]
      refine ih (cur ++ [i]) ?_
      have hnot : i.Name ∉ cur.map BDInterface.Name := by
        intro hin
        exact hmem ((any_name_eq_true_iff cur i.Name).mpr hin)
      simp [List.nodup_append, h, hnot]

/-- `appendMissingIfs` is the identity when every incoming name is already
a member. -/
theorem appendMissingIfs_mem_id (ifs : List BDInterface) :
    ∀ cur : List BDInterface, (∀ i ∈ ifs, i.Name ∈ cur.map BDInterface.Name) →
      appendMissingIfs cur ifs = cur := by
  induction ifs with
  | nil => intro cur _; rfl
  | cons i rest ih =>
    intro cur h
    have hmem : (cur.any fun bi => bi.Name = i.Name) = true :=
      (any_name_eq_true_iff cur i.Name).mpr (h i (by simp))
    rw [appendMissingIfs, if_pos hmem]
    exact ih cur (fun j hj => h j (by simp [hj]))

/-- C8 (counterexample): the write path of `bridgedDomainAssociateWithIfs`
does not sort: associating interface "a" into a bridge whose sole member
is "b" yields the member list [b, a], which is not sorted by interface
name. -/
theorem C8_member_list_not_sorted_counterexample :
    ((bridgedDomainAssociateWithIfs initCnpDriver "sw"
        { BridgeDomain.zero with Name := "bd1", Interfaces := [{ Name := "b" }] }
        [{ Name := "a" }]).2.Interfaces.map BDInterface.Name = ["b", "a"]) ∧
    ¬ List.Sorted (fun a b => a ≤ b)
        ((bridgedDomainAssociateWithIfs initCnpDriver "sw"
          { BridgeDomain.zero with Name := "bd1", Interfaces := [{ Name := "b" }] }
          [{ Name := "a" }]).2.Interfaces.map BDInterface.Name) := by
  constructor
  · rfl
  · intro h
    have heq : ((bridgedDomainAssociateWithIfs initCnpDriver "sw"
        { BridgeDomain.zero with Name := "bd1", Interfaces := [{ Name := "b" }] }
        [{ Name := "a" }]).2.Interfaces.map BDInterface.Name) = ["b", "a"] := rfl
    rw [heq] at h
    have hle : ("b" : String) ≤ "a" := (List.sorted_cons.mp h).1 "a" (by simp)
    rw [String.le_iff_toList_le] at hle
    exact absurd hle (by decide)

/-- C8 (amended): `bridgedDomainAssociateWithIfs` never introduces a
duplicate member name (associating an interface whose name is already a
member leaves the list unchanged); the member list is kept in insertion
order - the `sortBridgedInterfaces` sort exists but is not invoked on the
write path. -/
theorem C8_associate_nodup_and_idempotent (cnpd : CnpDriver) (k : String)
    (bd : BridgeDomain) (ifs : List BDInterface)
    (hnd : (bd.Interfaces.map BDInterface.Name).Nodup) :
    (((bridgedDomainAssociateWithIfs cnpd k bd ifs).2.Interfaces.map BDInterface.Name).Nodup) ∧
    ((∀ i ∈ ifs, i.Name ∈ bd.Interfaces.map BDInterface.Name) →
      (bridgedDomainAssociateWithIfs cnpd k bd ifs).2.Interfaces = bd.Interfaces) := by
  constructor
  · have h := appendMissingIfs_nodup ifs bd.Interfaces hnd
    by_cases hr : cnpd.reconcileInProgress <;>
      simpa [bridgedDomainAssociateWithIfs, hr] using h
  · intro hall
    have h := appendMissingIfs_mem_id ifs bd.Interfaces hall
    by_cases hr : cnpd.reconcileInProgress <;>
      simpa [bridgedDomainAssociateWithIfs, hr] using h

/-- C8 witness: a bridge with members [vx, a]; re-associating "a" leaves
the list unchanged and name-uniqueness is preserved. -/
theorem C8_associate_nodup_and_idempotent_witness :
    (((bridgedDomainAssociateWithIfs initCnpDriver "sw"
        { Name := "bd1", Flood := false, UnknownUnicastFlood := false, Forward := false,
          Learn := false, ArpTermination := false, MacAge := 0,
          Interfaces := [{ Name := "vx" }, { Name := "a" }] }
        [{ Name := "a" }]).2.Interfaces.map BDInterface.Name).Nodup) ∧
    ((∀ i ∈ [({ Name := "a" } : BDInterface)], i.Name ∈
        ((({ Name := "bd1", Flood := false, UnknownUnicastFlood := false, Forward := false,
             Learn := false, ArpTermination := false, MacAge := 0,
             Interfaces := [{ Name := "vx" }, { Name := "a" }] } :
           BridgeDomain)).Interfaces.map BDInterface.Name)) →
      (bridgedDomainAssociateWithIfs initCnpDriver "sw"
        { Name := "bd1", Flood := false, UnknownUnicastFlood := false, Forward := false,
          Learn := false, ArpTermination := false, MacAge := 0,
          Interfaces := [{ Name := "vx" }, { Name := "a" }] }
        [{ Name := "a" }]).2.Interfaces =
        (({ Name := "bd1", Flood := false, UnknownUnicastFlood := false, Forward := false,
            Learn := false, ArpTermination := false, MacAge := 0,
            Interfaces := [{ Name := "vx" }, { Name := "a" }] } :
          BridgeDomain)).Interfaces) :=
  C8_associate_nodup_and_idempotent initCnpDriver "sw"
    { Name := "bd1", Flood := false, UnknownUnicastFlood := false, Forward := false,
      Learn := false, ArpTermination := false, MacAge := 0,
      Interfaces := [{ Name := "vx" }, { Name := "a" }] }
    [{ Name := "a" }] (by decide)

/-- C1 (code bug): `createVxLANAndBridgeToDestHost` persists host-pair vni
bindings in the `HE2HEIDs` table but looks them up in the `HE2EEIDs`
table (source lines 710 vs 726).  With a persisted `HE2HEIDs[h1, h2] =
7000` binding and no vlan_id supplied, the engine does not reuse 7000: it
increments the VLAN counter, wires the tunnel with the fresh vni 5001 and
overwrites the persisted binding - while planting the same binding in the
`HE2EEIDs` table makes the engine reuse 7000, proving the lookup reads
the wrong table. -/
theorem C1_he2he_binding_not_reused :
    DatastoreHE2HEIDsRetrieve c1State "h1" "h2" = some { VlanId := 7000 } ∧
    DatastoreHE2EEIDsRetrieve c1State "h1" "h2" = none ∧
    (createVxLANAndBridgeToDestHost c1State c1Sfc "h1" "h2" 0).2 =
      Except.ok ((createVxLANAndBridgeToDestHost c1State c1Sfc "h1" "h2" 0).2.toOption.getD
        BridgeDomain.zero) ∧
    c1EdgeVni (createVxLANAndBridgeToDestHost c1State c1Sfc "h1" "h2" 0).1 = some 5001 ∧
    (createVxLANAndBridgeToDestHost c1State c1Sfc "h1" "h2" 0).1.seq.VLanID = 5001 ∧
    DatastoreHE2HEIDsRetrieve (createVxLANAndBridgeToDestHost c1State c1Sfc "h1" "h2" 0).1
        "h1" "h2" = some { VlanId := 5001 } ∧
    DatastoreHE2EEIDsRetrieve c1StateB "h1" "h2" = some { VlanId := 7000 } ∧
    DatastoreHE2HEIDsRetrieve c1StateB "h1" "h2" = none ∧
    c1EdgeVni (createVxLANAndBridgeToDestHost c1StateB c1Sfc "h1" "h2" 0).1 = some 7000 ∧
    (createVxLANAndBridgeToDestHost c1StateB c1Sfc "h1" "h2" 0).1.seq.VLanID = 5000 := by
  refine ⟨rfl, rfl, rfl, rfl, rfl, rfl, rfl, rfl, rfl, rfl⟩

/-- The characters of a formatted MAC address: leading octet 02 followed
by the big-endian byte tail of the (uint32-reduced) id. -/
theorem formatMacAddress_data (id : Nat) :
    (formatMacAddress id).data = '0' :: '2' :: ':' :: macTailChars (id % U32) := rfl

/-- `hexDigit` is injective below 16. -/
theorem hexDigit_inj : ∀ a, a < 16 → ∀ b, b < 16 → hexDigit a = hexDigit b → a = b := by
  decide

/-- C9: for ids in [1, 2^32), `formatMacAddress` yields `02:` followed by
the five big-endian bytes of the id as hex octets, and it is injective on
that range. -/
theorem C9_formatMacAddress_shape_and_injective (id1 id2 : Nat) (h1a : 1 ≤ id1)
    (h1b : id1 < U32) (h2a : 1 ≤ id2) (h2b : id2 < U32) :
    (formatMacAddress id1).data = '0' :: '2' :: ':' :: macTailChars id1 ∧
    byteAt id1 4 = 0 ∧
    (formatMacAddress id1 = formatMacAddress id2 → id1 = id2) := by
  have hm1 : id1 % U32 = id1 := Nat.mod_eq_of_lt h1b
  have hm2 : id2 % U32 = id2 := Nat.mod_eq_of_lt h2b
  refine ⟨by rw [formatMacAddress_data, hm1], ?_, ?_⟩
  · show id1 / 2 ^ (8 * 4) % 256 = 0
    have : id1 / 2 ^ (8 * 4) = 0 := Nat.div_eq_of_lt (by
      calc id1 < U32 := h1b
        _ ≤ 2 ^ (8 * 4) := by norm_num [U32])
    rw [this]
  · intro heq
    have hdata : (formatMacAddress id1).data = (formatMacAddress id2).data := by rw [heq]
    rw [formatMacAddress_data, formatMacAddress_data, hm1, hm2] at hdata
    simp only [macTailChars, List.cons.injEq, and_true] at hdata
    obtain ⟨-, -, -, e4h, e4l, -, e3h, e3l, -, e2h, e2l, -, e1h, e1l, -, e0h, e0l⟩ := hdata
    have hb : ∀ k, byteAt id1 k < 256 ∧ byteAt id2 k < 256 := by
      intro k
      exact ⟨Nat.mod_lt _ (by norm_num), Nat.mod_lt _ (by norm_num)⟩
    have hbyte : ∀ k, byteAt id1 k = byteAt id2 k → True := fun _ _ => trivial
    have e3 : byteAt id1 3 = byteAt id2 3 := by
      have hh := hexDigit_inj _ (Nat.div_lt_of_lt_mul (by
        have := (hb 3).1; omega)) _ (Nat.div_lt_of_lt_mul (by
        have := (hb 3).2; omega)) e3h
      have hl := hexDigit_inj _ (Nat.mod_lt _ (by norm_num)) _
        (Nat.mod_lt _ (by norm_num)) e3l
      omega
    have e2 : byteAt id1 2 = byteAt id2 2 := by
      have hh := hexDigit_inj _ (Nat.div_lt_of_lt_mul (by
        have := (hb 2).1; omega)) _ (Nat.div_lt_of_lt_mul (by
        have := (hb 2).2; omega)) e2h
      have hl := hexDigit_inj _ (Nat.mod_lt _ (by norm_num)) _
        (Nat.mod_lt _ (by norm_num)) e2l
      omega
    have e1 : byteAt id1 1 = byteAt id2 1 := by
      have hh := hexDigit_inj _ (Nat.div_lt_of_lt_mul (by
        have := (hb 1).1; omega)) _ (Nat.div_lt_of_lt_mul (by
        have := (hb 1).2; omega)) e1h
      have hl := hexDigit_inj _ (Nat.mod_lt _ (by norm_num)) _
        (Nat.mod_lt _ (by norm_num)) e1l
      omega
    have e0 : byteAt id1 0 = byteAt id2 0 := by
      have hh := hexDigit_inj _ (Nat.div_lt_of_lt_mul (by
        have := (hb 0).1; omega)) _ (Nat.div_lt_of_lt_mul (by
        have := (hb 0).2; omega)) e0h
      have hl := hexDigit_inj _ (Nat.mod_lt _ (by norm_num)) _
        (Nat.mod_lt _ (by norm_num)) e0l
      omega
    unfold byteAt at e3 e2 e1 e0
    unfold U32 at h1b h2b
    norm_num at e3 e2 e1 e0
    omega

/-- C9 witness: the theorem at the concrete ids 258 and 258. -/
theorem C9_formatMacAddress_shape_and_injective_witness :
    (formatMacAddress 258).data = '0' :: '2' :: ':' :: macTailChars 258 ∧
    byteAt 258 4 = 0 ∧
    (formatMacAddress 258 = formatMacAddress 258 → 258 = 258) :=
  C9_formatMacAddress_shape_and_injective 258 258 (by decide) (by decide) (by decide)
    (by decide)

/-- On an even-length all-memif element list, the east-west wiring loop of
an `SFC_EW_MEMIF` chain is exactly the fold of
`createOneOrMoreInterContainerMemIfPairs` over the consecutive pairs. -/
theorem ewWireLoop_memif_pairs (sfc : SfcEntity) (ht : sfc.Type' = SfcType.SFC_EW_MEMIF) :
    ∀ (n : Nat) (l : List SfcElement), l.length ≤ n → l.length % 2 = 0 →
      (∀ e ∈ l, isMemifElement e) →
      ∀ (cnpd : CnpDriver) (i : Nat) (prev : String), i % 2 = 0 →
        ewWireLoop sfc l i prev cnpd =
          (ewMemifPairsRun sfc.Name sfc.VnfRepeatCount (pairList l) cnpd, Except.ok ()) := by
  intro n
  induction n with
  | zero =>
    intro l hlen _ _ cnpd i prev _
    have : l = [] := List.eq_nil_of_length_eq_zero (Nat.le_zero.mp hlen)
    subst this
    rfl
  | succ n ih =>
    intro l hlen heven hall cnpd i prev hi
    match l with
    | [] => rfl
    | [a] => simp at heven
    | a :: b :: rest =>
      have ha := hall a (by simp)
      have hb := hall b (by simp)
      have hrest : ∀ e ∈ rest, isMemifElement e := fun e he => hall e (by simp [he])
      have hlen' : rest.length ≤ n := by simp at hlen; omega
      have heven' : rest.length % 2 = 0 := by simp at heven; omega
      have hi1 : ¬ (i + 1) % 2 = 0 := by omega
      have hi2 : (i + 2) % 2 = 0 := by omega
      have hstep2 : ∀ cnpd' : CnpDriver,
          ewWireLoop sfc (b :: rest) (i + 1) prev cnpd' =
            (ewMemifPairsRun sfc.Name sfc.VnfRepeatCount (pairList rest) cnpd',
              Except.ok ()) := by
        intro cnpd'
        rcases hb with hb | hb
        · rw [ewWireLoop]
          simp only [hb, ht, if_pos rfl, if_neg hi1]
          exact ih rest hlen' heven' hrest cnpd' (i + 2) prev hi2
        · rw [ewWireLoop]
          simp only [hb, ht, if_pos rfl, if_neg hi1]
          exact ih rest hlen' heven' hrest cnpd' (i + 2) prev hi2
      rcases ha with ha | ha
      · rw [ewWireLoop]
        simp only [ha, ht, if_pos rfl, if_pos hi, List.headD_cons]
        rw [hstep2]
        rfl
      · rw [ewWireLoop]
        simp only [ha, ht, if_pos rfl, if_pos hi, List.headD_cons]
        rw [hstep2]
        rfl

/-- C7: for an `SFC_EW_MEMIF` entity with an odd element count,
`WireSfcEntity` errors before wiring anything (no events emitted); with an
even count of memif elements, the run is exactly the consecutive-pair
fold: element[i] is paired with element[i+1] for each even i. -/
theorem C7_ew_memif_pairing (cnpd : CnpDriver) (sfc : SfcEntity)
    (ht : sfc.Type' = SfcType.SFC_EW_MEMIF) :
    (sfc.Elements.length % 2 ≠ 0 →
      (WireSfcEntity cnpd sfc).2 =
        Except.error "wireSfcEastWestElements: e-w memif sfc should have pairs of entries" ∧
      (WireSfcEntity cnpd sfc).1.events = cnpd.events) ∧
    (sfc.Elements.length % 2 = 0 →
      (∀ e ∈ sfc.Elements, isMemifElement e) →
      WireSfcEntity cnpd sfc =
        (ewMemifPairsRun sfc.Name sfc.VnfRepeatCount (pairList sfc.Elements)
          { cnpd with
              l2CNPEntityCache.SFCs := upd cnpd.l2CNPEntityCache.SFCs sfc.Name sfc },
          Except.ok ())) := by
  constructor
  · intro hodd
    simp only [WireSfcEntity, ht, wireSfcEastWestElements]
    rw [if_pos (by simp [hodd])]
    exact ⟨rfl, rfl⟩
  · intro heven hall
    simp only [WireSfcEntity, ht, wireSfcEastWestElements]
    rw [if_neg (by simp [heven])]
    exact ewWireLoop_memif_pairs sfc ht sfc.Elements.length sfc.Elements (Nat.le_refl _)
      heven hall _ 0 "" rfl

/-- C7 witness: a two-element memif chain on one switch; the run equals
the single-pair fold. -/
theorem C7_ew_memif_pairing_witness :
    WireSfcEntity initCnpDriver
        { Name := "ew1", Type' := SfcType.SFC_EW_MEMIF, SfcIpv4Subnet := "",
          VnfRepeatCount := 0, BdParms := none,
          Elements :=
            [{ SfcElement.zero with
                Container := "c1", PortLabel := "p1", EtcdVppSwitchKey := "vs1",
                Type' := SfcElementType.VPP_CONTAINER_MEMIF },
              { SfcElement.zero with
                  Container := "c2", PortLabel := "p1", EtcdVppSwitchKey := "vs1",
                  Type' := SfcElementType.VPP_CONTAINER_MEMIF }] } =
      (ewMemifPairsRun "ew1" 0
        (pairList
          [{ SfcElement.zero with
              Container := "c1", PortLabel := "p1", EtcdVppSwitchKey := "vs1",
              Type' := SfcElementType.VPP_CONTAINER_MEMIF },
            { SfcElement.zero with
                Container := "c2", PortLabel := "p1", EtcdVppSwitchKey := "vs1",
                Type' := SfcElementType.VPP_CONTAINER_MEMIF }])
        { initCnpDriver with
            l2CNPEntityCache.SFCs :=
              upd initCnpDriver.l2CNPEntityCache.SFCs "ew1"
                { Name := "ew1", Type' := SfcType.SFC_EW_MEMIF, SfcIpv4Subnet := "",
                  VnfRepeatCount := 0, BdParms := none,
                  Elements :=
                    [{ SfcElement.zero with
                        Container := "c1", PortLabel := "p1", EtcdVppSwitchKey := "vs1",
                        Type' := SfcElementType.VPP_CONTAINER_MEMIF },
                      { SfcElement.zero with
                          Container := "c2", PortLabel := "p1", EtcdVppSwitchKey := "vs1",
                          Type' := SfcElementType.VPP_CONTAINER_MEMIF }] } },
        Except.ok ()) :=
  (C7_ew_memif_pairing initCnpDriver
    { Name := "ew1", Type' := SfcType.SFC_EW_MEMIF, SfcIpv4Subnet := "",
      VnfRepeatCount := 0, BdParms := none,
      Elements :=
        [{ SfcElement.zero with
            Container := "c1", PortLabel := "p1", EtcdVppSwitchKey := "vs1",
            Type' := SfcElementType.VPP_CONTAINER_MEMIF },
          { SfcElement.zero with
              Container := "c2", PortLabel := "p1", EtcdVppSwitchKey := "vs1",
              Type' := SfcElementType.VPP_CONTAINER_MEMIF }] } rfl).2 rfl (by decide)

/-- `countEE` on a cons cell headed by an external-entity element. -/
theorem countEE_cons_pos (e : SfcElement) (rest : List SfcElement)
    (h : e.Type' = SfcElementType.EXTERNAL_ENTITY) :
    countEE (e :: rest) = countEE rest + 1 := by
  simp [countEE, h, Nat.add_comm]

/-- `countEE` on a cons cell headed by any other element. -/
theorem countEE_cons_neg (e : SfcElement) (rest : List SfcElement)
    (h : ¬ e.Type' = SfcElementType.EXTERNAL_ENTITY) :
    countEE (e :: rest) = countEE rest := by
  simp [countEE, h]

/-- `countHE` on a cons cell headed by a host-entity element. -/
theorem countHE_cons_pos (e : SfcElement) (rest : List SfcElement)
    (h : e.Type' = SfcElementType.HOST_ENTITY) :
    countHE (e :: rest) = countHE rest + 1 := by
  simp [countHE, h, Nat.add_comm]

/-- `countHE` on a cons cell headed by any other element. -/
theorem countHE_cons_neg (e : SfcElement) (rest : List SfcElement)
    (h : ¬ e.Type' = SfcElementType.HOST_ENTITY) :
    countHE (e :: rest) = countHE rest := by
  simp [countHE, h]

/-- Success characterisation of the validation scan, generalised over an
accumulator whose counts have not yet exceeded 1. -/
theorem nsVxlanScanLoop_ok_iff (EEs : String → Option ExternalEntity)
    (HEs : String → Option HostEntity) :
    ∀ (l : List SfcElement) (acc : NsVxlanScan), acc.eeCount ≤ 1 → acc.dhCount ≤ 1 →
      ((nsVxlanScanLoop EEs HEs l acc).isOk = true ↔
        (acc.eeCount + countEE l ≤ 1 ∧ acc.dhCount + countHE l ≤ 1 ∧
          (∀ e ∈ l, e.Type' = SfcElementType.EXTERNAL_ENTITY → EEs e.Container ≠ none) ∧
          (∀ e ∈ l, e.Type' = SfcElementType.HOST_ENTITY → HEs e.Container ≠ none))) := by
  intro l
  induction l with
  | nil =>
    intro acc hae had
    simp [nsVxlanScanLoop, countEE, countHE, Except.isOk, Except.toBool]
    omega
  | cons e rest ih =>
    intro acc hae had
    rw [nsVxlanScanLoop]
    cases hty : e.Type' with
    | EXTERNAL_ENTITY =>
      simp only
      rw [countEE_cons_pos e rest hty, countHE_cons_neg e rest (by simp [hty]),
        List.forall_mem_cons, List.forall_mem_cons]
      by_cases hcnt : acc.eeCount + 1 > 1
      · rw [if_pos hcnt]
        simp only [Except.isOk, Except.toBool]
        constructor
        · intro h; exact absurd h (by simp)
        · intro h; omega
      · rw [if_neg hcnt]
        by_cases hname : EEs e.Container = none
        · rw [if_pos hname]
          simp only [Except.isOk, Except.toBool]
          constructor
          · intro h; exact absurd h (by simp)
          · intro h
            exact absurd hname (h.2.2.1.1 hty)
        · rw [if_neg hname]
          have hee : ({ acc with eeCount := acc.eeCount + 1, eeName := e.Container, eeSfcElement := e } : NsVxlanScan).eeCount = acc.eeCount + 1 := rfl
          have hdh : ({ acc with eeCount := acc.eeCount + 1, eeName := e.Container, eeSfcElement := e } : NsVxlanScan).dhCount = acc.dhCount := rfl
          rw [ih { acc with eeCount := acc.eeCount + 1, eeName := e.Container, eeSfcElement := e } (by rw [hee]; omega) (by rw [hdh]; exact had), hee, hdh]
          constructor
          · intro ⟨h1, h2, h3, h4⟩
            exact ⟨by omega, h2, ⟨fun _ => hname, h3⟩,
              ⟨fun hx => absurd (hty ▸ hx) (by intro hh; cases hh), h4⟩⟩
          · intro ⟨h1, h2, h3, h4⟩
            exact ⟨by omega, h2, h3.2, h4.2⟩
    | HOST_ENTITY =>
      simp only
      rw [countEE_cons_neg e rest (by simp [hty]), countHE_cons_pos e rest hty,
        List.forall_mem_cons, List.forall_mem_cons]
      by_cases hcnt : acc.dhCount + 1 > 1
      · rw [if_pos hcnt]
        simp only [Except.isOk, Except.toBool]
        constructor
        · intro h; exact absurd h (by simp)
        · intro h; omega
      · rw [if_neg hcnt]
        by_cases hname : HEs e.Container = none
        · rw [if_pos hname]
          simp only [Except.isOk, Except.toBool]
          constructor
          · intro h; exact absurd h (by simp)
          · intro h
            exact absurd hname (h.2.2.2.1 hty)
        · rw [if_neg hname]
          have hee : ({ acc with dhCount := acc.dhCount + 1, dhName := e.Container, dhSfcElement := e } : NsVxlanScan).eeCount = acc.eeCount := rfl
          have hdh : ({ acc with dhCount := acc.dhCount + 1, dhName := e.Container, dhSfcElement := e } : NsVxlanScan).dhCount = acc.dhCount + 1 := rfl
          rw [ih { acc with dhCount := acc.dhCount + 1, dhName := e.Container, dhSfcElement := e } (by rw [hee]; exact hae) (by rw [hdh]; omega), hee, hdh]
          constructor
          · intro ⟨h1, h2, h3, h4⟩
            exact ⟨h1, by omega, ⟨fun hx => absurd (hty ▸ hx) (by intro hh; cases hh), h3⟩,
              ⟨fun _ => hname, h4⟩⟩
          · intro ⟨h1, h2, h3, h4⟩
            exact ⟨h1, by omega, h3.2, h4.2⟩
    | ELEMENT_UNKNOWN =>
      simp only
      rw [countEE_cons_neg e rest (by simp [hty]), countHE_cons_neg e rest (by simp [hty]),
        List.forall_mem_cons, List.forall_mem_cons, ih acc hae had]
      constructor
      · intro ⟨h1, h2, h3, h4⟩
        exact ⟨h1, h2, ⟨fun hx => absurd (hty ▸ hx) (by intro hh; cases hh), h3⟩,
          ⟨fun hx => absurd (hty ▸ hx) (by intro hh; cases hh), h4⟩⟩
      · intro ⟨h1, h2, h3, h4⟩
        exact ⟨h1, h2, h3.2, h4.2⟩
    | VPP_CONTAINER_MEMIF =>
      simp only
      rw [countEE_cons_neg e rest (by simp [hty]), countHE_cons_neg e rest (by simp [hty]),
        List.forall_mem_cons, List.forall_mem_cons, ih acc hae had]
      constructor
      · intro ⟨h1, h2, h3, h4⟩
        exact ⟨h1, h2, ⟨fun hx => absurd (hty ▸ hx) (by intro hh; cases hh), h3⟩,
          ⟨fun hx => absurd (hty ▸ hx) (by intro hh; cases hh), h4⟩⟩
      · intro ⟨h1, h2, h3, h4⟩
        exact ⟨h1, h2, h3.2, h4.2⟩
    | NON_VPP_CONTAINER_AFP =>
      simp only
      rw [countEE_cons_neg e rest (by simp [hty]), countHE_cons_neg e rest (by simp [hty]),
        List.forall_mem_cons, List.forall_mem_cons, ih acc hae had]
      constructor
      · intro ⟨h1, h2, h3, h4⟩
        exact ⟨h1, h2, ⟨fun hx => absurd (hty ▸ hx) (by intro hh; cases hh), h3⟩,
          ⟨fun hx => absurd (hty ▸ hx) (by intro hh; cases hh), h4⟩⟩
      · intro ⟨h1, h2, h3, h4⟩
        exact ⟨h1, h2, h3.2, h4.2⟩
    | NON_VPP_CONTAINER_MEMIF =>
      simp only
      rw [countEE_cons_neg e rest (by simp [hty]), countHE_cons_neg e rest (by simp [hty]),
        List.forall_mem_cons, List.forall_mem_cons, ih acc hae had]
      constructor
      · intro ⟨h1, h2, h3, h4⟩
        exact ⟨h1, h2, ⟨fun hx => absurd (hty ▸ hx) (by intro hh; cases hh), h3⟩,
          ⟨fun hx => absurd (hty ▸ hx) (by intro hh; cases hh), h4⟩⟩
      · intro ⟨h1, h2, h3, h4⟩
        exact ⟨h1, h2, h3.2, h4.2⟩
    | VPP_CONTAINER_AFP =>
      simp only
      rw [countEE_cons_neg e rest (by simp [hty]), countHE_cons_neg e rest (by simp [hty]),
        List.forall_mem_cons, List.forall_mem_cons, ih acc hae had]
      constructor
      · intro ⟨h1, h2, h3, h4⟩
        exact ⟨h1, h2, ⟨fun hx => absurd (hty ▸ hx) (by intro hh; cases hh), h3⟩,
          ⟨fun hx => absurd (hty ▸ hx) (by intro hh; cases hh), h4⟩⟩
      · intro ⟨h1, h2, h3, h4⟩
        exact ⟨h1, h2, h3.2, h4.2⟩

/-- A successful scan returns the accumulated element counts. -/
theorem nsVxlanScanLoop_counts (EEs : String → Option ExternalEntity)
    (HEs : String → Option HostEntity) :
    ∀ (l : List SfcElement) (acc scan : NsVxlanScan),
      nsVxlanScanLoop EEs HEs l acc = Except.ok scan →
      scan.eeCount = acc.eeCount + countEE l ∧ scan.dhCount = acc.dhCount + countHE l := by
  intro l
  induction l with
  | nil =>
    intro acc scan h
    rw [nsVxlanScanLoop] at h
    cases h
    simp [countEE, countHE]
  | cons e rest ih =>
    intro acc scan h
    rw [nsVxlanScanLoop] at h
    cases hty : e.Type' <;> rw [hty] at h <;> simp only at h
    case EXTERNAL_ENTITY =>
      by_cases hcnt : acc.eeCount + 1 > 1
      · rw [if_pos hcnt] at h; cases h
      · rw [if_neg hcnt] at h
        by_cases hname : EEs e.Container = none
        · rw [if_pos hname] at h; cases h
        · rw [if_neg hname] at h
          have hres := ih _ _ h
          rw [countEE_cons_pos e rest hty, countHE_cons_neg e rest (by simp [hty])]
          have hee : ({ acc with eeCount := acc.eeCount + 1, eeName := e.Container, eeSfcElement := e } : NsVxlanScan).eeCount = acc.eeCount + 1 := rfl
          have hdh : ({ acc with eeCount := acc.eeCount + 1, eeName := e.Container, eeSfcElement := e } : NsVxlanScan).dhCount = acc.dhCount := rfl
          rw [hee, hdh] at hres
          omega
    case HOST_ENTITY =>
      by_cases hcnt : acc.dhCount + 1 > 1
      · rw [if_pos hcnt] at h; cases h
      · rw [if_neg hcnt] at h
        by_cases hname : HEs e.Container = none
        · rw [if_pos hname] at h; cases h
        · rw [if_neg hname] at h
          have hres := ih _ _ h
          rw [countEE_cons_neg e rest (by simp [hty]), countHE_cons_pos e rest hty]
          have hee : ({ acc with dhCount := acc.dhCount + 1, dhName := e.Container, dhSfcElement := e } : NsVxlanScan).eeCount = acc.eeCount := rfl
          have hdh : ({ acc with dhCount := acc.dhCount + 1, dhName := e.Container, dhSfcElement := e } : NsVxlanScan).dhCount = acc.dhCount + 1 := rfl
          rw [hee, hdh] at hres
          omega
    all_goals
      have hres := ih _ _ h
      rw [countEE_cons_neg e rest (by simp [hty]), countHE_cons_neg e rest (by simp [hty])]
      omega

/-- C4 (counterexample): none of the claim's error conditions hold for
`c4Sfc` against `c4State` (one external entity, present in the cache; no
host entity), yet `WireSfcEntity` returns an error - raised during
container wiring because host hX is not wired to e1.  So the claim's "if
and only if" fails in the only-if direction. -/
theorem C4_error_without_claim_condition :
    ¬ nsVxlanClaimErrCond c4State c4Sfc ∧
    (WireSfcEntity c4State c4Sfc).2 =
      Except.error "createVxLANAndBridgeToExtEntity: host not wired to this ee for this sfc" ∨
    (WireSfcEntity c4State c4Sfc).2 =
      Except.error "createVxLANAndBridgeToExtEntity: host not found for this sfc" := by
  right
  rfl

/-- C4 (amended): the validation phase of `WireSfcEntity` for an
`SFC_NS_VXLAN` entity fails exactly under the claim's conditions (more
than one external entity, more than one host entity, neither, or an
ee/he element name missing from the entity cache), and any validation
error is returned before any container element is wired (no store writes
or driver calls are emitted); the container wiring phase may raise
further errors. -/
theorem C4_validation_iff_conditions (cnpd : CnpDriver) (sfc : SfcEntity)
    (ht : sfc.Type' = SfcType.SFC_NS_VXLAN) :
    ((nsVxlanValidate cnpd.l2CNPEntityCache.EEs cnpd.l2CNPEntityCache.HEs sfc).isOk = false ↔
      nsVxlanClaimErrCond cnpd sfc) ∧
    (∀ msg, nsVxlanValidate cnpd.l2CNPEntityCache.EEs cnpd.l2CNPEntityCache.HEs sfc =
        Except.error msg →
      (WireSfcEntity cnpd sfc).2 = Except.error msg ∧
      (WireSfcEntity cnpd sfc).1.events = cnpd.events) := by
  have hiff := nsVxlanScanLoop_ok_iff cnpd.l2CNPEntityCache.EEs cnpd.l2CNPEntityCache.HEs
    sfc.Elements NsVxlanScan.init (by simp [NsVxlanScan.init]) (by simp [NsVxlanScan.init])
  have hinit_ee : NsVxlanScan.init.eeCount = 0 := rfl
  have hinit_dh : NsVxlanScan.init.dhCount = 0 := rfl
  rw [hinit_ee, hinit_dh] at hiff
  simp only [Nat.zero_add] at hiff
  constructor
  · unfold nsVxlanValidate
    cases hscan : nsVxlanScanLoop cnpd.l2CNPEntityCache.EEs cnpd.l2CNPEntityCache.HEs
        sfc.Elements NsVxlanScan.init with
    | error msg =>
      rw [hscan] at hiff
      have hnot : ¬ (countEE sfc.Elements ≤ 1 ∧ countHE sfc.Elements ≤ 1 ∧
          (∀ e ∈ sfc.Elements, e.Type' = SfcElementType.EXTERNAL_ENTITY →
            cnpd.l2CNPEntityCache.EEs e.Container ≠ none) ∧
          (∀ e ∈ sfc.Elements, e.Type' = SfcElementType.HOST_ENTITY →
            cnpd.l2CNPEntityCache.HEs e.Container ≠ none)) := by
        rw [← hiff]
        simp [Except.isOk, Except.toBool]
      simp only [Except.isOk, Except.toBool]
      constructor
      · intro _
        by_cases hA : countEE sfc.Elements ≤ 1
        · by_cases hB : countHE sfc.Elements ≤ 1
          · by_cases hC : ∀ e ∈ sfc.Elements, e.Type' = SfcElementType.EXTERNAL_ENTITY →
                cnpd.l2CNPEntityCache.EEs e.Container ≠ none
            · have hD : ¬ ∀ e ∈ sfc.Elements, e.Type' = SfcElementType.HOST_ENTITY →
                  cnpd.l2CNPEntityCache.HEs e.Container ≠ none := by
                intro hD
                exact hnot ⟨hA, hB, hC, hD⟩
              push_neg at hD
              obtain ⟨e, he, hety, hnone⟩ := hD
              exact Or.inr (Or.inr (Or.inr (Or.inr ⟨e, he, hety, hnone⟩)))
            · push_neg at hC
              obtain ⟨e, he, hety, hnone⟩ := hC
              exact Or.inr (Or.inr (Or.inr (Or.inl ⟨e, he, hety, hnone⟩)))
          · exact Or.inr (Or.inl (by omega))
        · exact Or.inl (by omega)
      · intro _; trivial
    | ok scan =>
      have hcounts := nsVxlanScanLoop_counts cnpd.l2CNPEntityCache.EEs
        cnpd.l2CNPEntityCache.HEs sfc.Elements NsVxlanScan.init scan hscan
      rw [hinit_ee, hinit_dh] at hcounts
      simp only [Nat.zero_add] at hcounts
      rw [hscan] at hiff
      have hok := hiff.mp (by simp [Except.isOk, Except.toBool])
      show (if scan.eeCount = 0 ∧ scan.dhCount = 0 then
          (Except.error "wireSfcNorthSouthVXLANElements: NO ee or dh specified for n/s sfc" :
            Except String NsVxlanScan)
        else Except.ok scan).isOk = false ↔ nsVxlanClaimErrCond cnpd sfc
      by_cases hzero : scan.eeCount = 0 ∧ scan.dhCount = 0
      · rw [if_pos hzero]
        simp only [Except.isOk, Except.toBool]
        constructor
        · intro _
          exact Or.inr (Or.inr (Or.inl ⟨by omega, by omega⟩))
        · intro _; trivial
      · rw [if_neg hzero]
        simp only [Except.isOk, Except.toBool]
        constructor
        · intro h; exact absurd h (by simp)
        · intro hcond
          exfalso
          rcases hcond with h | h | h | h | h
          · omega
          · omega
          · exact hzero ⟨by omega, by omega⟩
          · obtain ⟨e, he, hety, hnone⟩ := h
            exact hok.2.2.1 e he hety hnone
          · obtain ⟨e, he, hety, hnone⟩ := h
            exact hok.2.2.2 e he hety hnone
  · intro msg hmsg
    simp only [WireSfcEntity, ht, wireSfcNorthSouthVXLANElements]
    have hproj : ({ cnpd with
        l2CNPEntityCache.SFCs := upd cnpd.l2CNPEntityCache.SFCs sfc.Name sfc } :
        CnpDriver).l2CNPEntityCache.EEs = cnpd.l2CNPEntityCache.EEs := rfl
    have hproj2 : ({ cnpd with
        l2CNPEntityCache.SFCs := upd cnpd.l2CNPEntityCache.SFCs sfc.Name sfc } :
        CnpDriver).l2CNPEntityCache.HEs = cnpd.l2CNPEntityCache.HEs := rfl
    rw [hproj, hproj2, hmsg]
    exact ⟨rfl, rfl⟩

/-- C4 witness: the validation-iff at the counterexample fixture (it
validates successfully, and indeed none of the claim conditions hold). -/
theorem C4_validation_iff_conditions_witness :
    (nsVxlanValidate c4State.l2CNPEntityCache.EEs c4State.l2CNPEntityCache.HEs c4Sfc).isOk =
        false ↔
      nsVxlanClaimErrCond c4State c4Sfc :=
  (C4_validation_iff_conditions c4State c4Sfc rfl).1

theorem eeDriverVnis_append (x y : String) (evs evs' : List Event) :
    eeDriverVnis x y (evs ++ evs') = eeDriverVnis x y evs ++ eeDriverVnis x y evs' := by
  simp [eeDriverVnis, List.filterMap_append]

/-- Store-write events contribute nothing to the driver-call history. -/
theorem eeDriverVnis_store_nil (x y : String) (e : Event) (h : e.isStoreWrite = true) :
    eeDriverVnis x y [e] = [] := by
  cases e <;> simp [eeDriverVnis] <;> simp [Event.isStoreWrite] at h

/-- Looking up a different edge after an entry write is unchanged. -/
theorem lookupHEToEE_upd_ne (st : CnpDriver) (h e h' e' : String) (en : HEToEEStateType)
    (hne : ¬ (h' = h ∧ e' = e)) :
    lookupHEToEE (updHEToEEEntry st h e en) h' e' = lookupHEToEE st h' e' := by
  unfold updHEToEEEntry lookupHEToEE
  cases houter : st.l2CNPStateCache.HEToEEs h with
  | none => rfl
  | some m =>
    simp only [upd]
    by_cases hh : h' = h
    · subst hh
      rw [if_pos rfl, houter]
      show (upd m e en) e' = m e'
      have he' : ¬ e' = e := fun hc => hne ⟨rfl, hc⟩
      simp [upd, he']
    · rw [if_neg hh]

/-- Looking up the written edge after an entry write returns the write,
provided the edge was present. -/
theorem lookupHEToEE_upd_self (st : CnpDriver) (h e : String) (en en0 : HEToEEStateType)
    (hl : lookupHEToEE st h e = some en0) :
    lookupHEToEE (updHEToEEEntry st h e en) h e = some en := by
  unfold updHEToEEEntry lookupHEToEE
  cases houter : st.l2CNPStateCache.HEToEEs h with
  | none => unfold lookupHEToEE at hl; rw [houter] at hl; cases hl
  | some m =>
    simp only [upd, if_pos rfl]
    show (upd m e en) e = some en
    simp [upd]

/-- Lookups depend only on the `HEToEEs` component. -/
theorem lookupHEToEE_ext (st t : CnpDriver)
    (h : st.l2CNPStateCache.HEToEEs = t.l2CNPStateCache.HEToEEs) (a b : String) :
    lookupHEToEE st a b = lookupHEToEE t a b := by
  unfold lookupHEToEE
  rw [h]

/-- `resolveVxlanVlanID` only touches the VLAN counter. -/
theorem resolveVxlanVlanID_frame (cnpd : CnpDriver) (a b : String) (v : Nat) :
    (resolveVxlanVlanID cnpd a b v).1.l2CNPEntityCache = cnpd.l2CNPEntityCache ∧
    (resolveVxlanVlanID cnpd a b v).1.l2CNPStateCache = cnpd.l2CNPStateCache ∧
    (resolveVxlanVlanID cnpd a b v).1.events = cnpd.events ∧
    (resolveVxlanVlanID cnpd a b v).1.reconcileInProgress = cnpd.reconcileInProgress ∧
    (resolveVxlanVlanID cnpd a b v).1.reconcileAfter = cnpd.reconcileAfter ∧
    (resolveVxlanVlanID cnpd a b v).1.datastore = cnpd.datastore := by
  unfold resolveVxlanVlanID
  split
  · split
    · split
      · exact ⟨rfl, rfl, rfl, rfl, rfl, rfl⟩
      · exact ⟨rfl, rfl, rfl, rfl, rfl, rfl⟩
    · exact ⟨rfl, rfl, rfl, rfl, rfl, rfl⟩
  · exact ⟨rfl, rfl, rfl, rfl, rfl, rfl⟩

/-- Writing an edge entry back touches only the `HEToEEs` component. -/
theorem updHEToEEEntry_frame (st : CnpDriver) (h e : String) (en : HEToEEStateType) :
    (updHEToEEEntry st h e en).l2CNPEntityCache = st.l2CNPEntityCache ∧
    (updHEToEEEntry st h e en).events = st.events ∧
    (updHEToEEEntry st h e en).reconcileInProgress = st.reconcileInProgress ∧
    (updHEToEEEntry st h e en).reconcileAfter = st.reconcileAfter ∧
    (updHEToEEEntry st h e en).datastore = st.datastore ∧
    (updHEToEEEntry st h e en).seq = st.seq := by
  unfold updHEToEEEntry
  split
  · exact ⟨rfl, rfl, rfl, rfl, rfl, rfl⟩
  · exact ⟨rfl, rfl, rfl, rfl, rfl, rfl⟩

/-- A single driver-call event contributes its vni exactly to its own
(ee, he) pair. -/
theorem eeDriverVnis_single (x y a b : String) (v : Nat) (sr : StaticRoute) :
    eeDriverVnis x y [Event.wireEEToHE a b v sr] =
      if a = x ∧ b = y then [v] else [] := by
  by_cases hcond : a = x ∧ b = y
  · simp [eeDriverVnis, hcond]
  · simp [eeDriverVnis, hcond]

/-- `vniOfEntry` ignores the bridge and route slots. -/
theorem vniOfEntry_set_bd (en : HEToEEStateType) (b : Option BridgeDomain) :
    vniOfEntry { en with bd := b } = vniOfEntry en := rfl

/-- `vniOfEntry` ignores the route slot. -/
theorem vniOfEntry_set_route (en : HEToEEStateType) (r : Option StaticRoute) :
    vniOfEntry { en with l3Route := r } = vniOfEntry en := rfl

/-- `wireExternalEntityToHostEntity` when the edge entry exists: the
entity and state caches are untouched and exactly one driver-call event
is appended, carrying the vni read off the edge entry. -/
theorem wireEE2HE_spec (cnpd : CnpDriver) (ee : ExternalEntity) (he : HostEntity)
    (en : HEToEEStateType) (hl : lookupHEToEE cnpd he.Name ee.Name = some en) :
    (wireExternalEntityToHostEntity cnpd ee he).l2CNPEntityCache = cnpd.l2CNPEntityCache ∧
    (wireExternalEntityToHostEntity cnpd ee he).l2CNPStateCache = cnpd.l2CNPStateCache ∧
    ∀ x y, eeDriverVnis x y (wireExternalEntityToHostEntity cnpd ee he).events =
      eeDriverVnis x y cnpd.events ++ (if ee.Name = x ∧ he.Name = y then [vniOfEntry en] else []) := by
  unfold lookupHEToEE at hl
  cases houter : cnpd.l2CNPStateCache.HEToEEs he.Name with
  | none => rw [houter] at hl; cases hl
  | some m =>
    rw [houter] at hl
    simp only at hl
    by_cases hrec : cnpd.reconcileInProgress = true
    · refine ⟨?_, ?_, ?_⟩ <;>
        simp only [wireExternalEntityToHostEntity, houter, hl, createStaticRoute, hrec,
          if_true]
      · intro x y
        rw [eeDriverVnis_append, eeDriverVnis_single]
        have hv : (match en.vlanIf with
          | some vlanIf => match vlanIf.Vxlan with
            | some v => v.Vni
            | none => 0
          | none => 0) = vniOfEntry en := rfl
        rw [hv]
    · rw [Bool.not_eq_true] at hrec
      refine ⟨?_, ?_, ?_⟩ <;>
        simp only [wireExternalEntityToHostEntity, houter, hl, createStaticRoute, hrec,
          Bool.false_eq_true, if_false]
      · intro x y
        rw [List.append_assoc, eeDriverVnis_append, eeDriverVnis_append,
          eeDriverVnis_store_nil x y (Event.putStaticRoute _ _) rfl, eeDriverVnis_single]
        have hv : (match en.vlanIf with
          | some vlanIf => match vlanIf.Vxlan with
            | some v => v.Vni
            | none => 0
          | none => 0) = vniOfEntry en := rfl
        rw [hv]
        simp

theorem extPhaseVxlan_spec (cnpd : CnpDriver) (hostName eeName : String) (v : Nat)
    (en : HEToEEStateType) (hl : lookupHEToEE cnpd hostName eeName = some en) :
    PhasePost cnpd (extPhaseVxlan cnpd hostName eeName v en).1 hostName eeName
      (extPhaseVxlan cnpd hostName eeName v en).2 ∧
    (extPhaseVxlan cnpd hostName eeName v en).2.bd = en.bd ∧
    (extPhaseVxlan cnpd hostName eeName v en).2.vlanIf.isSome = true ∧
    ((extPhaseVxlan cnpd hostName eeName v en).2.vlanIf = en.vlanIf ∨
      (en.vlanIf = none ∧
        ∃ vif p, (extPhaseVxlan cnpd hostName eeName v en).2.vlanIf = some vif ∧
          vif.Vxlan = some p)) := by
  cases hvl : en.vlanIf with
  | some vif0 =>
    have he : extPhaseVxlan cnpd hostName eeName v en = (cnpd, en) := by
      unfold extPhaseVxlan; rw [hvl]
    rw [he]
    exact ⟨⟨rfl, hl, fun a b _ => rfl, fun x y => rfl⟩, rfl, by simp [hvl], Or.inl hvl⟩
  | none =>
    obtain ⟨m, houter, hinner⟩ :
        ∃ m, cnpd.l2CNPStateCache.HEToEEs hostName = some m ∧ m eeName = some en := by
      unfold lookupHEToEE at hl
      cases h' : cnpd.l2CNPStateCache.HEToEEs hostName with
      | none => rw [h'] at hl; cases hl
      | some m => rw [h'] at hl; simp only at hl; exact ⟨m, rfl, hl⟩
    have hfr := resolveVxlanVlanID_frame cnpd
      ((cnpd.l2CNPEntityCache.HEs hostName).getD HostEntity.zero).Name
      ((cnpd.l2CNPEntityCache.EEs eeName).getD ExternalEntity.zero).Name v
    simp only [extPhaseVxlan, hvl]
    cases hres : resolveVxlanVlanID cnpd
        ((cnpd.l2CNPEntityCache.HEs hostName).getD HostEntity.zero).Name
        ((cnpd.l2CNPEntityCache.EEs eeName).getD ExternalEntity.zero).Name v with
    | mk st1 v1 =>
    rw [hres] at hfr
    obtain ⟨hf1, hf2, hf3, hf4, hf5, hf6⟩ := hfr
    have hg1 : st1.l2CNPEntityCache = cnpd.l2CNPEntityCache := hf1
    have hg2 : st1.l2CNPStateCache = cnpd.l2CNPStateCache := hf2
    have hg3 : st1.events = cnpd.events := hf3
    have hg4 : st1.reconcileInProgress = cnpd.reconcileInProgress := hf4
    by_cases hrec : cnpd.reconcileInProgress = true
    · simp only [vxLanCreate, hg4, hrec, if_true, updHEToEEEntry, DatastoreHE2EEIDsCreate, hg2,
        houter]
      refine ⟨⟨hg1, ?_, ?_, ?_⟩, by trivial, by trivial, Or.inr ⟨by trivial, _, _, rfl, rfl⟩⟩
      · simp [lookupHEToEE, upd]
      · intro a b hne
        by_cases ha : a = hostName
        · subst ha
          have hb : ¬ b = eeName := fun hc => hne ⟨rfl, hc⟩
          simp [lookupHEToEE, upd, hb, houter]
        · simp [lookupHEToEE, upd, ha]
      · intro x y
        exact congrArg (eeDriverVnis x y) hg3
    · rw [Bool.not_eq_true] at hrec
      simp only [vxLanCreate, hg4, hrec, Bool.false_eq_true, if_false, updHEToEEEntry,
        DatastoreHE2EEIDsCreate, hg2, houter]
      refine ⟨⟨hg1, ?_, ?_, ?_⟩, by trivial, by trivial, Or.inr ⟨by trivial, _, _, rfl, rfl⟩⟩
      · simp [lookupHEToEE, upd]
      · intro a b hne
        by_cases ha : a = hostName
        · subst ha
          have hb : ¬ b = eeName := fun hc => hne ⟨rfl, hc⟩
          simp [lookupHEToEE, upd, hb, houter]
        · simp [lookupHEToEE, upd, ha]
      · intro x y
        rw [eeDriverVnis_append, hg3, eeDriverVnis_store_nil x y (Event.putVppInterface _ _) rfl]
        simp

theorem extPhaseRoute_spec (cnpd : CnpDriver) (hostName eeName : String)
    (en : HEToEEStateType) (hl : lookupHEToEE cnpd hostName eeName = some en) :
    PhasePost cnpd (extPhaseRoute cnpd hostName eeName en).1 hostName eeName
      (extPhaseRoute cnpd hostName eeName en).2 ∧
    (extPhaseRoute cnpd hostName eeName en).2.bd = en.bd ∧
    (extPhaseRoute cnpd hostName eeName en).2.vlanIf = en.vlanIf := by
  cases hl3 : en.l3Route with
  | some r =>
    have he : extPhaseRoute cnpd hostName eeName en = (cnpd, en) := by
      unfold extPhaseRoute; rw [hl3]
    rw [he]
    exact ⟨⟨rfl, hl, fun a b _ => rfl, fun x y => rfl⟩, rfl, rfl⟩
  | none =>
    obtain ⟨m, houter, hinner⟩ :
        ∃ m, cnpd.l2CNPStateCache.HEToEEs hostName = some m ∧ m eeName = some en := by
      unfold lookupHEToEE at hl
      cases h' : cnpd.l2CNPStateCache.HEToEEs hostName with
      | none => rw [h'] at hl; cases hl
      | some m => rw [h'] at hl; simp only at hl; exact ⟨m, rfl, hl⟩
    by_cases hcr : ((cnpd.l2CNPEntityCache.HEs hostName).getD
        HostEntity.zero).CreateVxlanStaticRoute = true
    · by_cases hrec : cnpd.reconcileInProgress = true
      · simp only [extPhaseRoute, hl3, hcr, if_true, createStaticRoute, hrec, updHEToEEEntry,
          houter]
        refine ⟨⟨rfl, ?_, ?_, ?_⟩, by trivial, by trivial⟩
        · simp [lookupHEToEE, upd]
        · intro a b hne
          by_cases ha : a = hostName
          · subst ha
            have hb : ¬ b = eeName := fun hc => hne ⟨rfl, hc⟩
            simp [lookupHEToEE, upd, hb, houter]
          · simp [lookupHEToEE, upd, ha]
        · intro x y
          rfl
      · rw [Bool.not_eq_true] at hrec
        simp only [extPhaseRoute, hl3, hcr, if_true, createStaticRoute, hrec, Bool.false_eq_true,
          if_false, updHEToEEEntry, houter]
        refine ⟨⟨rfl, ?_, ?_, ?_⟩, by trivial, by trivial⟩
        · simp [lookupHEToEE, upd]
        · intro a b hne
          by_cases ha : a = hostName
          · subst ha
            have hb : ¬ b = eeName := fun hc => hne ⟨rfl, hc⟩
            simp [lookupHEToEE, upd, hb, houter]
          · simp [lookupHEToEE, upd, ha]
        · intro x y
          rw [eeDriverVnis_append, eeDriverVnis_store_nil x y (Event.putStaticRoute _ _) rfl]
          simp
    · rw [Bool.not_eq_true] at hcr
      have he : extPhaseRoute cnpd hostName eeName en = (cnpd, en) := by
        unfold extPhaseRoute
        rw [hl3]
        simp only [hcr, Bool.false_eq_true, if_false]
      rw [he]
      exact ⟨⟨rfl, hl, fun a b _ => rfl, fun x y => rfl⟩, rfl, rfl⟩

theorem extPhaseBd_some (cnpd : CnpDriver) (hostName eeName : String)
    (en : HEToEEStateType) (bd : BridgeDomain) (hbd : en.bd = some bd) :
    extPhaseBd cnpd hostName eeName en = (cnpd, bd) := by
  unfold extPhaseBd; rw [hbd]

theorem bridgedDomainCreateWithIfs_frame (cnpd : CnpDriver) (k b : String)
    (ifs : List BDInterface) (p : BDParms) :
    (bridgedDomainCreateWithIfs cnpd k b ifs p).1.l2CNPEntityCache = cnpd.l2CNPEntityCache ∧
    (bridgedDomainCreateWithIfs cnpd k b ifs p).1.l2CNPStateCache = cnpd.l2CNPStateCache ∧
    ∀ x y, eeDriverVnis x y (bridgedDomainCreateWithIfs cnpd k b ifs p).1.events =
      eeDriverVnis x y cnpd.events := by
  unfold bridgedDomainCreateWithIfs
  split
  · exact ⟨rfl, rfl, fun x y => rfl⟩
  · refine ⟨rfl, rfl, fun x y => ?_⟩
    show eeDriverVnis x y (cnpd.events ++ [Event.putBD k _]) = eeDriverVnis x y cnpd.events
    rw [eeDriverVnis_append, eeDriverVnis_store_nil x y (Event.putBD _ _) rfl]
    simp

theorem extPhaseBd_none_spec (cnpd : CnpDriver) (hostName eeName : String)
    (en : HEToEEStateType) (hbd : en.bd = none)
    (hl : lookupHEToEE cnpd hostName eeName = some en)
    (heRec : HostEntity) (eeRec : ExternalEntity)
    (hhe : cnpd.l2CNPEntityCache.HEs hostName = some heRec) (hheN : heRec.Name = hostName)
    (hee : cnpd.l2CNPEntityCache.EEs eeName = some eeRec) (heeN : eeRec.Name = eeName) :
    (extPhaseBd cnpd hostName eeName en).1.l2CNPEntityCache = cnpd.l2CNPEntityCache ∧
    lookupHEToEE (extPhaseBd cnpd hostName eeName en).1 hostName eeName =
      some { en with bd := some (extPhaseBd cnpd hostName eeName en).2 } ∧
    (∀ a b, ¬ (a = hostName ∧ b = eeName) →
      lookupHEToEE (extPhaseBd cnpd hostName eeName en).1 a b = lookupHEToEE cnpd a b) ∧
    (∀ x y, eeDriverVnis x y (extPhaseBd cnpd hostName eeName en).1.events =
      eeDriverVnis x y cnpd.events ++
        (if eeName = x ∧ hostName = y then [vniOfEntry en] else [])) := by
  cases hbc : bridgedDomainCreateWithIfs cnpd hostName ("BD_H2E_" ++ hostName ++ "_" ++ eeName)
      [{ Name := (en.vlanIf.map Iface.Name).getD "" }]
      cnpd.l2CNPEntityCache.SysParms.DynamicBridgeParms with
  | mk cnpd2 bdv =>
  have hkey : extPhaseBd cnpd hostName eeName en =
      (wireExternalEntityToHostEntity
        (updHEToEEEntry cnpd2 hostName eeName { en with bd := some bdv }) eeRec heRec, bdv) := by
    unfold extPhaseBd
    rw [hbd]
    simp only [hhe, hee, Option.getD_some, hheN, heeN, hbc]
  have hb := bridgedDomainCreateWithIfs_frame cnpd hostName
    ("BD_H2E_" ++ hostName ++ "_" ++ eeName)
    [{ Name := (en.vlanIf.map Iface.Name).getD "" }]
    cnpd.l2CNPEntityCache.SysParms.DynamicBridgeParms
  rw [hbc] at hb
  have hb1 : cnpd2.l2CNPEntityCache = cnpd.l2CNPEntityCache := hb.1
  have hb2 : cnpd2.l2CNPStateCache = cnpd.l2CNPStateCache := hb.2.1
  have hb3 : ∀ x y, eeDriverVnis x y cnpd2.events = eeDriverVnis x y cnpd.events := hb.2.2
  have hl2 : lookupHEToEE cnpd2 hostName eeName = some en := by
    rw [lookupHEToEE_ext cnpd2 cnpd (congrArg L2CNPStateCacheType.HEToEEs hb2)]
    exact hl
  have hu := updHEToEEEntry_frame cnpd2 hostName eeName { en with bd := some bdv }
  have hself : lookupHEToEE (updHEToEEEntry cnpd2 hostName eeName { en with bd := some bdv })
      hostName eeName = some { en with bd := some bdv } :=
    lookupHEToEE_upd_self cnpd2 hostName eeName _ en hl2
  have hw := wireEE2HE_spec (updHEToEEEntry cnpd2 hostName eeName { en with bd := some bdv })
    eeRec heRec { en with bd := some bdv } (by rw [hheN, heeN]; exact hself)
  rw [hkey]
  refine ⟨?_, ?_, ?_, ?_⟩
  · rw [hw.1, hu.1, hb1]
  · rw [lookupHEToEE_ext _ (updHEToEEEntry cnpd2 hostName eeName { en with bd := some bdv })
      (congrArg L2CNPStateCacheType.HEToEEs hw.2.1)]
    exact hself
  · intro a b hne
    rw [lookupHEToEE_ext _ (updHEToEEEntry cnpd2 hostName eeName { en with bd := some bdv })
      (congrArg L2CNPStateCacheType.HEToEEs hw.2.1)]
    rw [lookupHEToEE_upd_ne cnpd2 hostName eeName a b _ hne]
    rw [lookupHEToEE_ext cnpd2 cnpd (congrArg L2CNPStateCacheType.HEToEEs hb2)]
  · intro x y
    rw [hw.2.2 x y, hu.2.1, hb3 x y, hheN, heeN, vniOfEntry_set_bd]

/-- `vniOfEntry` depends only on the tunnel slot. -/
theorem vniOfEntry_congr (en en' : HEToEEStateType) (h : en.vlanIf = en'.vlanIf) :
    vniOfEntry en = vniOfEntry en' := by
  unfold vniOfEntry
  rw [h]

theorem C3_step (cnpd : CnpDriver) (heName eeName : String) (sfc : SfcEntity)
    (h2 e2 : String) (v : Nat)
    (hwf : cacheNamesOk cnpd)
    (hhe2 : (cnpd.l2CNPEntityCache.HEs h2).isSome = true)
    (hee2 : (cnpd.l2CNPEntityCache.EEs e2).isSome = true)
    (hinv : C3Inv heName eeName cnpd) :
    C3Inv heName eeName (createVxLANAndBridgeToExtEntity cnpd sfc h2 e2 v).1 ∧
    (createVxLANAndBridgeToExtEntity cnpd sfc h2 e2 v).1.l2CNPEntityCache =
      cnpd.l2CNPEntityCache := by
  obtain ⟨en, hlen, hvx, hbdv, hhist⟩ := hinv
  cases hlook : lookupHEToEE cnpd h2 e2 with
  | none =>
    have hid : (createVxLANAndBridgeToExtEntity cnpd sfc h2 e2 v).1 = cnpd := by
      have hlook' := hlook
      unfold lookupHEToEE at hlook'
      unfold createVxLANAndBridgeToExtEntity
      cases ho : cnpd.l2CNPStateCache.HEToEEs h2 with
      | none => rfl
      | some m2 =>
        rw [ho] at hlook'
        simp only at hlook'
        simp only [ho, hlook']
    rw [hid]
    exact ⟨⟨en, hlen, hvx, hbdv, hhist⟩, rfl⟩
  | some en2 =>
    have hkey : (createVxLANAndBridgeToExtEntity cnpd sfc h2 e2 v).1 =
        (extPhaseBd (extPhaseRoute (extPhaseVxlan cnpd h2 e2 v en2).1 h2 e2
            (extPhaseVxlan cnpd h2 e2 v en2).2).1 h2 e2
          (extPhaseRoute (extPhaseVxlan cnpd h2 e2 v en2).1 h2 e2
            (extPhaseVxlan cnpd h2 e2 v en2).2).2).1 := by
      have hlook' := hlook
      unfold lookupHEToEE at hlook'
      unfold createVxLANAndBridgeToExtEntity
      cases ho : cnpd.l2CNPStateCache.HEToEEs h2 with
      | none => rw [ho] at hlook'; cases hlook'
      | some m2 =>
        rw [ho] at hlook'
        simp only at hlook'
        simp only [ho, hlook']
    obtain ⟨⟨hp1ent, hp1self, hp1oth, hp1ev⟩, hp1bd, hp1some, hp1vx⟩ :=
      extPhaseVxlan_spec cnpd h2 e2 v en2 hlook
    obtain ⟨⟨hp2ent, hp2self, hp2oth, hp2ev⟩, hp2bd, hp2vl⟩ :=
      extPhaseRoute_spec (extPhaseVxlan cnpd h2 e2 v en2).1 h2 e2
        (extPhaseVxlan cnpd h2 e2 v en2).2 hp1self
    have hst2ent : (extPhaseRoute (extPhaseVxlan cnpd h2 e2 v en2).1 h2 e2
        (extPhaseVxlan cnpd h2 e2 v en2).2).1.l2CNPEntityCache = cnpd.l2CNPEntityCache :=
      hp2ent.trans hp1ent
    have hbd2 : (extPhaseRoute (extPhaseVxlan cnpd h2 e2 v en2).1 h2 e2
        (extPhaseVxlan cnpd h2 e2 v en2).2).2.bd = en2.bd := hp2bd.trans hp1bd
    cases hbdc : (extPhaseRoute (extPhaseVxlan cnpd h2 e2 v en2).1 h2 e2
        (extPhaseVxlan cnpd h2 e2 v en2).2).2.bd with
    | some bd0 =>
      have hb := extPhaseBd_some (extPhaseRoute (extPhaseVxlan cnpd h2 e2 v en2).1 h2 e2
          (extPhaseVxlan cnpd h2 e2 v en2).2).1 h2 e2
        (extPhaseRoute (extPhaseVxlan cnpd h2 e2 v en2).1 h2 e2
          (extPhaseVxlan cnpd h2 e2 v en2).2).2 bd0 hbdc
      rw [hkey, hb]
      by_cases hsame : h2 = heName ∧ e2 = eeName
      · obtain ⟨rfl, rfl⟩ := hsame
        have hen : en = en2 := by rw [hlen] at hlook; exact Option.some.inj hlook
        subst hen
        refine ⟨⟨(extPhaseRoute (extPhaseVxlan cnpd h2 e2 v en).1 h2 e2
            (extPhaseVxlan cnpd h2 e2 v en).2).2, hp2self, ?_, ?_, ?_⟩, hst2ent⟩
        · intro vif hv
          rw [hp2vl] at hv
          cases hp1vx with
          | inl h1 => rw [h1] at hv; exact hvx vif hv
          | inr h1 =>
            obtain ⟨_, vif', p, hv', hp⟩ := h1
            rw [hv'] at hv
            exact ⟨p, (Option.some.inj hv) ▸ hp⟩
        · intro _
          rw [hp2vl]
          exact hp1some
        · rw [hp2ev, hp1ev, hhist, hbd2]
          by_cases hs : en.bd.isSome = true
          · have hvl1 : (extPhaseVxlan cnpd h2 e2 v en).2.vlanIf = en.vlanIf := by
              cases hp1vx with
              | inl h1 => exact h1
              | inr h1 =>
                exfalso
                have := hbdv hs
                rw [h1.1] at this
                cases this
            rw [hs, if_pos rfl, if_pos rfl, vniOfEntry_congr _ en (hp2vl.trans hvl1)]
          · rw [Bool.not_eq_true] at hs
            simp [hs]
      · have hne : ¬ (heName = h2 ∧ eeName = e2) := fun h => hsame ⟨h.1.symm, h.2.symm⟩
        refine ⟨⟨en, ?_, hvx, hbdv, ?_⟩, hst2ent⟩
        · rw [hp2oth heName eeName hne, hp1oth heName eeName hne]
          exact hlen
        · rw [hp2ev, hp1ev]
          exact hhist
    | none =>
      obtain ⟨heRec2, hhe2'⟩ := Option.isSome_iff_exists.mp hhe2
      obtain ⟨eeRec2, hee2'⟩ := Option.isSome_iff_exists.mp hee2
      have hheN2 : heRec2.Name = h2 := hwf.1 h2 heRec2 hhe2'
      have heeN2 : eeRec2.Name = e2 := hwf.2 e2 eeRec2 hee2'
      have hhe2s : (extPhaseRoute (extPhaseVxlan cnpd h2 e2 v en2).1 h2 e2
          (extPhaseVxlan cnpd h2 e2 v en2).2).1.l2CNPEntityCache.HEs h2 = some heRec2 := by
        rw [hst2ent]; exact hhe2'
      have hee2s : (extPhaseRoute (extPhaseVxlan cnpd h2 e2 v en2).1 h2 e2
          (extPhaseVxlan cnpd h2 e2 v en2).2).1.l2CNPEntityCache.EEs e2 = some eeRec2 := by
        rw [hst2ent]; exact hee2'
      obtain ⟨hq1, hq2, hq3, hq4⟩ := extPhaseBd_none_spec
        (extPhaseRoute (extPhaseVxlan cnpd h2 e2 v en2).1 h2 e2
          (extPhaseVxlan cnpd h2 e2 v en2).2).1 h2 e2
        (extPhaseRoute (extPhaseVxlan cnpd h2 e2 v en2).1 h2 e2
          (extPhaseVxlan cnpd h2 e2 v en2).2).2 hbdc hp2self heRec2 eeRec2 hhe2s hheN2
        hee2s heeN2
      rw [hkey]
      by_cases hsame : h2 = heName ∧ e2 = eeName
      · obtain ⟨rfl, rfl⟩ := hsame
        have hen : en = en2 := by rw [hlen] at hlook; exact Option.some.inj hlook
        subst hen
        refine ⟨⟨_, hq2, ?_, ?_, ?_⟩, hq1.trans hst2ent⟩
        · intro vif hv
          have hv' : (extPhaseRoute (extPhaseVxlan cnpd h2 e2 v en).1 h2 e2
              (extPhaseVxlan cnpd h2 e2 v en).2).2.vlanIf = some vif := hv
          rw [hp2vl] at hv'
          cases hp1vx with
          | inl h1 => rw [h1] at hv'; exact hvx vif hv'
          | inr h1 =>
            obtain ⟨_, vif', p, hw', hp⟩ := h1
            rw [hw'] at hv'
            exact ⟨p, (Option.some.inj hv') ▸ hp⟩
        · intro _
          show (extPhaseRoute (extPhaseVxlan cnpd h2 e2 v en).1 h2 e2
            (extPhaseVxlan cnpd h2 e2 v en).2).2.vlanIf.isSome = true
          rw [hp2vl]
          exact hp1some
        · rw [hq4 e2 h2, if_pos ⟨rfl, rfl⟩, hp2ev, hp1ev, hhist]
          have hbdn : en.bd = none := by rw [← hbd2]; exact hbdc
          rw [hbdn]
          show [] ++ _ = _
          rw [List.nil_append]
          rw [show ({ (extPhaseRoute (extPhaseVxlan cnpd h2 e2 v en).1 h2 e2
              (extPhaseVxlan cnpd h2 e2 v en).2).2 with
            bd := some (extPhaseBd (extPhaseRoute (extPhaseVxlan cnpd h2 e2 v en).1 h2 e2
              (extPhaseVxlan cnpd h2 e2 v en).2).1 h2 e2
              (extPhaseRoute (extPhaseVxlan cnpd h2 e2 v en).1 h2 e2
                (extPhaseVxlan cnpd h2 e2 v en).2).2).2 } : HEToEEStateType).bd =
            some (extPhaseBd (extPhaseRoute (extPhaseVxlan cnpd h2 e2 v en).1 h2 e2
              (extPhaseVxlan cnpd h2 e2 v en).2).1 h2 e2
              (extPhaseRoute (extPhaseVxlan cnpd h2 e2 v en).1 h2 e2
                (extPhaseVxlan cnpd h2 e2 v en).2).2).2 from rfl]
          rw [vniOfEntry_set_bd]
          rfl
      · have hne : ¬ (heName = h2 ∧ eeName = e2) := fun h => hsame ⟨h.1.symm, h.2.symm⟩
        refine ⟨⟨en, ?_, hvx, hbdv, ?_⟩, hq1.trans hst2ent⟩
        · rw [hq3 heName eeName hne, hp2oth heName eeName hne, hp1oth heName eeName hne]
          exact hlen
        · rw [hq4 eeName heName, if_neg (fun h => hsame ⟨h.2, h.1⟩), hp2ev, hp1ev,
            List.append_nil]
          exact hhist

/-- The per-edge invariant is preserved by any sequence of
`createVxLANAndBridgeToExtEntity` calls over cached entities. -/
theorem runExtCalls_C3Inv (cnpd : CnpDriver) (heName eeName : String) (calls : List C3Call)
    (hwf : cacheNamesOk cnpd)
    (hcalls : ∀ c ∈ calls, (cnpd.l2CNPEntityCache.HEs c.hostName).isSome = true ∧
      (cnpd.l2CNPEntityCache.EEs c.eeName).isSome = true)
    (hinv : C3Inv heName eeName cnpd) :
    C3Inv heName eeName (runExtCalls cnpd calls) := by
  induction calls generalizing cnpd with
  | nil => exact hinv
  | cons c rest ih =>
    obtain ⟨hh, he⟩ := hcalls c (List.mem_cons_self c rest)
    have hstep := C3_step cnpd heName eeName c.sfc c.hostName c.eeName c.vlanID hwf hh he hinv
    have hent := hstep.2
    refine ih _ ⟨fun n r hx => hwf.1 n r ?_, fun n r hx => hwf.2 n r ?_⟩
      (fun c2 hc2 => ?_) hstep.1
    · rw [hent] at hx; exact hx
    · rw [hent] at hx; exact hx
    · have h2 := hcalls c2 (List.mem_cons_of_mem c hc2)
      rw [hent]
      exact h2

/-- C3: for every (he, ee) edge, over any sequence of
`createVxLANAndBridgeToExtEntity` calls (the only emitter of the
external-entity driver call), the driver call for the edge is emitted
exactly once - the first time the bridge domain for the edge is created -
and its vni argument equals the Vni of the vxlan tunnel interface
recorded for the he-to-ee direction: once the bridge exists the driver
history for the edge is exactly `[p.Vni]` for the tunnel payload `p`, and
before that it is empty. -/
theorem C3_driver_call_once_per_edge (cnpd : CnpDriver) (heName eeName : String) (calls : List C3Call)
    (hwf : cacheNamesOk cnpd)
    (hcalls : ∀ c ∈ calls, (cnpd.l2CNPEntityCache.HEs c.hostName).isSome = true ∧
      (cnpd.l2CNPEntityCache.EEs c.eeName).isSome = true)
    (hinv : C3Inv heName eeName cnpd) :
    ∃ en, lookupHEToEE (runExtCalls cnpd calls) heName eeName = some en ∧
      (en.bd.isSome = true → ∃ vif p, en.vlanIf = some vif ∧ vif.Vxlan = some p ∧
        eeDriverVnis eeName heName (runExtCalls cnpd calls).events = [p.Vni]) ∧
      (en.bd.isSome = false → eeDriverVnis eeName heName (runExtCalls cnpd calls).events = []) := by
  obtain ⟨en, hl, hvx, hbdv, hhist⟩ := runExtCalls_C3Inv cnpd heName eeName calls hwf hcalls hinv
  refine ⟨en, hl, ?_, ?_⟩
  · intro hbd
    obtain ⟨vif, hv⟩ := Option.isSome_iff_exists.mp (hbdv hbd)
    obtain ⟨p, hp⟩ := hvx vif hv
    refine ⟨vif, p, hv, hp, ?_⟩
    rw [hhist, if_pos hbd]
    have : vniOfEntry en = p.Vni := by simp only [vniOfEntry, hv, hp]
    rw [this]
  · intro hbd
    rw [hhist, hbd]
    simp

theorem C3_driver_call_once_per_edge_witness :
    cacheNamesOk c3State ∧
    (∀ c ∈ c3Calls, (c3State.l2CNPEntityCache.HEs c.hostName).isSome = true ∧
      (c3State.l2CNPEntityCache.EEs c.eeName).isSome = true) ∧
    C3Inv "h1" "ee1" c3State ∧
    (∃ en, lookupHEToEE (runExtCalls c3State c3Calls) "h1" "ee1" = some en ∧
      (en.bd.isSome = true → ∃ vif p, en.vlanIf = some vif ∧ vif.Vxlan = some p ∧
        eeDriverVnis "ee1" "h1" (runExtCalls c3State c3Calls).events = [p.Vni]) ∧
      (en.bd.isSome = false → eeDriverVnis "ee1" "h1" (runExtCalls c3State c3Calls).events = [])) := by
  have hwf : cacheNamesOk c3State := by
    constructor
    · intro n r hx
      have hx' : upd emptyMap "h1" c3He n = some r := hx
      by_cases hn : n = "h1"
      · subst hn
        have : some c3He = some r := by rw [← hx']; simp [upd]
        rw [← Option.some.inj this]
        rfl
      · exfalso
        have : (emptyMap : String → Option HostEntity) n = some r := by
          rw [← hx']; simp [upd, hn]
        cases this
    · intro n r hx
      have hx' : upd emptyMap "ee1" c3Ee n = some r := hx
      by_cases hn : n = "ee1"
      · subst hn
        have : some c3Ee = some r := by rw [← hx']; simp [upd]
        rw [← Option.some.inj this]
        rfl
      · exfalso
        have : (emptyMap : String → Option ExternalEntity) n = some r := by
          rw [← hx']; simp [upd, hn]
        cases this
  have hcalls : ∀ c ∈ c3Calls, (c3State.l2CNPEntityCache.HEs c.hostName).isSome = true ∧
      (c3State.l2CNPEntityCache.EEs c.eeName).isSome = true := by decide
  have hinv : C3Inv "h1" "ee1" c3State := by
    refine ⟨{ vlanIf := none, bd := none, l3Route := none }, by decide, ?_, ?_, by decide⟩
    · intro vif h
      cases h
    · intro h
      cases h
  exact ⟨hwf, hcalls, hinv, C3_driver_call_once_per_edge c3State "h1" "ee1" c3Calls hwf hcalls hinv⟩

end SfcL2
